import Mathlib

/-!
# Shopease: order and payment consistency

A shallow embedding of `backend/controller/order.controller.js` and
`backend/controller/payment.controller.js` together with the Mongoose
schemas they use (`product.model.js`, `order.model.js`, `payment.model.js`).

Modelling conventions.
* The document store is a record of three lists (products, orders, payments);
  every handler takes the store and returns the new store with its answer.
* JavaScript numbers are modelled by `Int` (quantities, prices, amounts).
* A field that may be absent (`undefined`/`null`) is an `Option`.
* Thrown errors are `Except String`, the string being `err.message`.
* A Mongo transaction works on a copy of the store which is kept on commit
  and dropped on abort.
* `ObjectId`s are natural numbers; a created document gets an id larger than
  every id of its collection.
* `Model.create([doc], { session })` resolves to an array of documents,
  `Model.create(doc)` to one document; the two shapes are kept apart (`Returned`).
* Schema validation is modelled where a handler passes client data to
  `Model.create` (required item fields, the `paymentMethod` enum); updates through
  `findByIdAndUpdate` run no validators.

Outside the model: numbers that are not integers (`NaN`, fractions), ids that do not
cast to an `ObjectId`, time stamps, and failures of the data store itself.
-/

namespace Shopease

/-! ## Data model -/

/-- Product document (`product.model.js`), restricted to the fields the
controllers read or write. -/
structure Product where
  _id : Nat
  name : String
  price : Int
  quantity : Int
  seller : Nat
  images : List String
deriving DecidableEq, Repr

/-- One element of a client supplied `items` array. Every field may be absent. -/
structure SourceItem where
  productId : Option Nat := none
  _id : Option Nat := none
  quantity : Option Int := none
  name : Option String := none
  price : Option Int := none
  itemTotal : Option Int := none
  sellerId : Option Nat := none
deriving DecidableEq, Repr

/-- Embedded order line (`OrderItemSchema`, the same in the order and the payment model). -/
structure OrderItem where
  productId : Nat
  name : String
  sellerId : Option Nat
  quantity : Int
  price : Int
  itemTotal : Int
deriving DecidableEq, Repr

/-- Embedded address (`AddressSchema`). -/
structure Address where
  name : Option String := none
  street : Option String := none
  city : Option String := none
  state : Option String := none
  country : Option String := none
  postalCode : Option String := none
  phoneNumber : Option String := none
deriving DecidableEq, Repr

/-- The `paymentMethod` enum of the order schema. -/
inductive PaymentMethod where
  | UPI
  | NetBanking
  | Cash
  | Card
deriving DecidableEq, Repr

/-- Timeline entry of an order (the date is not modelled). -/
structure TimelineEntry where
  status : String
  note : String
deriving DecidableEq, Repr

/-- Order document (`order.model.js`). -/
structure Order where
  _id : Nat
  userId : Nat
  orderId : String
  razorpayOrderId : Option String
  paymentId : Option Nat
  paymentMethod : PaymentMethod
  upiId : Option String
  bankCode : Option String
  items : List OrderItem
  amount : Int
  shippingAddress : Option Address
  status : String
  timeline : List TimelineEntry
deriving DecidableEq, Repr

/-- Payment document (`payment.model.js`). -/
structure Payment where
  _id : Nat
  userId : Nat
  orderId : String
  paymentMethod : PaymentMethod
  razorpayOrderId : Option String
  razorpayPaymentId : Option String
  razorpaySignature : Option String
  upiId : Option String
  bankCode : Option String
  items : List OrderItem
  shippingAddress : Address
  status : String
  amount : Int
  orderRef : Option Nat
deriving DecidableEq, Repr

/-- The three collections. -/
structure Store where
  products : List Product
  orders : List Order
  payments : List Payment
deriving DecidableEq, Repr

/-! ## Store primitives -/

/-- JavaScript truthiness of an optional string. -/
def truthy (s : Option String) : Bool :=
  match s with
  | some v => v != ""
  | none => false

/-- The `a || b` of JavaScript on an optional string with a string default. -/
def orDefault (s : Option String) (d : String) : String :=
  match s with
  | some v => if v = "" then d else v
  | none => d

/-- The `a || null` of JavaScript on an optional string. -/
def orNull (s : Option String) : Option String :=
  if truthy s then s else none

/-- The query `Product.findById`. -/
def findProduct (products : List Product) (id : Nat) : Option Product :=
  products.find? (fun p => p._id = id)

/-- The update `Product.findByIdAndUpdate(id, { $inc: { quantity: delta } })`: the first document
with that id gets `quantity + delta`; `none` when no document has that id. -/
def incQuantity : List Product → Nat → Int → Option (List Product)
  | [], _, _ => none
  | p :: ps, id, delta =>
    if p._id = id then some ({ p with quantity := p.quantity + delta } :: ps)
    else (incQuantity ps id delta).map (fun qs => p :: qs)

/-- The query `Payment.findById`. -/
def findPayment (payments : List Payment) (id : Nat) : Option Payment :=
  payments.find? (fun p => p._id = id)

/-- The query `Order.findOne({ paymentId })`. -/
def findOrderByPayment (orders : List Order) (paymentId : Nat) : Option Order :=
  orders.find? (fun o => o.paymentId = some paymentId)

/-- A fresh id for a collection whose ids are `ids`. -/
def freshId (ids : List Nat) : Nat :=
  ids.foldr max 0 + 1

/-! ## Order builder (`validateAndBuildOrderItems`) -/

/-- The expression `it.productId || it._id`. -/
def itemProductId (it : SourceItem) : Option Nat :=
  it.productId <|> it._id

/-- The expression `Number(it.quantity ?? 1)`. -/
def itemQuantity (it : SourceItem) : Int :=
  it.quantity.getD 1

/-- The body of the `for` loop of `validateAndBuildOrderItems` for one element. -/
def buildLine (products : List Product) (it : SourceItem) : Except String OrderItem :=
  let productId := itemProductId it
  let quantity := itemQuantity it
  match productId with
  | none => .error "Invalid product or quantity"
  | some pid =>
    if quantity ≤ 0 then .error "Invalid product or quantity"
    else
      match findProduct products pid with
      | none => .error "Product not found"
      | some product =>
        if product.quantity < quantity then
          .error ("Insufficient stock for " ++ product.name)
        else
          let price := if product.price = 0 then 0 else product.price
          let line := price * quantity
          .ok { productId := product._id, name := product.name, sellerId := some product.seller,
                quantity := quantity, price := price, itemTotal := line }

/-- The `for` loop of `validateAndBuildOrderItems`, with its two accumulators. -/
def buildLoop (products : List Product) :
    List SourceItem → List OrderItem → Int → Except String (List OrderItem × Int)
  | [], orderItems, recomputedTotal => .ok (orderItems, recomputedTotal)
  | it :: rest, orderItems, recomputedTotal =>
    match buildLine products it with
    | .error e => .error e
    | .ok l => buildLoop products rest (orderItems ++ [l]) (recomputedTotal + l.itemTotal)

/-- The function `validateAndBuildOrderItems(sourceItems)`: returns
`(orderItems, recomputedTotal)` or throws. -/
def validateAndBuildOrderItems (products : List Product) (sourceItems : List SourceItem) :
    Except String (List OrderItem × Int) :=
  if sourceItems.length = 0 then .error "No items to order"
  else buildLoop products sourceItems [] 0

/-! ## Transactional writer and reconciler (`order.controller.js`) -/

/-- Parsing of a `paymentMethod` string against the enum of the order schema. -/
def PaymentMethod.ofString? (m : String) : Option PaymentMethod :=
  if m = "UPI" then some .UPI
  else if m = "Net Banking" then some .NetBanking
  else if m = "Cash" then some .Cash
  else if m = "Card" then some .Card
  else none

/-- A value returned by `Order.create`/`Order.findOne`: one document, or the array of
documents that `Model.create([...], options)` resolves to. -/
inductive Returned where
  | doc (o : Order)
  | docs (os : List Order)
deriving DecidableEq, Repr

/-- The property access `value._id`: an array has no `_id`. -/
def Returned._id : Returned → Option Nat
  | .doc o => some o._id
  | .docs _ => none

/-- The JSON answer of a handler. -/
structure Response where
  status : Nat
  success : Bool
  message : String
  error : Option String := none
  orderId : Option Nat := none
  order : Option Returned := none
  payment : Option Payment := none
deriving DecidableEq, Repr

/-- The fields of `req.body` read by `placeOrder`. -/
structure PlaceOrderBody where
  items : List SourceItem := []
  shippingAddress : Option Address := none
  paymentMethod : Option String := none
  orderId : Option String := none
  razorpayOrderId : Option String := none
  upiId : Option String := none
  bankCode : Option String := none
deriving DecidableEq, Repr

/-- The shipping address test at the head of `placeOrder`. -/
def addressMissing (shippingAddress : Option Address) : Bool :=
  match shippingAddress with
  | none => true
  | some a =>
    !truthy a.street || !truthy a.city || !truthy a.state || !truthy a.country ||
      !truthy a.postalCode

/-- The stock loop of `placeOrder` and `ensureOrderFromPayment`: one
`$inc: { quantity: -it.quantity }` per line, throwing when no document is found. -/
def decrementStock : List Product → List OrderItem → Except String (List Product)
  | products, [] => .ok products
  | products, it :: rest =>
    match incQuantity products it.productId (-it.quantity) with
    | none => .error "Failed to update product stock"
    | some products1 => decrementStock products1 rest

/-- The `catch (err)` answer of `placeOrder`. -/
def serverError (e : String) : Response :=
  { status := 500, success := false, message := "Internal Server Error", error := some e }

/-- The transaction of `placeOrder`: stock loop, then `Order.create([...], { session })`.
`generatedRef` stands for the `ORDER_<time>_<random>` string. The result is the store to
commit and the array resolved by `Order.create`. -/
def placeOrderTransaction (s : Store) (userId : Nat) (body : PlaceOrderBody)
    (generatedRef : String) (orderItems : List OrderItem) (recomputedTotal : Int) :
    Except String (Store × List Order) :=
  match decrementStock s.products orderItems with
  | .error e => .error e
  | .ok products =>
    let method := orDefault body.paymentMethod "Cash"
    match PaymentMethod.ofString? method with
    | none => .error "Order validation failed: paymentMethod is not a valid enum value"
    | some pm =>
      let status := if method = "Cash" then "pending" else "paid"
      let note := if method = "Cash" then "COD order created" else "Prepaid order created"
      let order : Order :=
        { _id := freshId (s.orders.map (fun o => o._id)),
          userId := userId,
          orderId := orDefault body.orderId generatedRef,
          razorpayOrderId := orNull body.razorpayOrderId,
          paymentId := none,
          paymentMethod := pm,
          upiId := orNull body.upiId,
          bankCode := orNull body.bankCode,
          items := orderItems,
          amount := recomputedTotal,
          shippingAddress := body.shippingAddress,
          status := status,
          timeline := [{ status := status, note := note }] }
      .ok ({ s with products := products, orders := s.orders ++ [order] }, [order])

/-- The handler `placeOrder(req, res)`; `userId` is the authenticated user. -/
def placeOrder (s : Store) (userId : Nat) (body : PlaceOrderBody) (generatedRef : String) :
    Store × Response :=
  if addressMissing body.shippingAddress then
    (s, { status := 400, success := false, message := "Complete shipping address is required" })
  else if body.items.length = 0 then
    (s, { status := 400, success := false, message := "No items to order" })
  else
    match validateAndBuildOrderItems s.products body.items with
    | .error e => (s, serverError e)
    | .ok (orderItems, recomputedTotal) =>
      match placeOrderTransaction s userId body generatedRef orderItems recomputedTotal with
      | .error e => (s, serverError e)
      | .ok (s1, orderDocs) =>
        let order := Returned.docs orderDocs
        (s1, { status := 201, success := true, message := "Order created successfully",
               orderId := order._id, order := some order })

/-- ASCII lower-casing, the effect of `toLowerCase()` on the status words compared here. -/
def lower (s : String) : String :=
  ⟨s.data.map Char.toLower⟩

/-- The set `okStatuses` of `ensureOrderFromPayment`. -/
def okStatuses : List String := ["success", "paid", "captured"]

/-- A stored snapshot line read as an element of `sourceItems`. -/
def snapshotItem (it : OrderItem) : SourceItem :=
  { productId := some it.productId, _id := none, quantity := some it.quantity,
    name := some it.name, price := some it.price, itemTotal := some it.itemTotal,
    sellerId := it.sellerId }

/-- The update `Payment.findByIdAndUpdate(id, { orderRef })`: an `undefined` value is
dropped from the update (no id is stored), a defined one is set on the first payment with
that id. -/
def setOrderRef (payments : List Payment) (id : Nat) (orderRef : Option Nat) : List Payment :=
  match orderRef with
  | none => payments
  | some r =>
    match payments with
    | [] => []
    | p :: ps =>
      if p._id = id then { p with orderRef := some r } :: ps
      else p :: setOrderRef ps id (some r)

/-- The document `ensureOrderFromPayment` passes to `Order.create`, with its fresh id. -/
def reconciledOrder (orders : List Order) (payment : Payment) (generatedRef : String)
    (orderItems : List OrderItem) (recomputedTotal : Int) : Order :=
  { _id := freshId (orders.map (fun o => o._id)),
    userId := payment.userId,
    orderId := if payment.orderId = "" then generatedRef else payment.orderId,
    razorpayOrderId := orNull payment.razorpayOrderId,
    paymentId := some payment._id,
    paymentMethod := payment.paymentMethod,
    upiId := orNull payment.upiId,
    bankCode := orNull payment.bankCode,
    items := orderItems,
    amount := recomputedTotal,
    shippingAddress := some payment.shippingAddress,
    status := "paid",
    timeline := [{ status := "paid", note := "Created after payment verification" }] }

/-- The transaction of `ensureOrderFromPayment`: stock loop, `Order.create([...], { session })`
whose array is bound to `order`, then the update of the payment with `order._id`. -/
def ensureOrderTransaction (s : Store) (payment : Payment) (generatedRef : String)
    (orderItems : List OrderItem) (recomputedTotal : Int) : Except String (Store × Returned) :=
  match decrementStock s.products orderItems with
  | .error e => .error e
  | .ok products =>
    let orderDocs := [reconciledOrder s.orders payment generatedRef orderItems recomputedTotal]
    let order := Returned.docs orderDocs
    .ok ({ products := products, orders := s.orders ++ orderDocs,
           payments := setOrderRef s.payments payment._id order._id }, order)

/-- The function `ensureOrderFromPayment(paymentId)`. -/
def ensureOrderFromPayment (s : Store) (paymentId : Nat) (generatedRef : String) :
    Store × Except String Returned :=
  match findPayment s.payments paymentId with
  | none => (s, .error "Payment not found")
  | some payment =>
    match findOrderByPayment s.orders payment._id with
    | some existing => (s, .ok (.doc existing))
    | none =>
      if !okStatuses.contains (lower payment.status) then
        (s, .error "Payment is not in a verified/paid state")
      else if payment.items.length = 0 then
        (s, .error "Payment has no items snapshot to build order")
      else
        match validateAndBuildOrderItems s.products (payment.items.map snapshotItem) with
        | .error e => (s, .error e)
        | .ok (orderItems, recomputedTotal) =>
          match ensureOrderTransaction s payment generatedRef orderItems recomputedTotal with
          | .error e => (s, .error e)
          | .ok (s1, order) => (s1, .ok order)

/-- The stock loop of `cancelOrder`: one `$inc: { quantity: item.quantity }` per line. -/
def restoreStock : List Product → List OrderItem → Except String (List Product)
  | products, [] => .ok products
  | products, item :: rest =>
    match incQuantity products item.productId item.quantity with
    | none => .error "Failed to restore product stock"
    | some products1 => restoreStock products1 rest

/-- The call `order.save()`: the first stored order with the id of `order` is replaced by it. -/
def saveOrder : List Order → Order → List Order
  | [], _ => []
  | o :: os, order => if o._id = order._id then order :: os else o :: saveOrder os order

/-- The handler `cancelOrder(req, res)` for a well-formed `req.params.orderId`. -/
def cancelOrder (s : Store) (userId : Nat) (orderId : Nat) : Store × Response :=
  match s.orders.find? (fun o => o._id = orderId ∧ o.userId = userId ∧
      (o.status = "pending" ∨ o.status = "processing")) with
  | none => (s, { status := 400, success := false, message := "Order cannot be canceled" })
  | some order =>
    match restoreStock s.products order.items with
    | .error _ => (s, { status := 500, success := false, message := "Error canceling order" })
    | .ok products =>
      let cancelled : Order :=
        { order with status := "cancelled",
                     timeline := order.timeline ++
                       [{ status := "cancelled", note := "Cancelled by user" }] }
      ({ s with products := products, orders := saveOrder s.orders cancelled },
       { status := 200, success := true, message := "Order canceled" })

/-! ## Payment controller (`payment.controller.js`) -/

/-- The fields of `req.body` read by `createPayment`. -/
structure CreatePaymentBody where
  items : List SourceItem := []
  shippingAddress : Option Address := none
  amount : Option Int := none
  paymentMethod : Option String := none
  upiId : Option String := none
  bankCode : Option String := none
deriving DecidableEq, Repr

/-- Schema cast of one client item to `OrderItemSchema`: `productId`, `name`, `quantity`,
`price` and `itemTotal` are required. -/
def castItem (it : SourceItem) : Option OrderItem :=
  match it.productId, it.name, it.quantity, it.price, it.itemTotal with
  | some productId, some name, some quantity, some price, some itemTotal =>
    if name = "" then none
    else some { productId := productId, name := name, sellerId := it.sellerId,
                quantity := quantity, price := price, itemTotal := itemTotal }
  | _, _, _, _, _ => none

/-- Schema cast of a client `items` array. -/
def castItems : List SourceItem → Option (List OrderItem)
  | [] => some []
  | it :: rest =>
    match castItem it, castItems rest with
    | some l, some ls => some (l :: ls)
    | _, _ => none

/-- The `catch (error)` answer of the payment handlers. -/
def paymentError (e : String) : Response :=
  { status := 500, success := false, message := e }

/-- The handler `createPayment(req, res)`. `generatedRef` stands for the
`ORDER_<time>_<random>` string and `gateway` for the outcome of `razorpay.orders.create`
(the id of the gateway order, or the thrown message). -/
def createPayment (s : Store) (userId : Nat) (body : CreatePaymentBody) (generatedRef : String)
    (gateway : Except String String) : Store × Response :=
  if body.items.length = 0 then
    (s, { status := 400, success := false, message := "No items in payment" })
  else
    match body.shippingAddress with
    | none => (s, { status := 400, success := false, message := "Shipping address is required" })
    | some shippingAddress =>
      if body.paymentMethod = some "Cash" then
        match castItems body.items, body.amount with
        | some items, some amount =>
          let payment : Payment :=
            { _id := freshId (s.payments.map (fun p => p._id)),
              userId := userId, orderId := generatedRef, paymentMethod := .Cash,
              razorpayOrderId := none, razorpayPaymentId := none, razorpaySignature := none,
              upiId := none, bankCode := none, items := items,
              shippingAddress := shippingAddress, status := "pending", amount := amount,
              orderRef := none }
          let order : Order :=
            { _id := freshId (s.orders.map (fun o => o._id)),
              userId := userId, orderId := generatedRef, razorpayOrderId := none,
              paymentId := some payment._id, paymentMethod := .Cash, upiId := none,
              bankCode := none, items := items, amount := amount,
              shippingAddress := some shippingAddress, status := "pending",
              timeline := [{ status := "pending", note := "COD order created" }] }
          let saved : Payment := { payment with orderRef := some order._id }
          ({ s with orders := s.orders ++ [order], payments := s.payments ++ [saved] },
           { status := 201, success := true,
             message := "Cash on Delivery order placed successfully",
             payment := some saved, order := some (.doc order) })
        | _, _ => (s, paymentError "Payment validation failed")
      else
        match gateway with
        | .error e => (s, paymentError e)
        | .ok razorpayOrderId =>
          let method : Option PaymentMethod :=
            if body.paymentMethod = some "UPI" then some .UPI
            else if body.paymentMethod = some "Net Banking" then some .NetBanking
            else none
          match method, castItems body.items, body.amount with
          | some pm, some items, some amount =>
            let payment : Payment :=
              { _id := freshId (s.payments.map (fun p => p._id)),
                userId := userId, orderId := generatedRef, paymentMethod := pm,
                razorpayOrderId := some razorpayOrderId, razorpayPaymentId := none,
                razorpaySignature := none,
                upiId := if body.paymentMethod = some "UPI" then body.upiId else none,
                bankCode := if body.paymentMethod = some "Net Banking" then body.bankCode else none,
                items := items, shippingAddress := shippingAddress, status := "confirmed",
                amount := amount, orderRef := none }
            ({ s with payments := s.payments ++ [payment] },
             { status := 201, success := true, message := "Payment initiated",
               payment := some payment })
          | _, _, _ => (s, paymentError "Payment validation failed")

/-- The fields of `req.body` read by `verifyPayment`. -/
structure VerifyPaymentBody where
  razorpayOrderId : Option String := none
  razorpayPaymentId : Option String := none
  razorpaySignature : Option String := none
  paymentId : Nat
deriving DecidableEq, Repr

/-- The update `Payment.findByIdAndUpdate(id, update)`: the first payment with that id is replaced
by its image under `update`. -/
def updatePayment : List Payment → Nat → (Payment → Payment) → List Payment
  | [], _, _ => []
  | p :: ps, id, update =>
    if p._id = id then update p :: ps else p :: updatePayment ps id update

/-- An optional update value: `undefined` leaves the stored field as it is. -/
def setIfDefined (new old : Option String) : Option String :=
  match new with
  | some v => some v
  | none => old

/-- The handler `verifyPayment(req, res)`. `signatureValid` is the outcome of comparing
the HMAC of `razorpayOrderId|razorpayPaymentId` with `razorpaySignature`. With a valid
signature `findByIdAndUpdate` stores the status `success` (it runs no validators) and
`Order.create` writes the order; then `payment.save()` validates the document, whose status
`success` is not in the enum of the payment schema, and throws: the `catch` block answers
500, the order stays written and `orderRef` is never stored. -/
def verifyPayment (s : Store) (body : VerifyPaymentBody) (signatureValid : Bool) :
    Store × Response :=
  if !signatureValid then
    ({ s with payments :=
         updatePayment s.payments body.paymentId (fun p => { p with status := "failed" }) },
     { status := 400, success := false, message := "Invalid signature" })
  else
    let payments := updatePayment s.payments body.paymentId (fun p =>
      { p with razorpayPaymentId := setIfDefined body.razorpayPaymentId p.razorpayPaymentId,
               razorpaySignature := setIfDefined body.razorpaySignature p.razorpaySignature,
               status := "success" })
    match findPayment payments body.paymentId with
    | none => (s, paymentError "Cannot read properties of null (reading 'userId')")
    | some payment =>
      let order : Order :=
        { _id := freshId (s.orders.map (fun o => o._id)),
          userId := payment.userId, orderId := payment.orderId, razorpayOrderId := none,
          paymentId := some payment._id, paymentMethod := payment.paymentMethod,
          upiId := none, bankCode := none, items := payment.items, amount := payment.amount,
          shippingAddress := some payment.shippingAddress, status := "paid",
          timeline := [{ status := "paid", note := "Payment successful" }] }
      ({ s with orders := s.orders ++ [order], payments := payments },
       paymentError ("Payment validation failed: status: `success` is not a valid enum " ++
         "value for path `status`."))

/-! ## Histories of calls -/

/-- One call of the order and payment back end, with its request data. -/
inductive Call where
  | placeOrder (userId : Nat) (body : PlaceOrderBody) (generatedRef : String)
  | ensureOrderFromPayment (paymentId : Nat) (generatedRef : String)
  | cancelOrder (userId : Nat) (orderId : Nat)
  | createPayment (userId : Nat) (body : CreatePaymentBody) (generatedRef : String)
      (gateway : Except String String)
  | verifyPayment (body : VerifyPaymentBody) (signatureValid : Bool)

/-- The store after one call. -/
def Call.run (s : Store) : Call → Store
  | .placeOrder userId body generatedRef => (Shopease.placeOrder s userId body generatedRef).1
  | .ensureOrderFromPayment paymentId generatedRef =>
    (Shopease.ensureOrderFromPayment s paymentId generatedRef).1
  | .cancelOrder userId orderId => (Shopease.cancelOrder s userId orderId).1
  | .createPayment userId body generatedRef gateway =>
    (Shopease.createPayment s userId body generatedRef gateway).1
  | .verifyPayment body signatureValid => (Shopease.verifyPayment s body signatureValid).1

/-- The store after a sequence of calls, run in order. -/
def runCalls (s : Store) (calls : List Call) : Store :=
  calls.foldl Call.run s

/-- The empty store. -/
def emptyStore : Store := { products := [], orders := [], payments := [] }

/-! ## Observations and sample data -/

/-- The stock of a product id: the `quantity` of the document `Product.findById` returns. -/
def stockOf (products : List Product) (id : Nat) : Option Int :=
  (findProduct products id).map (fun p => p.quantity)

/-- The total quantity the lines `items` ask of product `id`. -/
def demand (items : List OrderItem) (id : Nat) : Int :=
  ((items.filter (fun l => l.productId = id)).map (fun l => l.quantity)).sum

/-- A product with five pieces in stock at price 100. -/
def samplePen : Product :=
  { _id := 1, name := "Pen", price := 100, quantity := 5, seller := 9, images := ["pen.png"] }

/-- A second product, three pieces in stock. -/
def sampleInk : Product :=
  { _id := 2, name := "Ink", price := 40, quantity := 3, seller := 8, images := ["ink.png"] }

/-- A complete shipping address. -/
def sampleAddress : Address :=
  { street := some "1 Main St", city := some "Pune", state := some "MH",
    country := some "IN", postalCode := some "411001" }

/-- A three line request whose second line asks four pieces of the ink (three in stock). -/
def sampleShortBody : PlaceOrderBody :=
  { items := [{ productId := some 1, quantity := some 1 },
              { productId := some 2, quantity := some 4 },
              { productId := some 1, quantity := some 2 }],
    shippingAddress := some sampleAddress }

/-- A request with two lines of two pens each. -/
def sampleTwiceBody : PlaceOrderBody :=
  { items := [{ productId := some 1, quantity := some 2 },
              { productId := some 1, quantity := some 2 }],
    shippingAddress := some sampleAddress }

/-- A request with two lines of three pens each (five pens in stock). -/
def sampleOversellBody : PlaceOrderBody :=
  { items := [{ productId := some 1, quantity := some 3 },
              { productId := some 1, quantity := some 3 }],
    shippingAddress := some sampleAddress }

/-- A payment record in status `paid` with a snapshot of two pens and no order yet. -/
def samplePayment : Payment :=
  { _id := 1, userId := 7, orderId := "ORDER_1", paymentMethod := .UPI,
    razorpayOrderId := some "rzp_1", razorpayPaymentId := some "pay_1",
    razorpaySignature := some "sig_1", upiId := some "buyer@upi", bankCode := none,
    items := [{ productId := 1, name := "Pen", sellerId := some 9, quantity := 2,
                price := 100, itemTotal := 200 }],
    shippingAddress := sampleAddress, status := "paid", amount := 200, orderRef := none }

/-- The sample catalog with the sample payment. -/
def samplePaidStore : Store :=
  { products := [samplePen, sampleInk], orders := [], payments := [samplePayment] }

/-- A gateway (UPI) checkout of one pen, as the client sends it to `createPayment`. -/
def sampleGatewayBody : CreatePaymentBody :=
  { items := [{ productId := some 1, name := some "Pen", quantity := some 1,
                price := some 100, itemTotal := some 100, sellerId := some 9 }],
    shippingAddress := some sampleAddress, amount := some 100, paymentMethod := some "UPI",
    upiId := some "buyer@upi" }

/-- A cash checkout of one pen, as the client sends it to `createPayment`. -/
def sampleCashBody : CreatePaymentBody :=
  { items := [{ productId := some 1, name := some "Pen", quantity := some 1,
                price := some 100, itemTotal := some 100, sellerId := some 9 }],
    shippingAddress := some sampleAddress, amount := some 100, paymentMethod := some "Cash" }

/-- The gateway callback for payment 1, as the client sends it to `verifyPayment`. -/
def sampleVerifyBody : VerifyPaymentBody :=
  { razorpayOrderId := some "rzp_1", razorpayPaymentId := some "pay_1",
    razorpaySignature := some "sig_1", paymentId := 1 }

/-- A payment whose snapshot asks one pen and four pieces of the ink (three in stock). -/
def sampleShortPayment : Payment :=
  { samplePayment with
    items := [{ productId := 1, name := "Pen", sellerId := some 9, quantity := 1,
                price := 100, itemTotal := 100 },
              { productId := 2, name := "Ink", sellerId := some 8, quantity := 4,
                price := 40, itemTotal := 160 }] }

/-- A catalog of two products, no orders, no payments. -/
def sampleStore : Store :=
  { products := [samplePen, sampleInk], orders := [], payments := [] }

/-- The sample catalog after `createPayment` of the gateway checkout: one payment in
status `confirmed`, no order. -/
def sampleInitiatedStore : Store :=
  (createPayment sampleStore 7 sampleGatewayBody "ORDER_1" (.ok "rzp_1")).1

/-- The sample catalog after `createPayment` of the cash checkout: one payment in status
`pending` and the order linked to it. -/
def sampleCashStore : Store :=
  (createPayment sampleStore 7 sampleCashBody "ORDER_1" (.ok "unused")).1

/-- The sample catalog with the payment whose snapshot is short of ink. -/
def sampleShortStore : Store :=
  { products := [samplePen, sampleInk], orders := [], payments := [sampleShortPayment] }

/-- The sample catalog after a cash `placeOrder` of two lines of two pens each: the pending
order 1 of buyer 7, and one pen left. -/
def sampleTwiceStore : Store :=
  (placeOrder sampleStore 7 sampleTwiceBody "ORDER_1").1

/-- A cash checkout of one pen whose client `amount` is 1 although its line totals 100. -/
def sampleUnderpaidCashBody : CreatePaymentBody :=
  { sampleCashBody with amount := some 1 }

/-- A gateway checkout of one pen whose client `amount` is 1 although its line totals 100. -/
def sampleUnderpaidGatewayBody : CreatePaymentBody :=
  { sampleGatewayBody with amount := some 1 }

/-- A request for two pens and one ink with no client price data. -/
def samplePlainBody : PlaceOrderBody :=
  { items := [{ productId := some 1, quantity := some 2 }, { _id := some 2 }],
    shippingAddress := some sampleAddress, paymentMethod := some "UPI" }

/-- The lines of `samplePlainBody` with client supplied name, price, total and seller. -/
def sampleForgedItems : List SourceItem :=
  [{ productId := some 1, quantity := some 2, name := some "Free pen", price := some 0,
     itemTotal := some 0, sellerId := some 7 },
   { _id := some 2, price := some 1, itemTotal := some (-5) }]

/-! ## Seller order list (`normalizeOrder`, `getSellerOrders`) -/

/-- The `product` object of a normalized order line. -/
structure NormalizedProduct where
  _id : Option Nat
  name : Option String
  price : Option Int
  sellerId : Option Nat
deriving DecidableEq, Repr

/-- One line of a normalized order (images are not modelled). -/
structure NormalizedItem where
  name : String
  price : Int
  quantity : Int
  product : NormalizedProduct
deriving DecidableEq, Repr

/-- The object `normalizeOrder` returns (dates are not modelled). -/
structure NormalizedOrder where
  _id : Nat
  orderId : String
  status : String
  amount : Int
  shippingAddress : Option Address
  paymentMethod : PaymentMethod
  upiId : Option String
  bankCode : Option String
  items : List NormalizedItem
deriving DecidableEq, Repr

/-- The callback of `order.items.map` in `normalizeOrder`; the populated `item.productId` is
the product `Product.findById` gives, or nothing when it no longer exists. A product
document has no `sellerId` field, so `product.sellerId || item.sellerId` is `item.sellerId`. -/
def normalizeItem (products : List Product) (item : OrderItem) : NormalizedItem :=
  match findProduct products item.productId with
  | some product =>
    { name := if product.name = "" then item.name else product.name,
      price := if product.price = 0 then item.price else product.price,
      quantity := item.quantity,
      product := { _id := some product._id, name := some product.name,
                   price := some product.price, sellerId := item.sellerId } }
  | none =>
    { name := item.name, price := item.price, quantity := item.quantity,
      product := { _id := none, name := none, price := none, sellerId := item.sellerId } }

/-- The function `normalizeOrder(order, req)` on an order with populated lines. -/
def normalizeOrder (products : List Product) (order : Order) : NormalizedOrder :=
  { _id := order._id, orderId := order.orderId, status := order.status,
    amount := order.amount, shippingAddress := order.shippingAddress,
    paymentMethod := order.paymentMethod, upiId := order.upiId, bankCode := order.bankCode,
    items := order.items.map (normalizeItem products) }

/-- The JSON answer of `getSellerOrders`. -/
structure SellerOrdersResponse where
  status : Nat
  success : Bool
  data : List NormalizedOrder
  totalSales : Int
  totalOrders : Nat
  completedOrders : Nat
deriving DecidableEq, Repr

/-- The handler `getSellerOrders(req, res)` for the authenticated seller `sellerId`. The
orders are stored in creation order, so sorting by `createdAt` descending reverses them. -/
def getSellerOrders (s : Store) (sellerId : Nat) : SellerOrdersResponse :=
  let orders := (s.orders.filter
    (fun o => o.items.any (fun item => item.sellerId = some sellerId))).reverse
  let totalSales := orders.foldl (fun acc order =>
    if order.status = "paid" ∨ order.status = "completed" then
      acc + ((order.items.filter (fun item => item.sellerId = some sellerId)).foldl
        (fun sum item => sum + item.itemTotal) 0)
    else acc) 0
  { status := 200, success := true,
    data := orders.map (normalizeOrder s.products),
    totalSales := totalSales,
    totalOrders := orders.length,
    completedOrders := (orders.filter (fun o => o.status = "completed")).length }

/-! ## Interleaving of two `placeOrder` requests -/

/-- The part of `placeOrder` after `await validateAndBuildOrderItems(items)` has resolved
to `(orderItems, recomputedTotal)`: the transaction, run on the store as it is then. -/
def placeOrderWrite (s : Store) (userId : Nat) (body : PlaceOrderBody) (generatedRef : String)
    (orderItems : List OrderItem) (recomputedTotal : Int) : Store × Response :=
  match placeOrderTransaction s userId body generatedRef orderItems recomputedTotal with
  | .error e => (s, serverError e)
  | .ok (s1, orderDocs) =>
    let order := Returned.docs orderDocs
    (s1, { status := 201, success := true, message := "Order created successfully",
           orderId := order._id, order := some order })

/-- The schedule of two `placeOrder` requests with complete addresses in which both
handlers finish `validateAndBuildOrderItems` on the store `s` before either starts its
transaction, and the two transactions then run one after the other. The result is the
final store and the two answers; `none` stands for a request that did not reach its
transaction. -/
def placeOrderInterleaved (s : Store) (userId1 : Nat) (body1 : PlaceOrderBody) (ref1 : String)
    (userId2 : Nat) (body2 : PlaceOrderBody) (ref2 : String) :
    Option (Store × Response × Response) :=
  match validateAndBuildOrderItems s.products body1.items,
        validateAndBuildOrderItems s.products body2.items with
  | .ok (orderItems1, total1), .ok (orderItems2, total2) =>
    let r1 := placeOrderWrite s userId1 body1 ref1 orderItems1 total1
    let r2 := placeOrderWrite r1.1 userId2 body2 ref2 orderItems2 total2
    some (r2.1, r1.2, r2.2)
  | _, _ => none

/-! ## Cart (`cart.model.js`, `cart.controller.js`)

The carts are a fourth collection, which the order and payment handlers never touch; the
cart handlers take the product list and the cart list and return the new cart list. A
populated `item.product` is the product `Product.findById` gives for the stored reference,
or `null` when that product no longer exists. -/

/-- One line of a cart: product reference, quantity, cached line price (may be missing). -/
structure CartItem where
  product : Nat
  quantity : Int
  price : Option Int
deriving DecidableEq, Repr

/-- Cart document (`cart.model.js`). -/
structure Cart where
  _id : Nat
  userId : Nat
  items : List CartItem
  total : Int
deriving DecidableEq, Repr

/-- The test `!item.price || isNaN(item.price)`: the price is missing, not a number, or 0. -/
def priceFalsy (price : Option Int) : Bool :=
  match price with
  | none => true
  | some v => v == 0

/-- The expression `item.price || 0`. -/
def priceOrZero (price : Option Int) : Int :=
  price.getD 0

/-- The reduction `cart.items.reduce((total, item) => total + (item.price || 0), 0)`. -/
def cartTotal (items : List CartItem) : Int :=
  items.foldl (fun total item => total + priceOrZero item.price) 0

/-- The body of the `for` loop of `fixExistingCartItems` for one line: the line after it,
and whether it was changed. -/
def fixItem (products : List Product) (item : CartItem) : CartItem × Bool :=
  match findProduct products item.product with
  | none => (item, false)
  | some product =>
    if priceFalsy item.price && product.price != 0 then
      ({ item with price := some (product.price * item.quantity) }, true)
    else (item, false)

/-- The `for` loop of `fixExistingCartItems` with its flag `hasChanges`. -/
def fixLoop (products : List Product) : List CartItem → Bool → List CartItem × Bool
  | [], hasChanges => ([], hasChanges)
  | item :: rest, hasChanges =>
    let fixed := fixItem products item
    let done := fixLoop products rest (hasChanges || fixed.2)
    (fixed.1 :: done.1, done.2)

/-- The function `fixExistingCartItems(cart)`: the cart after the repair (in memory) and the
returned flag. -/
def fixExistingCartItems (products : List Product) (cart : Cart) : Cart × Bool :=
  let done := fixLoop products cart.items false
  if done.2 then ({ cart with items := done.1, total := cartTotal done.1 }, true)
  else ({ cart with items := done.1 }, false)

/-- One line of the normalized cart. -/
structure CartViewItem where
  productId : Nat
  name : String
  price : Int
  quantity : Int
  itemTotal : Int
  available : Int
deriving DecidableEq, Repr

/-- The object `normalizedCartResponse` returns (the mapped image URLs are left out). -/
structure CartView where
  cartId : Option Nat
  items : List CartViewItem
  totalItems : Int
  cartTotal : Int
deriving DecidableEq, Repr

/-- The function `normalizedCartResponse(cart, req)`. -/
def normalizedCartResponse (products : List Product) (cart : Cart) : CartView :=
  { cartId := some cart._id,
    items := cart.items.filterMap (fun item =>
      (findProduct products item.product).map (fun product =>
        { productId := product._id, name := product.name, price := product.price,
          quantity := item.quantity,
          itemTotal := if priceFalsy item.price then product.price * item.quantity
                       else priceOrZero item.price,
          available := product.quantity })),
    totalItems := cart.items.foldl (fun sum item => sum + item.quantity) 0,
    cartTotal := cart.total }

/-- The call `mapImageUrls(images, req)` of `product.controller.js` with `req` undefined:
an empty array returns `[]` before `req` is read, any other array throws in the first
callback at `req.protocol`. -/
def mapImageUrlsUndefined (images : List String) : Except String (List String) :=
  if images.length = 0 then .ok []
  else .error "Cannot read properties of undefined (reading 'protocol')"

/-- The `filter` and `map` of `normalizedCartResponse` when `req` is undefined: the lines
whose populated product is `null` are filtered out, and `mapImageUrls` runs for each other
line in turn. -/
def mapLinesUndefined (products : List Product) : List CartItem → Except String Unit
  | [] => .ok ()
  | item :: rest =>
    match findProduct products item.product with
    | none => mapLinesUndefined products rest
    | some product =>
      match mapImageUrlsUndefined product.images with
      | .error e => .error e
      | .ok _ => mapLinesUndefined products rest

/-- The call `normalizedCartResponse(cart)` without `req`, as `updateCartItem` makes it after
`cart.save()`. -/
def normalizedCartResponseUndefined (products : List Product) (cart : Cart) :
    Except String CartView :=
  match mapLinesUndefined products cart.items with
  | .error e => .error e
  | .ok _ => .ok (normalizedCartResponse products cart)

/-- The JSON answer of a cart handler. -/
structure CartResponse where
  status : Nat
  success : Bool
  message : Option String := none
  data : Option CartView := none
  error : Option String := none
deriving DecidableEq, Repr

/-- The literal `{ items: [], totalItems: 0, cartTotal: 0 }`. -/
def emptyCartView : CartView :=
  { cartId := none, items := [], totalItems := 0, cartTotal := 0 }

/-- The query `Cart.findOne({ userId })`. -/
def findCart (carts : List Cart) (userId : Nat) : Option Cart :=
  carts.find? (fun c => c.userId = userId)

/-- Schema validation run by `cart.save()`: `quantity` has `min: 1`, `price` and `total`
have `min: 0`. -/
def cartValid (cart : Cart) : Bool :=
  cart.items.all (fun item => decide (1 ≤ item.quantity) && decide (0 ≤ priceOrZero item.price))
    && decide (0 ≤ cart.total)

/-- The write of `cart.save()`: the stored cart with the id of `cart` is replaced by it, and
a new cart is inserted. -/
def saveCart : List Cart → Cart → List Cart
  | [], cart => [cart]
  | c :: cs, cart => if c._id = cart._id then cart :: cs else c :: saveCart cs cart

/-- The call `Cart.findOneAndDelete({ userId })`. -/
def deleteCart : List Cart → Nat → List Cart
  | [], _ => []
  | c :: cs, userId => if c.userId = userId then cs else c :: deleteCart cs userId

/-- The assignment to `existingItem` (or `cartItem`): the first line with the product
reference `productId` gets the new quantity and price. -/
def setLine : List CartItem → Nat → Int → Int → List CartItem
  | [], _, _, _ => []
  | item :: rest, productId, quantity, price =>
    if item.product = productId then
      { item with quantity := quantity, price := some price } :: rest
    else item :: setLine rest productId quantity price

/-- The cart `addToCart` goes on with: `new Cart({ userId, items: [], total: 0 })` when the
user has none, else the stored cart after `fixExistingCartItems`. -/
def loadCart (products : List Product) (carts : List Cart) (userId : Nat) : Cart :=
  match findCart carts userId with
  | none => { _id := freshId (carts.map (fun c => c._id)), userId := userId,
              items := [], total := 0 }
  | some found => (fixExistingCartItems products found).1

/-- The handler `addToCart(req, res)`. `userId` is `req.user.id`; `productId` is the body's
`productId` when it is present and a valid `ObjectId`; `quantity` defaults to 1. -/
def addToCart (products : List Product) (carts : List Cart) (userId : Option Nat)
    (productId : Option Nat) (quantity : Option Int) : List Cart × CartResponse :=
  match userId with
  | none => (carts, { status := 401, success := false, message := some "User not authenticated" })
  | some userId =>
    match productId with
    | none => (carts, { status := 400, success := false, message := some "Invalid product ID" })
    | some productId =>
      let quantity := quantity.getD 1
      match findProduct products productId with
      | none => (carts, { status := 404, success := false, message := some "Product not found" })
      | some product =>
        if product.quantity < quantity then
          (carts, { status := 400, success := false,
                    message := some "Insufficient stock available" })
        else
          let cart := loadCart products carts userId
          match cart.items.find? (fun item => item.product = productId) with
          | some existingItem =>
            let newQuantity := existingItem.quantity + quantity
            if newQuantity > product.quantity then
              (carts, { status := 400, success := false,
                        message := some ("Only " ++ toString product.quantity ++
                          " items available in stock") })
            else
              let items := setLine cart.items productId newQuantity (product.price * newQuantity)
              let saved : Cart := { cart with items := items, total := cartTotal items }
              if cartValid saved then
                (saveCart carts saved,
                 { status := 200, success := true,
                   message := some "Product added to cart successfully",
                   data := some (normalizedCartResponse products saved) })
              else
                (carts, { status := 500, success := false,
                          message := some "Failed to add product to cart",
                          error := some "Cart validation failed" })
          | none =>
            let items := cart.items ++
              [{ product := productId, quantity := quantity,
                 price := some (product.price * quantity) }]
            let saved : Cart := { cart with items := items, total := cartTotal items }
            if cartValid saved then
              (saveCart carts saved,
               { status := 200, success := true,
                 message := some "Product added to cart successfully",
                 data := some (normalizedCartResponse products saved) })
            else
              (carts, { status := 500, success := false,
                        message := some "Failed to add product to cart",
                        error := some "Cart validation failed" })

/-- The handler `getCart(req, res)`. -/
def getCart (products : List Product) (carts : List Cart) (userId : Nat) :
    List Cart × CartResponse :=
  match findCart carts userId with
  | none => (carts, { status := 200, success := true, data := some emptyCartView })
  | some found =>
    let fixed := fixExistingCartItems products found
    if fixed.2 then
      if cartValid fixed.1 then
        (saveCart carts fixed.1,
         { status := 200, success := true,
           data := some (normalizedCartResponse products fixed.1) })
      else
        (carts, { status := 500, success := false, message := some "Failed to fetch cart",
                  error := some "Cart validation failed" })
    else
      (carts, { status := 200, success := true,
                data := some (normalizedCartResponse products fixed.1) })

/-- The handler `removeFromCart(req, res)`. The filter callback reads `item.product` of
every line and throws on a line whose populated product is `null`. -/
def removeFromCart (products : List Product) (carts : List Cart) (userId : Nat)
    (productId : Nat) : List Cart × CartResponse :=
  match findCart carts userId with
  | none => (carts, { status := 404, success := false, message := some "Cart not found" })
  | some found =>
    let cart := (fixExistingCartItems products found).1
    if cart.items.any (fun item => (findProduct products item.product).isNone) then
      (carts, { status := 500, success := false,
                message := some "Failed to remove product from cart",
                error := some "Cannot read properties of null (reading 'toString')" })
    else
      let items := cart.items.filter (fun item => item.product != productId)
      if items.length = cart.items.length then
        (carts, { status := 404, success := false,
                  message := some "Product not found in cart" })
      else if items.length = 0 then
        (deleteCart carts userId,
         { status := 200, success := true,
           message := some "Item successfully removed from the cart",
           data := some emptyCartView })
      else
        let saved : Cart := { cart with items := items, total := cartTotal items }
        if cartValid saved then
          (saveCart carts saved,
           { status := 200, success := true, message := some "Product removed from cart",
             data := some (normalizedCartResponse products saved) })
        else
          (carts, { status := 500, success := false,
                    message := some "Failed to remove product from cart",
                    error := some "Cart validation failed" })

/-- The search `cart.items.find((item) => item.product._id.toString() === productId)`: it
throws on a line whose populated product is `null` met before a match. -/
def findLine (products : List Product) : List CartItem → Nat → Except String (Option CartItem)
  | [], _ => .ok none
  | item :: rest, productId =>
    match findProduct products item.product with
    | none => .error "Cannot read properties of null (reading '_id')"
    | some _ => if item.product = productId then .ok (some item)
                else findLine products rest productId

/-- The handler `updateCartItem(req, res)`. `productId` is the route parameter when it is a
valid `ObjectId`, `quantity` the body's `quantity`. After `cart.save()` the handler calls
`normalizedCartResponse(cart)` without `req`; when that throws, the `catch` block answers 500
and the cart stays saved. -/
def updateCartItem (products : List Product) (carts : List Cart) (userId : Nat)
    (productId : Option Nat) (quantity : Option Int) : List Cart × CartResponse :=
  match findCart carts userId with
  | none => (carts, { status := 404, success := false, message := some "Cart not found" })
  | some found =>
    let cart := (fixExistingCartItems products found).1
    match productId, quantity with
    | some productId, some quantity =>
      if quantity = 0 ∨ quantity < 1 then
        (carts, { status := 200, success := true,
                  message := some "Invalid product or quantity. Cart unchanged.",
                  data := some (normalizedCartResponse products cart) })
      else
        match findProduct products productId with
        | none =>
          (carts, { status := 404, success := false, message := some "Product not found" })
        | some product =>
          if quantity > product.quantity then
            (carts, { status := 400, success := false,
                      message := some ("Only " ++ toString product.quantity ++
                        " items available in stock") })
          else
            match findLine products cart.items productId with
            | .error e =>
              (carts, { status := 500, success := false,
                        message := some "Failed to update cart item", error := some e })
            | .ok none =>
              (carts, { status := 200, success := true,
                        message := some "Item not in cart. No changes made.",
                        data := some (normalizedCartResponse products cart) })
            | .ok (some _) =>
              let items := setLine cart.items productId quantity (product.price * quantity)
              let saved : Cart := { cart with items := items, total := cartTotal items }
              if cartValid saved then
                (saveCart carts saved,
                 match normalizedCartResponseUndefined products saved with
                 | .error e =>
                   { status := 500, success := false,
                     message := some "Failed to update cart item", error := some e }
                 | .ok data =>
                   { status := 200, success := true,
                     message := some "Cart item updated successfully", data := some data })
              else
                (carts, { status := 500, success := false,
                          message := some "Failed to update cart item",
                          error := some "Cart validation failed" })
    | _, _ =>
      (carts, { status := 200, success := true,
                message := some "Invalid product or quantity. Cart unchanged.",
                data := some (normalizedCartResponse products cart) })

/-- The handler `clearCart(req, res)`. -/
def clearCart (carts : List Cart) (userId : Nat) : List Cart × CartResponse :=
  match findCart carts userId with
  | none => (carts, { status := 404, success := false, message := some "Cart not found" })
  | some _ =>
    (deleteCart carts userId,
     { status := 200, success := true, message := some "Cart cleared successfully",
       data := some emptyCartView })

/-! ## Checkout builder (`checkout.controller.js`)

The direct-purchase path uses `it.quantity` as it comes. A missing quantity is `undefined`:
a comparison with it is false and a product with it is `NaN`; both are modelled by `none`. -/

/-- One priced line of the checkout answer. -/
structure CheckoutLine where
  productId : Nat
  name : String
  sellerId : Nat
  quantity : Option Int
  price : Int
  itemTotal : Option Int
deriving DecidableEq, Repr

/-- The fields of `req.body` read by `buildOrderItems`. -/
structure CheckoutBody where
  directPurchase : Bool := false
  items : List SourceItem := []
deriving DecidableEq, Repr

/-- The JSON answer of `buildOrderItems`: `data` holds `orderItems` and `total` and is
absent from a failure answer. -/
structure CheckoutResponse where
  status : Nat
  success : Bool
  message : Option String := none
  data : Option (List CheckoutLine × Option Int) := none
deriving DecidableEq, Repr

/-- The comparison `a < b` when `b` may be `undefined`. -/
def ltMaybe (a : Int) (b : Option Int) : Bool :=
  match b with
  | some v => decide (a < v)
  | none => false

/-- The product `a * b` when `b` may be `undefined`. -/
def mulMaybe (a : Int) (b : Option Int) : Option Int :=
  b.map (fun v => a * v)

/-- The sum `total + x` when either may be `NaN`. -/
def addMaybe (total x : Option Int) : Option Int :=
  match total, x with
  | some t, some v => some (t + v)
  | _, _ => none

/-- The `for` loop of the direct-purchase path of `buildOrderItems`. -/
def directLoop (products : List Product) :
    List SourceItem → List CheckoutLine → Option Int →
      Except String (List CheckoutLine × Option Int)
  | [], orderItems, total => .ok (orderItems, total)
  | it :: rest, orderItems, total =>
    match it.productId.bind (findProduct products) with
    | none => .error "Product not found"
    | some product =>
      if ltMaybe product.quantity it.quantity then
        .error ("Insufficient stock for " ++ product.name)
      else
        directLoop products rest
          (orderItems ++ [{ productId := product._id, name := product.name,
                            sellerId := product.seller, quantity := it.quantity,
                            price := product.price,
                            itemTotal := mulMaybe product.price it.quantity }])
          (addMaybe total (mulMaybe product.price it.quantity))

/-- The `for` loop of the cart path of `buildOrderItems`; a line whose populated product is
`null` is skipped. -/
def cartLoop (products : List Product) :
    List CartItem → List CheckoutLine → Option Int →
      Except String (List CheckoutLine × Option Int)
  | [], orderItems, total => .ok (orderItems, total)
  | c :: rest, orderItems, total =>
    match findProduct products c.product with
    | none => cartLoop products rest orderItems total
    | some product =>
      if product.quantity < c.quantity then
        .error ("Insufficient stock for " ++ product.name)
      else
        cartLoop products rest
          (orderItems ++ [{ productId := product._id, name := product.name,
                            sellerId := product.seller, quantity := some c.quantity,
                            price := product.price,
                            itemTotal := some (product.price * c.quantity) }])
          (addMaybe total (some (product.price * c.quantity)))

/-- The answer of the `catch` block of `buildOrderItems`. -/
def checkoutError (e : String) : CheckoutResponse :=
  { status := 400, success := false, message := some e }

/-- The handler `buildOrderItems(req, res)`; it writes nothing. -/
def buildOrderItems (products : List Product) (carts : List Cart) (userId : Nat)
    (body : CheckoutBody) : CheckoutResponse :=
  if body.directPurchase && decide (body.items.length > 0) then
    match directLoop products body.items [] (some 0) with
    | .error e => checkoutError e
    | .ok r => { status := 200, success := true, data := some r }
  else
    match findCart carts userId with
    | none => { status := 400, success := false, message := some "Cart is empty" }
    | some cart =>
      if cart.items.length = 0 then
        { status := 400, success := false, message := some "Cart is empty" }
      else
        match cartLoop products cart.items [] (some 0) with
        | .error e => checkoutError e
        | .ok r => { status := 200, success := true, data := some r }

/-! ## Sample data for the later sections -/

/-- The sample catalog after a UPI `placeOrder` of two pens (seller 9) and one ink
(seller 8): one paid order shared by two sellers. -/
def sampleMixedStore : Store :=
  (placeOrder sampleStore 7 samplePlainBody "ORDER_1").1

/-- A catalog with a free sticker next to the pen. -/
def sampleFreeProducts : List Product :=
  [samplePen, { _id := 3, name := "Sticker", price := 0, quantity := 50, seller := 9,
                images := ["sticker.png"] }]

/-- A cart of buyer 7 with one line of two pens whose cached price is 0. -/
def sampleZeroPriceCart : Cart :=
  { _id := 1, userId := 7, items := [{ product := 1, quantity := 2, price := some 0 }],
    total := 0 }

/-- A cart of buyer 7 with one line of three free stickers whose cached price is missing. -/
def sampleMissingPriceCart : Cart :=
  { _id := 1, userId := 7, items := [{ product := 3, quantity := 3, price := none }],
    total := 0 }

/-- A cart of buyer 7: two pens stamped at 200, one line of a product that no longer
exists, and one ink whose price is missing. -/
def sampleStaleCart : Cart :=
  { _id := 1, userId := 7,
    items := [{ product := 1, quantity := 2, price := some 200 },
              { product := 4, quantity := 1, price := some 15 },
              { product := 2, quantity := 1, price := none }],
    total := 215 }

/-- A cart of buyer 7 whose lines are stamped: two pens at 200, one ink at 40. -/
def sampleStampedCart : Cart :=
  { _id := 1, userId := 7,
    items := [{ product := 1, quantity := 2, price := some 200 },
              { product := 2, quantity := 1, price := some 40 }],
    total := 240 }

/-- A direct purchase of one pen and one piece of product 4, which does not exist. -/
def sampleMissingCheckout : CheckoutBody :=
  { directPurchase := true,
    items := [{ productId := some 1, quantity := some 1 },
              { productId := some 4, quantity := some 1 }] }

/-- A direct purchase of minus two pens. -/
def sampleNegativeCheckout : CheckoutBody :=
  { directPurchase := true, items := [{ productId := some 1, quantity := some (-2) }] }

/-- A direct purchase with an empty `items` array. -/
def sampleEmptyCheckout : CheckoutBody :=
  { directPurchase := true, items := [] }

/-- The store after the pending order 1 of `sampleTwiceStore` has been cancelled. -/
def sampleCancelledStore : Store :=
  (cancelOrder sampleTwiceStore 7 1).1

/-- A request for three pens. -/
def sampleThreePensBody : PlaceOrderBody :=
  { items := [{ productId := some 1, quantity := some 3 }],
    shippingAddress := some sampleAddress }

/-! ## Order builder: lemmas -/

/-- An entry naming an existing product with a quantity within stock gives its priced line. -/
theorem buildLine_ok {products : List Product} {it : SourceItem} {pid : Nat} {p : Product}
    (hid : itemProductId it = some pid) (hp : findProduct products pid = some p)
    (hq : 0 < itemQuantity it) (hs : itemQuantity it ≤ p.quantity) :
    buildLine products it = .ok
      { productId := p._id, name := p.name, sellerId := some p.seller,
        quantity := itemQuantity it, price := p.price,
        itemTotal := p.price * itemQuantity it } := by
  have hprice : (if p.price = 0 then (0 : Int) else p.price) = p.price := by
    split_ifs with h
    · exact h.symm
    · rfl
  simp [buildLine, hid, hp, not_le.mpr hq, not_lt.mpr hs, hprice]

/-- The loop succeeds on entries that are all valid, appending one priced line per entry. -/
theorem buildLoop_ok (products : List Product) (items : List SourceItem)
    (h : ∀ it ∈ items, ∃ pid p, itemProductId it = some pid ∧
      findProduct products pid = some p ∧ 0 < itemQuantity it ∧ itemQuantity it ≤ p.quantity)
    (acc : List OrderItem) (total : Int) :
    ∃ lines, buildLoop products items acc total =
        .ok (acc ++ lines, total + (lines.map (fun l => l.itemTotal)).sum) ∧
      List.Forall₂ (fun it l => ∃ pid p, itemProductId it = some pid ∧
        findProduct products pid = some p ∧ l.productId = p._id ∧ l.name = p.name ∧
        l.sellerId = some p.seller ∧ l.quantity = itemQuantity it ∧ l.price = p.price ∧
        l.itemTotal = p.price * l.quantity) items lines := by
  induction items generalizing acc total with
  | nil => exact ⟨[], by simp [buildLoop], List.Forall₂.nil⟩
  | cons it rest ih =>
    obtain ⟨pid, p, hid, hp, hq, hs⟩ := h it (List.mem_cons_self _ _)
    obtain ⟨lines, hl, hf⟩ := ih (fun x hx => h x (List.mem_cons_of_mem _ hx))
      (acc ++ [{ productId := p._id, name := p.name, sellerId := some p.seller,
                 quantity := itemQuantity it, price := p.price,
                 itemTotal := p.price * itemQuantity it }])
      (total + p.price * itemQuantity it)
    refine ⟨{ productId := p._id, name := p.name, sellerId := some p.seller,
              quantity := itemQuantity it, price := p.price,
              itemTotal := p.price * itemQuantity it } :: lines, ?_,
      List.Forall₂.cons ⟨pid, p, hid, hp, rfl, rfl, rfl, rfl, rfl, rfl⟩ hf⟩
    simp only [buildLoop, buildLine_ok hid hp hq hs, hl, List.map_cons, List.sum_cons,
      List.append_assoc, List.singleton_append, add_assoc]

/-- C1: for a non-empty request list whose entries all name an existing product with a
quantity `q`, `0 < q ≤ stock`, `validateAndBuildOrderItems` returns one line per entry in
request order, each with the product's catalog price as unit price and
`itemTotal = price * quantity`, and `recomputedTotal` is the sum of the `itemTotal`s. -/
theorem validateAndBuildOrderItems_priced_lines (products : List Product)
    (items : List SourceItem) (hne : items ≠ [])
    (h : ∀ it ∈ items, ∃ pid p, itemProductId it = some pid ∧
      findProduct products pid = some p ∧ 0 < itemQuantity it ∧ itemQuantity it ≤ p.quantity) :
    ∃ orderItems recomputedTotal,
      validateAndBuildOrderItems products items = .ok (orderItems, recomputedTotal) ∧
      List.Forall₂ (fun it l => ∃ pid p, itemProductId it = some pid ∧
        findProduct products pid = some p ∧ l.productId = p._id ∧ l.name = p.name ∧
        l.sellerId = some p.seller ∧ l.quantity = itemQuantity it ∧ l.price = p.price ∧
        l.itemTotal = p.price * l.quantity) items orderItems ∧
      recomputedTotal = (orderItems.map (fun l => l.itemTotal)).sum := by
  obtain ⟨lines, hl, hf⟩ := buildLoop_ok products items h [] 0
  refine ⟨lines, _, ?_, hf, rfl⟩
  have hlen : items.length ≠ 0 := fun h0 => hne (List.length_eq_zero.mp h0)
  simp [validateAndBuildOrderItems, hlen, hl]

theorem validateAndBuildOrderItems_priced_lines_witness :
    ∃ orderItems recomputedTotal,
      validateAndBuildOrderItems [samplePen, sampleInk]
        [{ productId := some 2, quantity := some 3 }, { _id := some 1 }] =
          .ok (orderItems, recomputedTotal) ∧
      List.Forall₂ (fun it l => ∃ pid p, itemProductId it = some pid ∧
        findProduct [samplePen, sampleInk] pid = some p ∧ l.productId = p._id ∧
        l.name = p.name ∧ l.sellerId = some p.seller ∧ l.quantity = itemQuantity it ∧
        l.price = p.price ∧ l.itemTotal = p.price * l.quantity)
        [{ productId := some 2, quantity := some 3 }, { _id := some 1 }] orderItems ∧
      recomputedTotal = (orderItems.map (fun l => l.itemTotal)).sum :=
  validateAndBuildOrderItems_priced_lines [samplePen, sampleInk]
    [{ productId := some 2, quantity := some 3 }, { _id := some 1 }] (by decide)
    (by
      intro it hit
      simp only [List.mem_cons, List.mem_singleton, List.not_mem_nil, or_false] at hit
      rcases hit with rfl | rfl
      · exact ⟨2, sampleInk, by decide, by decide, by decide, by decide⟩
      · exact ⟨1, samplePen, by decide, by decide, by decide, by decide⟩)

/-! ## Stock ledger: lemmas -/

/-- A successful `$inc` changes the stock of its product by `d` and no other stock. -/
theorem stockOf_incQuantity {ps qs : List Product} {id : Nat} {d : Int}
    (h : incQuantity ps id d = some qs) (pid : Nat) :
    stockOf qs pid = (stockOf ps pid).map (fun q => if pid = id then q + d else q) := by
  induction ps generalizing qs with
  | nil => simp [incQuantity] at h
  | cons p ps ih =>
    unfold incQuantity at h
    by_cases hp : p._id = id
    · simp only [hp, if_true, Option.some.injEq] at h
      subst h
      by_cases hpid : pid = id
      · simp [stockOf, findProduct, List.find?, hp, hpid]
      · have hne : ¬ id = pid := fun e => hpid e.symm
        simp [stockOf, findProduct, List.find?, hp, hpid, hne, Function.comp_def]
    · simp only [hp, if_false, Option.map_eq_some'] at h
      obtain ⟨rs, hrs, rfl⟩ := h
      have := ih hrs
      by_cases hpp : p._id = pid
      · have hpid : ¬ pid = id := fun e => hp (hpp.trans e)
        simp [stockOf, findProduct, List.find?, hpp, hpid]
      · simpa [stockOf, findProduct, List.find?, hpp] using this

/-- The `$inc` update finds a document whenever `findById` does. -/
theorem incQuantity_isSome {ps : List Product} {id : Nat} (d : Int)
    (h : (findProduct ps id).isSome) : (incQuantity ps id d).isSome := by
  induction ps with
  | nil => simp [findProduct] at h
  | cons p ps ih =>
    unfold incQuantity
    by_cases hp : p._id = id
    · simp [hp]
    · have : (findProduct ps id).isSome := by
        simpa [findProduct, List.find?, hp] using h
      simpa [hp] using ih this

/-- The `$inc` update neither adds nor removes a product. -/
theorem findProduct_isSome_incQuantity {ps qs : List Product} {id : Nat} {d : Int}
    (h : incQuantity ps id d = some qs) (pid : Nat) :
    (findProduct qs pid).isSome = (findProduct ps pid).isSome := by
  have := stockOf_incQuantity h pid
  simp only [stockOf] at this
  cases h1 : findProduct qs pid <;> cases h2 : findProduct ps pid <;> simp [h1, h2] at this ⊢

/-- The demand of a list of lines, one line at a time. -/
theorem demand_cons (it : OrderItem) (rest : List OrderItem) (pid : Nat) :
    demand (it :: rest) pid =
      (if it.productId = pid then it.quantity else 0) + demand rest pid := by
  by_cases h : it.productId = pid <;> simp [demand, List.filter, h]

/-- After the stock loop every stock is the old one minus the demand of the lines. -/
theorem stockOf_decrementStock {items : List OrderItem} {ps qs : List Product}
    (h : decrementStock ps items = .ok qs) (pid : Nat) :
    stockOf qs pid = (stockOf ps pid).map (fun q => q - demand items pid) := by
  induction items generalizing ps with
  | nil =>
    simp only [decrementStock, Except.ok.injEq] at h
    subst h
    simp [demand]
  | cons it rest ih =>
    unfold decrementStock at h
    cases hinc : incQuantity ps it.productId (-it.quantity) with
    | none => simp [hinc] at h
    | some ps1 =>
      simp only [hinc] at h
      rw [ih h, stockOf_incQuantity hinc, demand_cons, Option.map_map]
      congr 1
      funext q
      by_cases hp : pid = it.productId
      · have hp2 : it.productId = pid := hp.symm
        simp only [Function.comp, hp, if_true]
        ring
      · have hp2 : ¬ it.productId = pid := fun e => hp e.symm
        simp only [Function.comp, hp, hp2, if_false]
        ring

/-- The stock loop succeeds when every line names an existing product. -/
theorem decrementStock_ok {items : List OrderItem} {ps : List Product}
    (h : ∀ l ∈ items, (findProduct ps l.productId).isSome) :
    ∃ qs, decrementStock ps items = .ok qs := by
  induction items generalizing ps with
  | nil => exact ⟨ps, rfl⟩
  | cons it rest ih =>
    have h1 := incQuantity_isSome (-it.quantity) (h it (List.mem_cons_self _ _))
    obtain ⟨ps1, hps1⟩ := Option.isSome_iff_exists.mp h1
    have h2 : ∀ l ∈ rest, (findProduct ps1 l.productId).isSome := by
      intro l hl
      rw [findProduct_isSome_incQuantity hps1]
      exact h l (List.mem_cons_of_mem _ hl)
    obtain ⟨qs, hqs⟩ := ih h2
    exact ⟨qs, by simp [decrementStock, hps1, hqs]⟩

/-! ## Order builder: what a returned line list says -/

/-- The document `findById` returns has the id asked for. -/
theorem findProduct_id {products : List Product} {pid : Nat} {p : Product}
    (h : findProduct products pid = some p) : p._id = pid := by
  have := List.find?_some h
  simpa using this

/-- What a line returned by the loop body says about its entry and its product. -/
theorem buildLine_inv {products : List Product} {it : SourceItem} {l : OrderItem}
    (h : buildLine products it = .ok l) :
    ∃ p, itemProductId it = some l.productId ∧ findProduct products l.productId = some p ∧
      l.name = p.name ∧ l.sellerId = some p.seller ∧ l.quantity = itemQuantity it ∧
      0 < l.quantity ∧ l.quantity ≤ p.quantity ∧ l.price = p.price ∧
      l.itemTotal = p.price * l.quantity := by
  unfold buildLine at h
  cases hid : itemProductId it with
  | none => simp [hid] at h
  | some pid =>
    simp only [hid] at h
    by_cases hq : itemQuantity it ≤ 0
    · simp [hq] at h
    · simp only [hq, if_false] at h
      cases hp : findProduct products pid with
      | none => simp [hp] at h
      | some p =>
        simp only [hp] at h
        by_cases hs : p.quantity < itemQuantity it
        · simp [hs] at h
        · simp only [hs, if_false, Except.ok.injEq] at h
          have hprice : (if p.price = 0 then (0 : Int) else p.price) = p.price := by
            split_ifs with h0
            · exact h0.symm
            · rfl
          rw [hprice] at h
          subst h
          have hpid := findProduct_id hp
          refine ⟨p, ?_, ?_, rfl, rfl, rfl, ?_, ?_, rfl, rfl⟩
          · simp [hpid]
          · simpa [hpid] using hp
          · exact not_le.mp hq
          · exact not_lt.mp hs

/-- A successful loop appended exactly the lines of its entries and added their totals. -/
theorem buildLoop_inv {products : List Product} {items : List SourceItem}
    {acc ls : List OrderItem} {t t1 : Int}
    (h : buildLoop products items acc t = .ok (ls, t1)) :
    ∃ new, ls = acc ++ new ∧ t1 = t + (new.map (fun l => l.itemTotal)).sum ∧
      List.Forall₂ (fun it l => buildLine products it = .ok l) items new := by
  induction items generalizing acc t with
  | nil =>
    simp only [buildLoop, Except.ok.injEq, Prod.mk.injEq] at h
    exact ⟨[], by simp [h.1], by simp [h.2], List.Forall₂.nil⟩
  | cons it rest ih =>
    unfold buildLoop at h
    cases hl : buildLine products it with
    | error e => simp [hl] at h
    | ok l =>
      simp only [hl] at h
      obtain ⟨new, h1, h2, h3⟩ := ih h
      refine ⟨l :: new, by simp [h1], ?_, List.Forall₂.cons hl h3⟩
      simp [h2, add_assoc]

/-- A successful build had a non-empty list, one line per entry, and summed the totals. -/
theorem validateAndBuildOrderItems_inv {products : List Product} {items : List SourceItem}
    {ls : List OrderItem} {t : Int}
    (h : validateAndBuildOrderItems products items = .ok (ls, t)) :
    items ≠ [] ∧ t = (ls.map (fun l => l.itemTotal)).sum ∧
      List.Forall₂ (fun it l => buildLine products it = .ok l) items ls := by
  unfold validateAndBuildOrderItems at h
  by_cases h0 : items.length = 0
  · simp [h0] at h
  · simp only [h0, if_false] at h
    obtain ⟨new, h1, h2, h3⟩ := buildLoop_inv h
    simp only [List.nil_append] at h1
    subst h1
    exact ⟨fun e => h0 (by simp [e]), by simpa using h2, h3⟩

/-- Every line of a successful build names a product of the catalog. -/
theorem built_lines_exist {products : List Product} {items : List SourceItem}
    {ls : List OrderItem} {t : Int}
    (h : validateAndBuildOrderItems products items = .ok (ls, t)) :
    ∀ l ∈ ls, (findProduct products l.productId).isSome := by
  obtain ⟨-, -, hf⟩ := validateAndBuildOrderItems_inv h
  clear h
  induction hf with
  | nil => simp
  | cons hl _ ih =>
    intro l hmem
    rcases List.mem_cons.mp hmem with rfl | hmem
    · obtain ⟨p, _, hp, _⟩ := buildLine_inv hl
      simp [hp]
    · exact ih l hmem

/-! ## `placeOrder` -/

/-- C4: whenever `placeOrder` does not report success (incomplete address, empty list,
invalid quantity, unknown product, insufficient stock on any line, failed stock update or
failed insert inside the transaction) the store is the one before the call: no product
quantity is changed and no order is written. -/
theorem placeOrder_failure_no_effect (s : Store) (userId : Nat) (body : PlaceOrderBody)
    (generatedRef : String)
    (h : (placeOrder s userId body generatedRef).2.success = false) :
    (placeOrder s userId body generatedRef).1 = s := by
  by_cases ha : addressMissing body.shippingAddress = true
  · simp [placeOrder, ha]
  · by_cases hi : body.items.length = 0
    · simp [placeOrder, ha, hi]
    · cases hv : validateAndBuildOrderItems s.products body.items with
      | error e => simp [placeOrder, ha, hi, hv]
      | ok r =>
        obtain ⟨orderItems, recomputedTotal⟩ := r
        cases ht : placeOrderTransaction s userId body generatedRef orderItems
            recomputedTotal with
        | error e => simp [placeOrder, ha, hi, hv, ht]
        | ok r1 => simp [placeOrder, ha, hi, hv, ht] at h

theorem placeOrder_failure_no_effect_witness :
    (placeOrder sampleStore 7 sampleShortBody "ORDER_1").2.success = false ∧
      (placeOrder sampleStore 7 sampleShortBody "ORDER_1").1 = sampleStore :=
  ⟨by decide, placeOrder_failure_no_effect sampleStore 7 sampleShortBody "ORDER_1" (by decide)⟩

/-- What a committed `placeOrder` transaction wrote. -/
theorem placeOrderTransaction_inv {s s1 : Store} {userId : Nat} {body : PlaceOrderBody}
    {generatedRef : String} {orderItems : List OrderItem} {recomputedTotal : Int}
    {orderDocs : List Order}
    (h : placeOrderTransaction s userId body generatedRef orderItems recomputedTotal =
      .ok (s1, orderDocs)) :
    ∃ products o, decrementStock s.products orderItems = .ok products ∧ orderDocs = [o] ∧
      o.items = orderItems ∧ o.amount = recomputedTotal ∧ o.paymentId = none ∧
      s1 = { s with products := products, orders := s.orders ++ [o] } := by
  unfold placeOrderTransaction at h
  cases hd : decrementStock s.products orderItems with
  | error e => simp [hd] at h
  | ok products =>
    simp only [hd] at h
    cases hm : PaymentMethod.ofString? (orDefault body.paymentMethod "Cash") with
    | none => simp [hm] at h
    | some pm =>
      simp only [hm, Except.ok.injEq, Prod.mk.injEq] at h
      obtain ⟨h1, h2⟩ := h
      exact ⟨products, _, rfl, h2.symm, rfl, rfl, rfl, h1.symm⟩

/-- A successful `placeOrder` went through the builder and a committed transaction. -/
theorem placeOrder_success_inv {s : Store} {userId : Nat} {body : PlaceOrderBody}
    {generatedRef : String}
    (h : (placeOrder s userId body generatedRef).2.success = true) :
    ∃ orderItems recomputedTotal s1 orderDocs,
      validateAndBuildOrderItems s.products body.items = .ok (orderItems, recomputedTotal) ∧
      placeOrderTransaction s userId body generatedRef orderItems recomputedTotal =
        .ok (s1, orderDocs) ∧
      (placeOrder s userId body generatedRef).1 = s1 ∧
      (placeOrder s userId body generatedRef).2.order = some (.docs orderDocs) := by
  by_cases ha : addressMissing body.shippingAddress = true
  · simp [placeOrder, ha] at h
  · by_cases hi : body.items.length = 0
    · simp [placeOrder, ha, hi] at h
    · cases hv : validateAndBuildOrderItems s.products body.items with
      | error e => simp [placeOrder, ha, hi, hv, serverError] at h
      | ok r =>
        obtain ⟨orderItems, recomputedTotal⟩ := r
        cases ht : placeOrderTransaction s userId body generatedRef orderItems
            recomputedTotal with
        | error e => simp [placeOrder, ha, hi, hv, ht, serverError] at h
        | ok r1 =>
          obtain ⟨s1, orderDocs⟩ := r1
          exact ⟨orderItems, recomputedTotal, s1, orderDocs, rfl, ht,
            by simp [placeOrder, ha, hi, hv, ht], by simp [placeOrder, ha, hi, hv, ht]⟩

/-- C3 (amended): for every successful `placeOrder` the created order `o` is appended to the
orders and, for every line of `o`, the stock of the line's product after the call is its
stock before the call minus the total quantity of the lines of `o` naming that product;
this is the line's own quantity when no other line of `o` names the product. -/
theorem placeOrder_stock_conservation (s : Store) (userId : Nat) (body : PlaceOrderBody)
    (generatedRef : String)
    (h : (placeOrder s userId body generatedRef).2.success = true) :
    ∃ o, (placeOrder s userId body generatedRef).2.order = some (.docs [o]) ∧
      (placeOrder s userId body generatedRef).1.orders = s.orders ++ [o] ∧
      ∀ l ∈ o.items, ∃ before,
        stockOf s.products l.productId = some before ∧
        stockOf (placeOrder s userId body generatedRef).1.products l.productId =
          some (before - demand o.items l.productId) ∧
        (o.items.filter (fun l1 => l1.productId = l.productId) = [l] →
          stockOf (placeOrder s userId body generatedRef).1.products l.productId =
            some (before - l.quantity)) := by
  obtain ⟨orderItems, recomputedTotal, s1, orderDocs, hv, ht, h1, h2⟩ :=
    placeOrder_success_inv h
  obtain ⟨products, o, hd, rfl, hitems, -, -, rfl⟩ := placeOrderTransaction_inv ht
  refine ⟨o, h2, by rw [h1], ?_⟩
  intro l hl
  rw [h1]
  have hex := built_lines_exist hv l (hitems ▸ hl)
  obtain ⟨p, hp⟩ := Option.isSome_iff_exists.mp hex
  have hstock := stockOf_decrementStock hd l.productId
  have hbefore : stockOf s.products l.productId = some p.quantity := by
    simp [stockOf, hp]
  refine ⟨p.quantity, hbefore, ?_, ?_⟩
  · simp only [hstock, hbefore, hitems, Option.map_some']
  · intro hone
    rw [hitems] at hone
    simp only [hstock, hbefore, Option.map_some']
    simp [demand, hone]

theorem placeOrder_stock_conservation_witness :
    (placeOrder sampleStore 7 sampleTwiceBody "ORDER_1").2.success = true ∧
    ∃ o, (placeOrder sampleStore 7 sampleTwiceBody "ORDER_1").2.order = some (.docs [o]) ∧
      (placeOrder sampleStore 7 sampleTwiceBody "ORDER_1").1.orders =
        sampleStore.orders ++ [o] ∧
      ∀ l ∈ o.items, ∃ before,
        stockOf sampleStore.products l.productId = some before ∧
        stockOf (placeOrder sampleStore 7 sampleTwiceBody "ORDER_1").1.products l.productId =
          some (before - demand o.items l.productId) ∧
        (o.items.filter (fun l1 => l1.productId = l.productId) = [l] →
          stockOf (placeOrder sampleStore 7 sampleTwiceBody "ORDER_1").1.products l.productId =
            some (before - l.quantity)) :=
  ⟨by decide, placeOrder_stock_conservation sampleStore 7 sampleTwiceBody "ORDER_1" (by decide)⟩

/-- C3, counterexample: with five pens in stock, an order of two lines of two pens each
succeeds; each of its lines has quantity 2, yet the pen's stock goes from 5 to 1, not to
`5 - 2`. -/
theorem placeOrder_line_conservation_counterexample :
    (placeOrder sampleStore 7 sampleTwiceBody "ORDER_1").2.success = true ∧
    ((placeOrder sampleStore 7 sampleTwiceBody "ORDER_1").1.orders.map
      (fun o => o.items.map (fun l => (l.productId, l.quantity)))) = [[(1, 2), (1, 2)]] ∧
    stockOf sampleStore.products 1 = some 5 ∧
    stockOf (placeOrder sampleStore 7 sampleTwiceBody "ORDER_1").1.products 1 = some 1 ∧
    ¬ (∀ o ∈ (placeOrder sampleStore 7 sampleTwiceBody "ORDER_1").1.orders, ∀ l ∈ o.items,
        stockOf (placeOrder sampleStore 7 sampleTwiceBody "ORDER_1").1.products l.productId =
          (stockOf sampleStore.products l.productId).map (fun q => q - l.quantity)) := by
  decide

/-- C2, failing run: from a store whose quantities are all non-negative, one successful
`placeOrder` with two lines of three pens each (five in stock) leaves the pen at -1. -/
theorem placeOrder_oversell_negative_stock :
    (∀ p ∈ sampleStore.products, 0 ≤ p.quantity) ∧
    (placeOrder sampleStore 7 sampleOversellBody "ORDER_1").2.success = true ∧
    stockOf (runCalls sampleStore [.placeOrder 7 sampleOversellBody "ORDER_1"]).products 1 =
      some (-1) := by
  decide

/-! ## `ensureOrderFromPayment` -/

/-- The payment `findById` returns has the id asked for. -/
theorem findPayment_id {payments : List Payment} {id : Nat} {payment : Payment}
    (h : findPayment payments id = some payment) : payment._id = id := by
  have := List.find?_some h
  simpa using this

/-- The builder accepts a non-empty snapshot whose lines are all within stock. -/
theorem validate_snapshot_ok {products : List Product} {items : List OrderItem}
    (hne : items ≠ [])
    (hstock : ∀ l ∈ items, 0 < l.quantity ∧
      ∃ p, findProduct products l.productId = some p ∧ l.quantity ≤ p.quantity) :
    ∃ ls t, validateAndBuildOrderItems products (items.map snapshotItem) = .ok (ls, t) := by
  have h : ∀ it ∈ items.map snapshotItem, ∃ pid p, itemProductId it = some pid ∧
      findProduct products pid = some p ∧ 0 < itemQuantity it ∧
      itemQuantity it ≤ p.quantity := by
    intro it hit
    obtain ⟨l, hl, rfl⟩ := List.mem_map.mp hit
    obtain ⟨hq, p, hp, hle⟩ := hstock l hl
    exact ⟨l.productId, p, rfl, hp, hq, hle⟩
  obtain ⟨lines, hl, -⟩ := buildLoop_ok products (items.map snapshotItem) h [] 0
  have hlen : (items.map snapshotItem).length ≠ 0 := by
    simpa using hne
  exact ⟨[] ++ lines, 0 + (lines.map (fun l => l.itemTotal)).sum,
    by simp only [validateAndBuildOrderItems, hlen, if_false, hl]⟩

/-- The creating path of `ensureOrderFromPayment`: stock loop, one new order, payments as
they were. -/
theorem ensureOrderFromPayment_creates {s : Store} {paymentId : Nat} {generatedRef : String}
    {payment : Payment} {ls : List OrderItem} {t : Int}
    (hp : findPayment s.payments paymentId = some payment)
    (hno : findOrderByPayment s.orders payment._id = none)
    (hok : lower payment.status ∈ okStatuses)
    (hne : payment.items ≠ [])
    (hv : validateAndBuildOrderItems s.products (payment.items.map snapshotItem) =
      .ok (ls, t)) :
    ∃ products, decrementStock s.products ls = .ok products ∧
      ensureOrderFromPayment s paymentId generatedRef =
        ({ products := products,
           orders := s.orders ++ [reconciledOrder s.orders payment generatedRef ls t],
           payments := s.payments },
          .ok (.docs [reconciledOrder s.orders payment generatedRef ls t])) := by
  obtain ⟨products, hd⟩ := decrementStock_ok (built_lines_exist hv)
  have hlen : ¬ payment.items.length = 0 := fun h0 => hne (List.length_eq_zero.mp h0)
  have hc : okStatuses.contains (lower payment.status) = true := by simpa using hok
  refine ⟨products, hd, ?_⟩
  simp only [ensureOrderFromPayment, hp, hno, hc, hlen, hv, ensureOrderTransaction, hd,
    Returned._id, setOrderRef, Bool.not_true, if_false, Bool.false_eq_true]

/-- The status gate of `ensureOrderFromPayment`. -/
theorem ensureOrderFromPayment_gate {s : Store} {paymentId : Nat} {generatedRef : String}
    {payment : Payment}
    (hp : findPayment s.payments paymentId = some payment)
    (hno : findOrderByPayment s.orders payment._id = none)
    (hok : lower payment.status ∉ okStatuses) :
    ensureOrderFromPayment s paymentId generatedRef =
      (s, .error "Payment is not in a verified/paid state") := by
  simp [ensureOrderFromPayment, hp, hno, hok]

/-- C7: when an order whose `paymentId` is the given payment exists, `ensureOrderFromPayment`
returns a stored order with that `paymentId` and leaves the whole store (products, orders,
payments) as it was, whatever the payment's status and the stock. -/
theorem ensureOrderFromPayment_short_circuit (s : Store) (paymentId : Nat)
    (generatedRef : String) (payment : Payment)
    (hp : findPayment s.payments paymentId = some payment)
    (ho : ∃ o ∈ s.orders, o.paymentId = some paymentId) :
    ∃ existing ∈ s.orders, existing.paymentId = some paymentId ∧
      ensureOrderFromPayment s paymentId generatedRef = (s, .ok (.doc existing)) := by
  have hid : payment._id = paymentId := findPayment_id hp
  obtain ⟨o, hmem, hpay⟩ := ho
  cases hf : findOrderByPayment s.orders paymentId with
  | none =>
    have := List.find?_eq_none.mp hf o hmem
    simp [hpay] at this
  | some existing =>
    have h1 := List.find?_some hf
    have h2 := List.mem_of_find?_eq_some hf
    refine ⟨existing, h2, by simpa using h1, ?_⟩
    simp [ensureOrderFromPayment, hp, hid, hf]
theorem ensureOrderFromPayment_short_circuit_witness :
    (∃ o ∈ sampleCashStore.orders, o.paymentId = some 1) ∧
    ∃ existing ∈ sampleCashStore.orders, existing.paymentId = some 1 ∧
      ensureOrderFromPayment sampleCashStore 1 "ORDER_2" =
        (sampleCashStore, .ok (.doc existing)) := by
  obtain ⟨payment, hp⟩ : ∃ payment, findPayment sampleCashStore.payments 1 = some payment :=
    ⟨_, rfl⟩
  exact ⟨by decide,
    ensureOrderFromPayment_short_circuit sampleCashStore 1 "ORDER_2" payment hp (by decide)⟩

/-- C8 (amended): for a payment with no linked order, a non-empty snapshot and sufficient
stock, `ensureOrderFromPayment` writes an order (status `paid`, linked to the payment) when
the payment's status, lower-cased, is `success`, `paid` or `captured`; for every other
status, in particular `pending`, `failed` and `confirmed`, it fails with
'Payment is not in a verified/paid state' and the store is unchanged. -/
theorem ensureOrderFromPayment_status_gate (s : Store) (paymentId : Nat)
    (generatedRef : String) (payment : Payment)
    (hp : findPayment s.payments paymentId = some payment)
    (hno : ∀ o ∈ s.orders, o.paymentId ≠ some paymentId)
    (hne : payment.items ≠ [])
    (hstock : ∀ l ∈ payment.items, 0 < l.quantity ∧
      ∃ p, findProduct s.products l.productId = some p ∧ l.quantity ≤ p.quantity) :
    (lower payment.status ∈ ["success", "paid", "captured"] →
      ∃ o, (ensureOrderFromPayment s paymentId generatedRef).2 = .ok (.docs [o]) ∧
        (ensureOrderFromPayment s paymentId generatedRef).1.orders = s.orders ++ [o] ∧
        o.paymentId = some paymentId ∧ o.status = "paid") ∧
    (lower payment.status ∉ ["success", "paid", "captured"] →
      ensureOrderFromPayment s paymentId generatedRef =
        (s, .error "Payment is not in a verified/paid state")) ∧
    (payment.status ∈ ["pending", "failed", "confirmed"] →
      ensureOrderFromPayment s paymentId generatedRef =
        (s, .error "Payment is not in a verified/paid state")) := by
  have hid : payment._id = paymentId := findPayment_id hp
  have hnone : findOrderByPayment s.orders payment._id = none := by
    rw [hid]
    apply List.find?_eq_none.mpr
    intro o ho
    simpa using hno o ho
  refine ⟨?_, ?_, ?_⟩
  · intro hok
    obtain ⟨ls, t, hv⟩ := validate_snapshot_ok hne hstock
    obtain ⟨products, -, he⟩ :=
      @ensureOrderFromPayment_creates s paymentId generatedRef payment ls t hp hnone hok hne hv
    exact ⟨_, by rw [he], by rw [he], by simp [reconciledOrder, hid], rfl⟩
  · intro hbad
    exact ensureOrderFromPayment_gate hp hnone hbad
  · intro hst
    apply ensureOrderFromPayment_gate hp hnone
    simp only [List.mem_cons, List.mem_singleton, List.not_mem_nil, or_false] at hst
    rcases hst with h | h | h <;> rw [h] <;> decide

theorem ensureOrderFromPayment_status_gate_witness :
    (lower samplePayment.status ∈ ["success", "paid", "captured"] →
      ∃ o, (ensureOrderFromPayment samplePaidStore 1 "ORDER_2").2 = .ok (.docs [o]) ∧
        (ensureOrderFromPayment samplePaidStore 1 "ORDER_2").1.orders =
          samplePaidStore.orders ++ [o] ∧
        o.paymentId = some 1 ∧ o.status = "paid") ∧
    (lower samplePayment.status ∉ ["success", "paid", "captured"] →
      ensureOrderFromPayment samplePaidStore 1 "ORDER_2" =
        (samplePaidStore, .error "Payment is not in a verified/paid state")) ∧
    (samplePayment.status ∈ ["pending", "failed", "confirmed"] →
      ensureOrderFromPayment samplePaidStore 1 "ORDER_2" =
        (samplePaidStore, .error "Payment is not in a verified/paid state")) :=
  ensureOrderFromPayment_status_gate samplePaidStore 1 "ORDER_2" samplePayment
    (by decide) (by decide) (by decide) (by
      intro l hl
      simp only [samplePayment, List.mem_singleton] at hl
      subst hl
      exact ⟨by decide, samplePen, by decide, by decide⟩)

/-- C8, counterexample: the payment written by `createPayment` for a gateway checkout has
status `confirmed`, no linked order, a non-empty snapshot and enough stock, and
`ensureOrderFromPayment` rejects it with 'Payment is not in a verified/paid state'. -/
theorem ensureOrderFromPayment_confirmed_rejected :
    (sampleInitiatedStore.payments.map (fun p => (p._id, p.status, p.items.length))) =
      [(1, "confirmed", 1)] ∧
    sampleInitiatedStore.orders = [] ∧
    (∀ p ∈ sampleInitiatedStore.payments, ∀ l ∈ p.items,
      0 < l.quantity ∧ (stockOf sampleInitiatedStore.products l.productId).any
        (fun q => l.quantity ≤ q)) ∧
    ensureOrderFromPayment sampleInitiatedStore 1 "ORDER_2" =
      (sampleInitiatedStore, .error "Payment is not in a verified/paid state") := by
  refine ⟨by decide, by decide, by decide, by rfl⟩

/-- On a snapshot with positive quantities and a short or missing line the loop throws the
stock or not-found error of such a line. -/
theorem buildLoop_snapshot_error {products : List Product} {items : List OrderItem}
    (hq : ∀ l ∈ items, 0 < l.quantity)
    (hbad : ∃ l ∈ items, findProduct products l.productId = none ∨
      ∃ p, findProduct products l.productId = some p ∧ p.quantity < l.quantity)
    (acc : List OrderItem) (t : Int) :
    ∃ l ∈ items,
      (findProduct products l.productId = none ∧
        buildLoop products (items.map snapshotItem) acc t = .error "Product not found") ∨
      (∃ p, findProduct products l.productId = some p ∧ p.quantity < l.quantity ∧
        buildLoop products (items.map snapshotItem) acc t =
          .error ("Insufficient stock for " ++ p.name)) := by
  induction items generalizing acc t with
  | nil =>
    obtain ⟨l, hl, -⟩ := hbad
    simp at hl
  | cons l rest ih =>
    have hpos : ¬ l.quantity ≤ 0 := not_le.mpr (hq l (List.mem_cons_self _ _))
    cases hf : findProduct products l.productId with
    | none =>
      refine ⟨l, List.mem_cons_self _ _, Or.inl ⟨hf, ?_⟩⟩
      simp [buildLoop, buildLine, itemProductId, itemQuantity, snapshotItem, hf, hpos]
    | some p =>
      by_cases hs : p.quantity < l.quantity
      · refine ⟨l, List.mem_cons_self _ _, Or.inr ⟨p, hf, hs, ?_⟩⟩
        simp [buildLoop, buildLine, itemProductId, itemQuantity, snapshotItem, hf, hpos, hs]
      · have hline := @buildLine_ok products (snapshotItem l) l.productId p rfl hf
          (hq l (List.mem_cons_self _ _))
          (not_lt.mp hs)
        have hrest : ∃ l1 ∈ rest, findProduct products l1.productId = none ∨
            ∃ p, findProduct products l1.productId = some p ∧ p.quantity < l1.quantity := by
          obtain ⟨l1, hl1, hb⟩ := hbad
          rcases List.mem_cons.mp hl1 with rfl | hl1
          · rcases hb with hb | ⟨p1, hp1, hlt⟩
            · simp [hf] at hb
            · rw [hf] at hp1
              cases hp1
              exact absurd hlt hs
          · exact ⟨l1, hl1, hb⟩
        obtain ⟨l1, hl1, hres⟩ := ih (fun x hx => hq x (List.mem_cons_of_mem _ hx)) hrest
          (acc ++ [{ productId := p._id, name := p.name, sellerId := some p.seller,
                     quantity := itemQuantity (snapshotItem l), price := p.price,
                     itemTotal := p.price * itemQuantity (snapshotItem l) }])
          (t + p.price * itemQuantity (snapshotItem l))
        refine ⟨l1, List.mem_cons_of_mem _ hl1, ?_⟩
        simpa only [List.map_cons, buildLoop, hline] using hres

/-- A throwing `ensureOrderFromPayment` leaves the store as it was. -/
theorem ensureOrderFromPayment_error_no_effect (s : Store) (paymentId : Nat)
    (generatedRef : String) (e : String)
    (h : (ensureOrderFromPayment s paymentId generatedRef).2 = .error e) :
    (ensureOrderFromPayment s paymentId generatedRef).1 = s := by
  cases hp : findPayment s.payments paymentId with
  | none => simp [ensureOrderFromPayment, hp]
  | some payment =>
    cases ho : findOrderByPayment s.orders payment._id with
    | some existing => simp [ensureOrderFromPayment, hp, ho]
    | none =>
      by_cases h1 : lower payment.status ∈ okStatuses
      swap
      · simp [ensureOrderFromPayment, hp, ho, h1]
      · by_cases h2 : payment.items.length = 0
        · simp [ensureOrderFromPayment, hp, ho, h1, h2]
        · cases hv : validateAndBuildOrderItems s.products (payment.items.map snapshotItem) with
          | error e1 => simp [ensureOrderFromPayment, hp, ho, h1, h2, hv]
          | ok r =>
            obtain ⟨orderItems, recomputedTotal⟩ := r
            cases ht : ensureOrderTransaction s payment generatedRef orderItems
                recomputedTotal with
            | error e1 => simp [ensureOrderFromPayment, hp, ho, h1, h2, hv, ht]
            | ok r1 =>
              simp [ensureOrderFromPayment, hp, ho, h1, h2, hv, ht] at h

/-- C10: `ensureOrderFromPayment` never fabricates an order on failure. Whenever it throws,
the store (orders, product quantities, payment records) is the one before the call. And for
a payment in an accepted status with no linked order whose snapshot lines have positive
quantities, if some line asks more than the current stock or names a product that no longer
exists, the call throws 'Insufficient stock for <name>' for a line that is short or
'Product not found' for a line whose product is missing, and the store is unchanged. -/
theorem ensureOrderFromPayment_no_fabrication (s : Store) (paymentId : Nat)
    (generatedRef : String) (payment : Payment)
    (hp : findPayment s.payments paymentId = some payment)
    (hno : ∀ o ∈ s.orders, o.paymentId ≠ some paymentId)
    (hok : lower payment.status ∈ ["success", "paid", "captured"])
    (hq : ∀ l ∈ payment.items, 0 < l.quantity)
    (hbad : ∃ l ∈ payment.items, findProduct s.products l.productId = none ∨
      ∃ p, findProduct s.products l.productId = some p ∧ p.quantity < l.quantity) :
    (∀ s0 id ref e, (ensureOrderFromPayment s0 id ref).2 = .error e →
      (ensureOrderFromPayment s0 id ref).1 = s0) ∧
    ∃ l ∈ payment.items,
      (findProduct s.products l.productId = none ∧
        ensureOrderFromPayment s paymentId generatedRef = (s, .error "Product not found")) ∨
      (∃ p, findProduct s.products l.productId = some p ∧ p.quantity < l.quantity ∧
        ensureOrderFromPayment s paymentId generatedRef =
          (s, .error ("Insufficient stock for " ++ p.name))) := by
  refine ⟨ensureOrderFromPayment_error_no_effect, ?_⟩
  have hid : payment._id = paymentId := findPayment_id hp
  have hnone : findOrderByPayment s.orders payment._id = none := by
    rw [hid]
    apply List.find?_eq_none.mpr
    intro o ho
    simpa using hno o ho
  have hc : okStatuses.contains (lower payment.status) = true := by
    simpa [okStatuses] using hok
  have hne : ¬ payment.items.length = 0 := by
    obtain ⟨l, hl, -⟩ := hbad
    intro h0
    rw [List.length_eq_zero.mp h0] at hl
    simp at hl
  have hne2 : ¬ (payment.items.map snapshotItem).length = 0 := by simpa using hne
  obtain ⟨l, hl, hres⟩ := buildLoop_snapshot_error hq hbad [] 0
  refine ⟨l, hl, ?_⟩
  rcases hres with ⟨hf, hb⟩ | ⟨p, hf, hlt, hb⟩
  · left
    refine ⟨hf, ?_⟩
    simp only [ensureOrderFromPayment, hp, hnone, hc, hne, validateAndBuildOrderItems, hne2, hb,
      Bool.not_true, if_false, Bool.false_eq_true]
  · right
    refine ⟨p, hf, hlt, ?_⟩
    simp only [ensureOrderFromPayment, hp, hnone, hc, hne, validateAndBuildOrderItems, hne2, hb,
      Bool.not_true, if_false, Bool.false_eq_true]

theorem ensureOrderFromPayment_no_fabrication_witness :
    (∃ l ∈ sampleShortPayment.items, findProduct sampleShortStore.products l.productId = none ∨
      ∃ p, findProduct sampleShortStore.products l.productId = some p ∧
        p.quantity < l.quantity) ∧
    ((∀ s0 id ref e, (ensureOrderFromPayment s0 id ref).2 = .error e →
      (ensureOrderFromPayment s0 id ref).1 = s0) ∧
    ∃ l ∈ sampleShortPayment.items,
      (findProduct sampleShortStore.products l.productId = none ∧
        ensureOrderFromPayment sampleShortStore 1 "ORDER_2" =
          (sampleShortStore, .error "Product not found")) ∨
      (∃ p, findProduct sampleShortStore.products l.productId = some p ∧
        p.quantity < l.quantity ∧
        ensureOrderFromPayment sampleShortStore 1 "ORDER_2" =
          (sampleShortStore, .error ("Insufficient stock for " ++ p.name)))) :=
  have hbad : ∃ l ∈ sampleShortPayment.items,
      findProduct sampleShortStore.products l.productId = none ∨
      ∃ p, findProduct sampleShortStore.products l.productId = some p ∧
        p.quantity < l.quantity :=
    ⟨{ productId := 2, name := "Ink", sellerId := some 8, quantity := 4, price := 40,
       itemTotal := 160 }, by decide, Or.inr ⟨sampleInk, by decide, by decide⟩⟩
  ⟨hbad, ensureOrderFromPayment_no_fabrication sampleShortStore 1 "ORDER_2" sampleShortPayment
    (by decide) (by decide) (by decide) (by decide) hbad⟩

/-! ## Runs that show a defect -/

/-- C5, failing run: from the empty store, `createPayment` of a gateway checkout followed by
two `verifyPayment` calls with a valid signature for that payment leaves two orders whose
`paymentId` is the one payment. -/
theorem verifyPayment_twice_two_orders :
    (runCalls emptyStore
      [.createPayment 7 sampleGatewayBody "ORDER_1" (.ok "rzp_1"),
       .verifyPayment sampleVerifyBody true,
       .verifyPayment sampleVerifyBody true]).payments.map (fun p => p._id) = [1] ∧
    (runCalls emptyStore
      [.createPayment 7 sampleGatewayBody "ORDER_1" (.ok "rzp_1"),
       .verifyPayment sampleVerifyBody true,
       .verifyPayment sampleVerifyBody true]).orders.map (fun o => (o._id, o.paymentId)) =
      [(1, some 1), (2, some 1)] := by
  decide

/-- C6, failing run: for a paid payment with enough stock, the first `ensureOrderFromPayment`
resolves to the array of created documents, whose `_id` is undefined, and the second to the
stored order, whose `_id` is 1; the second call leaves the store (stock included) as the
first left it. -/
theorem ensureOrderFromPayment_twice_ids_differ :
    (ensureOrderFromPayment samplePaidStore 1 "ORDER_2").2.toOption.map Returned._id =
      some none ∧
    (ensureOrderFromPayment (ensureOrderFromPayment samplePaidStore 1 "ORDER_2").1 1
      "ORDER_3").2.toOption.map Returned._id = some (some 1) ∧
    (ensureOrderFromPayment samplePaidStore 1 "ORDER_2").1.orders.map (fun o => o._id) = [1] ∧
    (ensureOrderFromPayment (ensureOrderFromPayment samplePaidStore 1 "ORDER_2").1 1
      "ORDER_3").1 = (ensureOrderFromPayment samplePaidStore 1 "ORDER_2").1 ∧
    stockOf (ensureOrderFromPayment samplePaidStore 1 "ORDER_2").1.products 1 = some 3 := by
  decide

/-- C9, failing run: `ensureOrderFromPayment` creates order 1 with `paymentId` 1 from the paid
payment 1, and the payment's `orderRef` is still unset after the call. -/
theorem ensureOrderFromPayment_back_link_unset :
    (ensureOrderFromPayment samplePaidStore 1 "ORDER_2").1.orders.map
      (fun o => (o._id, o.paymentId)) = [(1, some 1)] ∧
    (ensureOrderFromPayment samplePaidStore 1 "ORDER_2").1.payments.map
      (fun p => (p._id, p.orderRef)) = [(1, none)] := by
  decide

/-! ## `cancelOrder` -/

/-- After the restoring loop every stock is the old one plus the demand of the lines. -/
theorem stockOf_restoreStock {items : List OrderItem} {ps qs : List Product}
    (h : restoreStock ps items = .ok qs) (pid : Nat) :
    stockOf qs pid = (stockOf ps pid).map (fun q => q + demand items pid) := by
  induction items generalizing ps with
  | nil =>
    simp only [restoreStock, Except.ok.injEq] at h
    subst h
    simp [demand]
  | cons it rest ih =>
    unfold restoreStock at h
    cases hinc : incQuantity ps it.productId it.quantity with
    | none => simp [hinc] at h
    | some ps1 =>
      simp only [hinc] at h
      rw [ih h, stockOf_incQuantity hinc, demand_cons, Option.map_map]
      congr 1
      funext q
      by_cases hp : pid = it.productId
      · have hp2 : it.productId = pid := hp.symm
        simp only [Function.comp, hp, if_true]
        ring
      · have hp2 : ¬ it.productId = pid := fun e => hp e.symm
        simp only [Function.comp, hp, hp2, if_false]
        ring

/-- The `$inc` update finds no document when `findById` finds none. -/
theorem incQuantity_eq_none {ps : List Product} {id : Nat} (d : Int)
    (h : findProduct ps id = none) : incQuantity ps id d = none := by
  induction ps with
  | nil => rfl
  | cons p ps ih =>
    unfold incQuantity
    by_cases hp : p._id = id
    · simp [findProduct, List.find?, hp] at h
    · have : findProduct ps id = none := by
        simpa [findProduct, List.find?, hp] using h
      simp [hp, ih this]

/-- The restoring loop succeeds when every line names an existing product. -/
theorem restoreStock_ok {items : List OrderItem} {ps : List Product}
    (h : ∀ l ∈ items, (findProduct ps l.productId).isSome) :
    ∃ qs, restoreStock ps items = .ok qs := by
  induction items generalizing ps with
  | nil => exact ⟨ps, rfl⟩
  | cons it rest ih =>
    have h1 := incQuantity_isSome it.quantity (h it (List.mem_cons_self _ _))
    obtain ⟨ps1, hps1⟩ := Option.isSome_iff_exists.mp h1
    have h2 : ∀ l ∈ rest, (findProduct ps1 l.productId).isSome := by
      intro l hl
      rw [findProduct_isSome_incQuantity hps1]
      exact h l (List.mem_cons_of_mem _ hl)
    obtain ⟨qs, hqs⟩ := ih h2
    exact ⟨qs, by simp [restoreStock, hps1, hqs]⟩

/-- The restoring loop throws when some line names a product that does not exist. -/
theorem restoreStock_missing {items : List OrderItem} {ps : List Product}
    (h : ∃ l ∈ items, findProduct ps l.productId = none) :
    restoreStock ps items = .error "Failed to restore product stock" := by
  induction items generalizing ps with
  | nil =>
    obtain ⟨l, hl, -⟩ := h
    simp at hl
  | cons it rest ih =>
    unfold restoreStock
    cases hinc : incQuantity ps it.productId it.quantity with
    | none => rfl
    | some ps1 =>
      simp only
      apply ih
      obtain ⟨l, hl, hnone⟩ := h
      rcases List.mem_cons.mp hl with rfl | hl
      · rw [incQuantity_eq_none _ hnone] at hinc
        cases hinc
      · refine ⟨l, hl, ?_⟩
        have := findProduct_isSome_incQuantity hinc l.productId
        rw [hnone] at this
        cases hf : findProduct ps1 l.productId with
        | none => rfl
        | some p => simp [hf] at this

/-- With unique ids, `order.save()` rewrites exactly the stored order with that id. -/
theorem saveOrder_eq_map {os : List Order} {c : Order}
    (hid : (os.map (fun o => o._id)).Nodup) :
    saveOrder os c = os.map (fun o => if o._id = c._id then c else o) := by
  induction os with
  | nil => rfl
  | cons o os ih =>
    simp only [List.map_cons, List.nodup_cons] at hid
    unfold saveOrder
    by_cases ho : o._id = c._id
    · have hno : ∀ x ∈ os, x._id ≠ c._id := by
        intro x hx hxc
        exact hid.1 (List.mem_map.mpr ⟨x, hx, by rw [hxc, ho]⟩)
      have hmap : os.map (fun o => if o._id = c._id then c else o) = os := by
        conv_rhs => rw [← List.map_id os]
        apply List.map_congr_left
        intro x hx
        simp [hno x hx]
      simp [ho, hmap]
    · simp only [ho, if_false, List.map_cons, ih hid.2]

/-- The order `cancelOrder` finds is a stored order that passes the guard. -/
theorem cancelOrder_found {s : Store} {userId orderId : Nat} {order : Order}
    (h : s.orders.find? (fun o => o._id = orderId ∧ o.userId = userId ∧
      (o.status = "pending" ∨ o.status = "processing")) = some order) :
    order ∈ s.orders ∧ order._id = orderId ∧ order.userId = userId ∧
      (order.status = "pending" ∨ order.status = "processing") := by
  have h1 := List.find?_some h
  have h2 := List.mem_of_find?_eq_some h
  simp only [decide_eq_true_eq] at h1
  exact ⟨h2, h1.1, h1.2.1, h1.2.2⟩

/-- C11: `cancelOrder` succeeds only if a stored order has the requested id, belongs to the
requesting buyer and has status `pending` or `processing`; when no stored order does
(unknown id, another buyer's order, or any other status such as `paid`, `cancelled`,
`failed`, `confirmed`) the answer is the 400 failure 'Order cannot be canceled' and the store
(every product quantity and every order) is unchanged. -/
theorem cancelOrder_guard (s : Store) (userId orderId : Nat) :
    ((cancelOrder s userId orderId).2.success = true →
      ∃ o ∈ s.orders, o._id = orderId ∧ o.userId = userId ∧
        (o.status = "pending" ∨ o.status = "processing")) ∧
    ((∀ o ∈ s.orders, o._id = orderId → o.userId = userId →
        o.status ≠ "pending" ∧ o.status ≠ "processing") →
      cancelOrder s userId orderId =
        (s, { status := 400, success := false, message := "Order cannot be canceled" })) := by
  constructor
  · intro h
    cases hf : s.orders.find? (fun o => o._id = orderId ∧ o.userId = userId ∧
        (o.status = "pending" ∨ o.status = "processing")) with
    | none =>
      simp only [cancelOrder, hf] at h
      cases h
    | some order =>
      obtain ⟨h1, h2, h3, h4⟩ := cancelOrder_found hf
      exact ⟨order, h1, h2, h3, h4⟩
  · intro h
    have hf : s.orders.find? (fun o => o._id = orderId ∧ o.userId = userId ∧
        (o.status = "pending" ∨ o.status = "processing")) = none := by
      apply List.find?_eq_none.mpr
      intro o ho
      simp only [decide_eq_true_eq, not_and, not_or]
      intro h1 h2
      exact h o ho h1 h2
    simp only [cancelOrder, hf]

/-- The order `cancelOrder` finds, when the ids are unique, is any stored order passing
the guard. -/
theorem cancelOrder_find_unique {s : Store} {userId orderId : Nat} {o : Order}
    (hid : (s.orders.map (fun o => o._id)).Nodup)
    (ho : o ∈ s.orders) (h1 : o._id = orderId) (h2 : o.userId = userId)
    (h3 : o.status = "pending" ∨ o.status = "processing") :
    s.orders.find? (fun o => o._id = orderId ∧ o.userId = userId ∧
      (o.status = "pending" ∨ o.status = "processing")) = some o := by
  cases hf : s.orders.find? (fun o => o._id = orderId ∧ o.userId = userId ∧
      (o.status = "pending" ∨ o.status = "processing")) with
  | none =>
    have := List.find?_eq_none.mp hf o ho
    simp only [decide_eq_true_eq] at this
    exact absurd ⟨h1, h2, h3⟩ this
  | some order =>
    obtain ⟨hm, hi, -, -⟩ := cancelOrder_found hf
    have : order = o := List.inj_on_of_nodup_map hid hm ho (by rw [hi, h1])
    rw [this]

/-- C12 (amended): when order ids are unique, a successful `cancelOrder` rewrites exactly the
order it cancels, to the same order with status `cancelled` and one entry of status
`cancelled` appended to its timeline (items, amount, buyer and payment link as before), and
for every line of that order the stock of the line's product grows by the total quantity of
the order's lines naming that product, which is the line's own quantity when no other line
names it; and when a line of a cancellable order names a product that no longer exists the
call answers 'Error canceling order' and the store is unchanged. -/
theorem cancelOrder_effect (s : Store) (userId orderId : Nat)
    (hid : (s.orders.map (fun o => o._id)).Nodup) :
    ((cancelOrder s userId orderId).2.success = true →
      ∃ order ∈ s.orders, order._id = orderId ∧ order.userId = userId ∧
        (order.status = "pending" ∨ order.status = "processing") ∧
        (cancelOrder s userId orderId).1.orders = s.orders.map (fun o =>
          if o._id = orderId then
            { order with status := "cancelled",
                         timeline := order.timeline ++
                           [{ status := "cancelled", note := "Cancelled by user" }] }
          else o) ∧
        (cancelOrder s userId orderId).1.payments = s.payments ∧
        ∀ l ∈ order.items, ∃ before,
          stockOf s.products l.productId = some before ∧
          stockOf (cancelOrder s userId orderId).1.products l.productId =
            some (before + demand order.items l.productId) ∧
          (order.items.filter (fun l1 => l1.productId = l.productId) = [l] →
            stockOf (cancelOrder s userId orderId).1.products l.productId =
              some (before + l.quantity))) ∧
    (∀ o ∈ s.orders, o._id = orderId → o.userId = userId →
      (o.status = "pending" ∨ o.status = "processing") →
      (∃ l ∈ o.items, findProduct s.products l.productId = none) →
      cancelOrder s userId orderId =
        (s, { status := 500, success := false, message := "Error canceling order" })) := by
  constructor
  · intro h
    cases hf : s.orders.find? (fun o => o._id = orderId ∧ o.userId = userId ∧
        (o.status = "pending" ∨ o.status = "processing")) with
    | none =>
      simp only [cancelOrder, hf] at h
      cases h
    | some order =>
      obtain ⟨h1, h2, h3, h4⟩ := cancelOrder_found hf
      cases hr : restoreStock s.products order.items with
      | error e =>
        simp only [cancelOrder, hf, hr] at h
        cases h
      | ok products =>
        have hc : cancelOrder s userId orderId =
            ({ s with products := products,
                      orders := saveOrder s.orders
                        { order with status := "cancelled",
                                     timeline := order.timeline ++
                                       [{ status := "cancelled", note := "Cancelled by user" }] } },
             { status := 200, success := true, message := "Order canceled" }) := by
          simp only [cancelOrder, hf, hr]
        refine ⟨order, h1, h2, h3, h4, ?_, by rw [hc], ?_⟩
        · rw [hc]
          simp only
          rw [saveOrder_eq_map hid]
          simp only [h2]
        · intro l hl
          rw [hc]
          simp only
          have hstock := stockOf_restoreStock hr l.productId
          cases hb : stockOf s.products l.productId with
          | none =>
            have hex : ∀ l ∈ order.items, (findProduct s.products l.productId).isSome := by
              intro l1 hl1
              cases hfp : findProduct s.products l1.productId with
              | some p => rfl
              | none =>
                rw [restoreStock_missing ⟨l1, hl1, hfp⟩] at hr
                cases hr
            have := hex l hl
            simp only [stockOf] at hb
            cases hfp : findProduct s.products l.productId with
            | none => simp [hfp] at this
            | some p => simp [hfp] at hb
          | some before =>
            refine ⟨before, rfl, ?_, ?_⟩
            · simp only [hstock, hb, Option.map_some']
            · intro hone
              simp only [hstock, hb, Option.map_some']
              simp [demand, hone]
  · intro o ho h1 h2 h3 hmiss
    have hf := cancelOrder_find_unique hid ho h1 h2 h3
    simp only [cancelOrder, hf, restoreStock_missing hmiss]

theorem cancelOrder_effect_witness :
    ∃ order ∈ sampleTwiceStore.orders, order._id = 1 ∧ order.userId = 7 ∧
      (order.status = "pending" ∨ order.status = "processing") ∧
      (cancelOrder sampleTwiceStore 7 1).1.orders = sampleTwiceStore.orders.map (fun o =>
        if o._id = 1 then
          { order with status := "cancelled",
                       timeline := order.timeline ++
                         [{ status := "cancelled", note := "Cancelled by user" }] }
        else o) ∧
      (cancelOrder sampleTwiceStore 7 1).1.payments = sampleTwiceStore.payments ∧
      ∀ l ∈ order.items, ∃ before,
        stockOf sampleTwiceStore.products l.productId = some before ∧
        stockOf (cancelOrder sampleTwiceStore 7 1).1.products l.productId =
          some (before + demand order.items l.productId) ∧
        (order.items.filter (fun l1 => l1.productId = l.productId) = [l] →
          stockOf (cancelOrder sampleTwiceStore 7 1).1.products l.productId =
            some (before + l.quantity)) :=
  (cancelOrder_effect sampleTwiceStore 7 1 (by decide)).1 (by decide)

/-- C12, counterexample: the pending order 1 has two lines of two pens each and one pen is
in stock; cancelling it succeeds and the pen's stock goes from 1 to 5, not to `1 + 2`. -/
theorem cancelOrder_line_increase_counterexample :
    (cancelOrder sampleTwiceStore 7 1).2.success = true ∧
    (sampleTwiceStore.orders.map
      (fun o => (o._id, o.items.map (fun l => (l.productId, l.quantity))))) =
        [(1, [(1, 2), (1, 2)])] ∧
    stockOf sampleTwiceStore.products 1 = some 1 ∧
    stockOf (cancelOrder sampleTwiceStore 7 1).1.products 1 = some 5 ∧
    ¬ (∀ o ∈ sampleTwiceStore.orders, ∀ l ∈ o.items,
        stockOf (cancelOrder sampleTwiceStore 7 1).1.products l.productId =
          (stockOf sampleTwiceStore.products l.productId).map (fun q => q + l.quantity)) := by
  decide

/-! ## Checkouts of the payment controller -/

/-- C13, failing run: five pens are in stock; the cash path of `createPayment` writes the
pending order 1 for one pen and leaves the stock at five; cancelling that order at once
succeeds and leaves six pens, not the five there were before the checkout. (For the order
written by a cash `placeOrder` of two pens the same round trip gives 5, 3, 5.) -/
theorem createPayment_cash_cancel_inflates_stock :
    stockOf sampleStore.products 1 = some 5 ∧
    (createPayment sampleStore 7 sampleCashBody "ORDER_1" (.ok "unused")).2.success = true ∧
    (sampleCashStore.orders.map (fun o => (o._id, o.userId, o.status))) =
      [(1, 7, "pending")] ∧
    stockOf sampleCashStore.products 1 = some 5 ∧
    (cancelOrder sampleCashStore 7 1).2.success = true ∧
    stockOf (runCalls sampleStore
      [.createPayment 7 sampleCashBody "ORDER_1" (.ok "unused"),
       .cancelOrder 7 1]).products 1 = some 6 ∧
    stockOf (runCalls sampleStore
      [.placeOrder 7 { sampleTwiceBody with items := [{ productId := some 1,
                                                        quantity := some 2 }] } "ORDER_1"]).products
      1 = some 3 ∧
    stockOf (runCalls sampleStore
      [.placeOrder 7 { sampleTwiceBody with items := [{ productId := some 1,
                                                        quantity := some 2 }] } "ORDER_1",
       .cancelOrder 7 1]).products 1 = some 5 := by
  decide

/-- C14, failing run: neither `createPayment` nor `verifyPayment` ever writes to the
products. A successful cash `createPayment` writes an order with a line of one pen while the
pen's stock stays at five. No `verifyPayment` answers success: with a valid signature it
writes the order (here a line of one pen, the stock staying at five) and then answers 500. -/
theorem payment_checkouts_leave_stock :
    (∀ s userId body generatedRef gateway,
      (createPayment s userId body generatedRef gateway).1.products = s.products) ∧
    (∀ s body signatureValid, (verifyPayment s body signatureValid).1.products = s.products) ∧
    (createPayment sampleStore 7 sampleCashBody "ORDER_1" (.ok "unused")).2.success = true ∧
    (sampleCashStore.orders.map
      (fun o => o.items.map (fun l => (l.productId, l.quantity)))) = [[(1, 1)]] ∧
    stockOf sampleStore.products 1 = some 5 ∧
    stockOf sampleCashStore.products 1 = some 5 ∧
    (∀ s body signatureValid, (verifyPayment s body signatureValid).2.success = false) ∧
    (verifyPayment sampleInitiatedStore sampleVerifyBody true).2.status = 500 ∧
    ((verifyPayment sampleInitiatedStore sampleVerifyBody true).1.orders.map
      (fun o => o.items.map (fun l => (l.productId, l.quantity)))) = [[(1, 1)]] ∧
    stockOf (verifyPayment sampleInitiatedStore sampleVerifyBody true).1.products 1 =
      some 5 := by
  refine ⟨?_, ?_, by decide, by decide, by decide, by decide, ?_, by decide, by decide,
    by decide⟩
  · intro s userId body generatedRef gateway
    unfold createPayment
    repeat' split
    all_goals first
      | rfl
      | (dsimp only
         split <;> rfl)
  · intro s body signatureValid
    unfold verifyPayment
    split
    · rfl
    · dsimp only
      split <;> rfl
  · intro s body signatureValid
    unfold verifyPayment
    split
    · rfl
    · dsimp only
      split <;> rfl

/-- C15, failing runs: a cash `createPayment` and a `verifyPayment`, for a checkout whose
client `amount` is 1 and whose single line has `itemTotal` 100, each write an order of amount
1 whose lines total 100. -/
theorem payment_checkouts_trust_client_amount :
    (createPayment sampleStore 7 sampleUnderpaidCashBody "ORDER_1" (.ok "unused")).2.success =
      true ∧
    ((createPayment sampleStore 7 sampleUnderpaidCashBody "ORDER_1" (.ok "unused")).1.orders.map
      (fun o => (o.amount, (o.items.map (fun l => l.itemTotal)).sum))) = [(1, 100)] ∧
    ((runCalls sampleStore
      [.createPayment 7 sampleUnderpaidGatewayBody "ORDER_1" (.ok "rzp_1"),
       .verifyPayment sampleVerifyBody true]).orders.map
      (fun o => (o.amount, (o.items.map (fun l => l.itemTotal)).sum))) = [(1, 100)] := by
  decide

/-! ## Orders written by `placeOrder` and `ensureOrderFromPayment` -/

/-- Every id of a collection is below the fresh id. -/
theorem lt_freshId {ids : List Nat} {x : Nat} (h : x ∈ ids) : x < freshId ids := by
  have hle : ∀ (l : List Nat), x ∈ l → x ≤ l.foldr max 0 := by
    intro l
    induction l with
    | nil => intro hx; simp at hx
    | cons a l ih =>
      intro hx
      rcases List.mem_cons.mp hx with rfl | hx
      · simp
      · have := ih hx
        simp only [List.foldr_cons]
        exact le_trans this (le_max_right _ _)
  exact Nat.lt_succ_of_le (hle ids h)

/-- The order a committed `placeOrder` transaction wrote: its id, buyer, seeded status and
timeline, lines and amount. -/
theorem placeOrderTransaction_order {s s1 : Store} {userId : Nat} {body : PlaceOrderBody}
    {generatedRef : String} {orderItems : List OrderItem} {recomputedTotal : Int}
    {orderDocs : List Order}
    (h : placeOrderTransaction s userId body generatedRef orderItems recomputedTotal =
      .ok (s1, orderDocs)) :
    ∃ o, orderDocs = [o] ∧ s1.orders = s.orders ++ [o] ∧ s1.payments = s.payments ∧
      decrementStock s.products orderItems = .ok s1.products ∧
      o._id = freshId (s.orders.map (fun o => o._id)) ∧ o.userId = userId ∧
      o.status = (if orDefault body.paymentMethod "Cash" = "Cash" then "pending" else "paid") ∧
      o.timeline = [{ status := o.status,
                      note := if orDefault body.paymentMethod "Cash" = "Cash"
                        then "COD order created" else "Prepaid order created" }] ∧
      o.items = orderItems ∧ o.amount = recomputedTotal ∧ o.paymentId = none := by
  unfold placeOrderTransaction at h
  cases hd : decrementStock s.products orderItems with
  | error e => simp [hd] at h
  | ok products =>
    simp only [hd] at h
    cases hm : PaymentMethod.ofString? (orDefault body.paymentMethod "Cash") with
    | none => simp [hm] at h
    | some pm =>
      simp only [hm, Except.ok.injEq, Prod.mk.injEq] at h
      obtain ⟨h1, h2⟩ := h
      subst h1
      exact ⟨_, h2.symm, rfl, rfl, rfl, rfl, rfl, rfl, rfl, rfl, rfl, rfl⟩

/-- The `placeOrder` half of the cancellation round trip: cancelling the order a successful
cash `placeOrder` has just written succeeds and gives every product the stock it had before
the checkout. -/
theorem placeOrder_cancel_round_trip (s : Store) (userId : Nat) (body : PlaceOrderBody)
    (generatedRef : String)
    (h : (placeOrder s userId body generatedRef).2.success = true)
    (hcash : orDefault body.paymentMethod "Cash" = "Cash") :
    ∃ o, (placeOrder s userId body generatedRef).2.order = some (.docs [o]) ∧
      (cancelOrder (placeOrder s userId body generatedRef).1 userId o._id).2.success = true ∧
      ∀ pid, stockOf
        (cancelOrder (placeOrder s userId body generatedRef).1 userId o._id).1.products pid =
          stockOf s.products pid := by
  obtain ⟨orderItems, recomputedTotal, s1, orderDocs, hv, ht, h1, h2⟩ :=
    placeOrder_success_inv h
  obtain ⟨o, rfl, horders, -, hd, hoid, huser, hstatus, -, hitems, -, -⟩ :=
    placeOrderTransaction_order ht
  refine ⟨o, h2, ?_⟩
  rw [h1]
  rw [if_pos hcash] at hstatus
  have hfind : s1.orders.find? (fun x => x._id = o._id ∧ x.userId = userId ∧
      (x.status = "pending" ∨ x.status = "processing")) = some o := by
    rw [horders, List.find?_append]
    have hnone : s.orders.find? (fun x => x._id = o._id ∧ x.userId = userId ∧
        (x.status = "pending" ∨ x.status = "processing")) = none := by
      apply List.find?_eq_none.mpr
      intro x hx
      simp only [decide_eq_true_eq, not_and]
      intro hxid
      have hlt : x._id < freshId (s.orders.map (fun o => o._id)) :=
        lt_freshId (List.mem_map.mpr ⟨x, hx, rfl⟩)
      rw [← hoid, hxid] at hlt
      exact absurd hlt (lt_irrefl _)
    rw [hnone]
    simp [List.find?, huser, hstatus]
  have hex : ∀ l ∈ o.items, (findProduct s1.products l.productId).isSome := by
    intro l hl
    have hs := stockOf_decrementStock hd l.productId
    have hb := built_lines_exist hv l (hitems ▸ hl)
    obtain ⟨p, hp⟩ := Option.isSome_iff_exists.mp hb
    simp only [stockOf, hp, Option.map_some'] at hs
    cases hf : findProduct s1.products l.productId with
    | none => simp [hf] at hs
    | some q => rfl
  obtain ⟨products2, hr⟩ := restoreStock_ok hex
  have hc : cancelOrder s1 userId o._id =
      ({ s1 with products := products2,
                 orders := saveOrder s1.orders
                   { o with status := "cancelled",
                            timeline := o.timeline ++
                              [{ status := "cancelled", note := "Cancelled by user" }] } },
       { status := 200, success := true, message := "Order canceled" }) := by
    simp only [cancelOrder, hfind, hr]
  rw [hc]
  refine ⟨rfl, ?_⟩
  intro pid
  simp only
  rw [stockOf_restoreStock hr pid, stockOf_decrementStock hd pid, hitems, Option.map_map]
  cases stockOf s.products pid with
  | none => rfl
  | some q => simp

/-- The part of the order total invariant that holds: the order written by a successful
`placeOrder` has an amount equal to the sum of its lines' `itemTotal`. -/
theorem placeOrder_amount_is_sum (s : Store) (userId : Nat) (body : PlaceOrderBody)
    (generatedRef : String)
    (h : (placeOrder s userId body generatedRef).2.success = true) :
    ∃ o, (placeOrder s userId body generatedRef).1.orders = s.orders ++ [o] ∧
      o.amount = (o.items.map (fun l => l.itemTotal)).sum := by
  obtain ⟨orderItems, recomputedTotal, s1, orderDocs, hv, ht, h1, -⟩ :=
    placeOrder_success_inv h
  obtain ⟨o, -, horders, -, -, -, -, -, -, hitems, hamount, -⟩ :=
    placeOrderTransaction_order ht
  obtain ⟨-, hsum, -⟩ := validateAndBuildOrderItems_inv hv
  exact ⟨o, by rw [h1, horders], by rw [hamount, hitems, hsum]⟩

/-! ## What `placeOrder` reads from the request -/

/-- The loop body reads only the product id and the quantity of an entry. -/
theorem buildLine_congr (products : List Product) {a b : SourceItem}
    (h : a.productId = b.productId ∧ a._id = b._id ∧ a.quantity = b.quantity) :
    buildLine products a = buildLine products b := by
  simp only [buildLine, itemProductId, itemQuantity, h.1, h.2.1, h.2.2]

/-- The loop reads only the product ids and the quantities of the entries. -/
theorem buildLoop_congr (products : List Product) {xs ys : List SourceItem}
    (h : List.Forall₂ (fun a b => a.productId = b.productId ∧ a._id = b._id ∧
      a.quantity = b.quantity) xs ys) (acc : List OrderItem) (t : Int) :
    buildLoop products xs acc t = buildLoop products ys acc t := by
  induction h generalizing acc t with
  | nil => rfl
  | cons hab _ ih =>
    simp only [buildLoop, buildLine_congr products hab]
    split
    · rfl
    · exact ih _ _

/-- C16: `placeOrder` never trusts client prices, totals or snapshots: two requests with the
same product ids and quantities line by line, the same address and payment data, whose
lines differ in any of the client fields `name`, `price`, `itemTotal`, `sellerId`, give the
same answer and the same store (same success or failure, same order lines and amount, same
stock). The handler reads no `amount` from the request. -/
theorem placeOrder_ignores_client_prices (s : Store) (userId : Nat) (body : PlaceOrderBody)
    (items2 : List SourceItem) (generatedRef : String)
    (hsame : List.Forall₂ (fun a b => a.productId = b.productId ∧ a._id = b._id ∧
      a.quantity = b.quantity) body.items items2) :
    placeOrder s userId { body with items := items2 } generatedRef =
      placeOrder s userId body generatedRef := by
  have hlen : items2.length = body.items.length := hsame.length_eq.symm
  have hv : validateAndBuildOrderItems s.products items2 =
      validateAndBuildOrderItems s.products body.items := by
    simp only [validateAndBuildOrderItems, hlen, buildLoop_congr s.products hsame]
  have ht : ∀ orderItems recomputedTotal,
      placeOrderTransaction s userId { body with items := items2 } generatedRef orderItems
        recomputedTotal =
      placeOrderTransaction s userId body generatedRef orderItems recomputedTotal := by
    intro orderItems recomputedTotal
    rfl
  simp only [placeOrder, hlen, hv, ht]

theorem placeOrder_ignores_client_prices_witness :
    List.Forall₂ (fun a b => a.productId = b.productId ∧ a._id = b._id ∧
      a.quantity = b.quantity) samplePlainBody.items sampleForgedItems ∧
    (placeOrder sampleStore 7 { samplePlainBody with items := sampleForgedItems } "ORDER_1" =
      placeOrder sampleStore 7 samplePlainBody "ORDER_1") ∧
    (placeOrder sampleStore 7 samplePlainBody "ORDER_1").2.success = true ∧
    ((placeOrder sampleStore 7 { samplePlainBody with items := sampleForgedItems }
      "ORDER_1").1.orders.map (fun o => (o.amount, o.items.map (fun l => l.price)))) =
        [(240, [100, 40])] :=
  have hsame : List.Forall₂ (fun a b => a.productId = b.productId ∧ a._id = b._id ∧
      a.quantity = b.quantity) samplePlainBody.items sampleForgedItems :=
    List.Forall₂.cons ⟨rfl, rfl, rfl⟩ (List.Forall₂.cons ⟨rfl, rfl, rfl⟩ List.Forall₂.nil)
  ⟨hsame, placeOrder_ignores_client_prices sampleStore 7 samplePlainBody sampleForgedItems
    "ORDER_1" hsame, by decide, by decide⟩

/-- C20: `placeOrder` rejects every request whose shipping address is absent or in which
one of street, city, state, country and postal code is absent or empty, with the 400 answer
'Complete shipping address is required', before any stock mutation: the store (every product
quantity, every order) is unchanged. -/
theorem placeOrder_requires_address (s : Store) (userId : Nat) (body : PlaceOrderBody)
    (generatedRef : String)
    (h : body.shippingAddress = none ∨
      ∃ a, body.shippingAddress = some a ∧
        ∃ f ∈ [a.street, a.city, a.state, a.country, a.postalCode], f = none ∨ f = some "") :
    placeOrder s userId body generatedRef =
      (s, { status := 400, success := false,
            message := "Complete shipping address is required" }) := by
  have hfalsy : ∀ f : Option String, (f = none ∨ f = some "") → truthy f = false := by
    intro f hf
    rcases hf with rfl | rfl <;> rfl
  have hmiss : addressMissing body.shippingAddress = true := by
    rcases h with h | ⟨a, ha, f, hf, hfal⟩
    · simp [addressMissing, h]
    · have := hfalsy f hfal
      simp only [List.mem_cons, List.mem_singleton, List.not_mem_nil, or_false] at hf
      rcases hf with rfl | rfl | rfl | rfl | rfl <;> simp [addressMissing, ha, this]
  simp only [placeOrder, hmiss, if_true]

theorem placeOrder_requires_address_witness :
    placeOrder sampleStore 7
      { samplePlainBody with shippingAddress := some { sampleAddress with state := none } }
      "ORDER_1" =
      (sampleStore, { status := 400, success := false,
                      message := "Complete shipping address is required" }) :=
  placeOrder_requires_address sampleStore 7
    { samplePlainBody with shippingAddress := some { sampleAddress with state := none } }
    "ORDER_1" (Or.inr ⟨{ sampleAddress with state := none }, rfl, none, by decide, Or.inl rfl⟩)

/-! ## Status seeding -/

/-- A call of `ensureOrderFromPayment` that resolves to an array went through the creating
path: the array holds the one reconciled order, appended to the orders. -/
theorem ensureOrderFromPayment_docs_inv {s : Store} {paymentId : Nat} {generatedRef : String}
    {os : List Order}
    (h : (ensureOrderFromPayment s paymentId generatedRef).2 = .ok (.docs os)) :
    ∃ payment ls t, findPayment s.payments paymentId = some payment ∧
      os = [reconciledOrder s.orders payment generatedRef ls t] ∧
      (ensureOrderFromPayment s paymentId generatedRef).1.orders = s.orders ++ os := by
  cases hp : findPayment s.payments paymentId with
  | none => simp [ensureOrderFromPayment, hp] at h
  | some payment =>
    cases ho : findOrderByPayment s.orders payment._id with
    | some existing => simp [ensureOrderFromPayment, hp, ho] at h
    | none =>
      by_cases h1 : lower payment.status ∈ okStatuses
      swap
      · simp [ensureOrderFromPayment, hp, ho, h1] at h
      · by_cases h2 : payment.items.length = 0
        · simp [ensureOrderFromPayment, hp, ho, h1, h2] at h
        · cases hv : validateAndBuildOrderItems s.products (payment.items.map snapshotItem) with
          | error e1 => simp [ensureOrderFromPayment, hp, ho, h1, h2, hv] at h
          | ok r =>
            obtain ⟨ls, t⟩ := r
            cases hd : decrementStock s.products ls with
            | error e1 =>
              simp [ensureOrderFromPayment, hp, ho, h1, h2, hv, ensureOrderTransaction, hd] at h
            | ok products =>
              have hc : okStatuses.contains (lower payment.status) = true := by simpa using h1
              have he : ensureOrderFromPayment s paymentId generatedRef =
                  ({ products := products,
                     orders := s.orders ++ [reconciledOrder s.orders payment generatedRef ls t],
                     payments := s.payments },
                    .ok (.docs [reconciledOrder s.orders payment generatedRef ls t])) := by
                simp only [ensureOrderFromPayment, hp, ho, hc, h2, hv, ensureOrderTransaction, hd,
                  Returned._id, setOrderRef, Bool.not_true, if_false, Bool.false_eq_true]
              rw [he] at h ⊢
              simp only [Except.ok.injEq, Returned.docs.injEq] at h
              exact ⟨payment, ls, t, rfl, h.symm, by rw [← h]⟩

/-- C19: the order written by a successful `placeOrder` has status `pending` when the
payment method is Cash or omitted (absent or empty) and `paid` for every other method, the
order written by `ensureOrderFromPayment` has status `paid`, and in both cases the timeline of
the new order has exactly one entry, whose status is the order's status. -/
theorem order_status_seeding (s : Store) (userId : Nat) (body : PlaceOrderBody)
    (generatedRef : String) (paymentId : Nat) :
    ((placeOrder s userId body generatedRef).2.success = true →
      ∃ o, (placeOrder s userId body generatedRef).1.orders = s.orders ++ [o] ∧
        (body.paymentMethod = none ∨ body.paymentMethod = some "" ∨
          body.paymentMethod = some "Cash" → o.status = "pending") ∧
        (∀ m, body.paymentMethod = some m → m ≠ "" → m ≠ "Cash" → o.status = "paid") ∧
        ∃ note, o.timeline = [{ status := o.status, note := note }]) ∧
    (∀ os, (ensureOrderFromPayment s paymentId generatedRef).2 = .ok (.docs os) →
      ∃ o, os = [o] ∧
        (ensureOrderFromPayment s paymentId generatedRef).1.orders = s.orders ++ [o] ∧
        o.status = "paid" ∧ ∃ note, o.timeline = [{ status := o.status, note := note }]) := by
  constructor
  · intro h
    obtain ⟨orderItems, recomputedTotal, s1, orderDocs, -, ht, h1, -⟩ :=
      placeOrder_success_inv h
    obtain ⟨o, -, horders, -, -, -, -, hstatus, htime, -, -, -⟩ :=
      placeOrderTransaction_order ht
    refine ⟨o, by rw [h1, horders], ?_, ?_, ⟨_, htime⟩⟩
    · intro hm
      rw [hstatus]
      rcases hm with hm | hm | hm <;> simp [hm, orDefault]
    · intro m hm h0 hc
      rw [hstatus]
      simp [hm, orDefault, h0, hc]
  · intro os h
    obtain ⟨payment, ls, t, -, hos, horders⟩ := ensureOrderFromPayment_docs_inv h
    exact ⟨_, hos, by rw [horders, hos], rfl, ⟨_, rfl⟩⟩

theorem order_status_seeding_witness :
    (∃ o, (placeOrder sampleStore 7 samplePlainBody "ORDER_1").1.orders =
        sampleStore.orders ++ [o] ∧
      (samplePlainBody.paymentMethod = none ∨ samplePlainBody.paymentMethod = some "" ∨
        samplePlainBody.paymentMethod = some "Cash" → o.status = "pending") ∧
      (∀ m, samplePlainBody.paymentMethod = some m → m ≠ "" → m ≠ "Cash" →
        o.status = "paid") ∧
      ∃ note, o.timeline = [{ status := o.status, note := note }]) ∧
    (∃ o, (ensureOrderFromPayment samplePaidStore 1 "ORDER_2").1.orders =
        samplePaidStore.orders ++ [o] ∧
      o.status = "paid" ∧ ∃ note, o.timeline = [{ status := o.status, note := note }]) :=
  ⟨(order_status_seeding sampleStore 7 samplePlainBody "ORDER_1" 1).1 (by decide),
   by
    obtain ⟨o, -, h2, h3, h4⟩ :=
      (order_status_seeding samplePaidStore 7 samplePlainBody "ORDER_2" 1).2 _ rfl
    exact ⟨o, h2, h3, h4⟩⟩

/-! ## Which requests the order builder accepts -/

/-- The loop runs through a prefix of valid entries, appending their lines. -/
theorem buildLoop_prefix (products : List Product) (pre : List SourceItem)
    (hpre : ∀ x ∈ pre, ∃ pid p, itemProductId x = some pid ∧ 0 < itemQuantity x ∧
      findProduct products pid = some p ∧ itemQuantity x ≤ p.quantity) :
    ∃ lines, ∀ (rest : List SourceItem) (acc : List OrderItem) (t : Int),
      buildLoop products (pre ++ rest) acc t =
        buildLoop products rest (acc ++ lines)
          (t + (lines.map (fun l => l.itemTotal)).sum) := by
  induction pre with
  | nil => exact ⟨[], fun rest acc t => by simp⟩
  | cons x pre ih =>
    obtain ⟨pid, p, hid, hq, hp, hs⟩ := hpre x (List.mem_cons_self _ _)
    obtain ⟨lines, hl⟩ := ih (fun y hy => hpre y (List.mem_cons_of_mem _ hy))
    refine ⟨{ productId := p._id, name := p.name, sellerId := some p.seller,
              quantity := itemQuantity x, price := p.price,
              itemTotal := p.price * itemQuantity x } :: lines, ?_⟩
    intro rest acc t
    show buildLoop products (x :: (pre ++ rest)) acc t = _
    simp only [buildLoop, buildLine_ok hid hp hq hs, hl, List.map_cons,
      List.sum_cons, List.append_assoc, List.singleton_append, add_assoc]

/-- The build throws the error of the first entry that the loop body rejects. -/
theorem validate_first_offender (products : List Product) (pre post : List SourceItem)
    (it : SourceItem) (e : String)
    (hpre : ∀ x ∈ pre, ∃ pid p, itemProductId x = some pid ∧ 0 < itemQuantity x ∧
      findProduct products pid = some p ∧ itemQuantity x ≤ p.quantity)
    (he : buildLine products it = .error e) :
    validateAndBuildOrderItems products (pre ++ it :: post) = .error e := by
  obtain ⟨lines, hl⟩ := buildLoop_prefix products pre hpre
  have hlen : ¬ (pre ++ it :: post).length = 0 := by simp
  simp only [validateAndBuildOrderItems, hlen, if_false, hl, buildLoop, he]

/-- Every entry of a list related to lines by the loop body builds a line. -/
theorem forall₂_buildLine_mem {products : List Product} {items : List SourceItem}
    {ls : List OrderItem}
    (hf : List.Forall₂ (fun it l => buildLine products it = .ok l) items ls) :
    ∀ it ∈ items, ∃ l, buildLine products it = .ok l := by
  induction hf with
  | nil => simp
  | cons hl _ ih =>
    intro it hmem
    rcases List.mem_cons.mp hmem with rfl | hmem
    · exact ⟨_, hl⟩
    · exact ih it hmem

/-- C17: `validateAndBuildOrderItems` succeeds if and only if the list is non-empty and
every entry has a product id, a quantity greater than 0, a product that exists and a
quantity not exceeding that product's stock. Otherwise it throws (returning no lines): 'No
items to order' for the empty list, and else the error of the first offending entry in list
order, which is 'Invalid product or quantity' when that entry has no product id or a
quantity `<= 0`, 'Product not found' when its product does not exist, and 'Insufficient
stock for <name>' when its quantity exceeds the stock. -/
theorem validateAndBuildOrderItems_iff (products : List Product) (items : List SourceItem) :
    ((∃ r, validateAndBuildOrderItems products items = .ok r) ↔
      items ≠ [] ∧ ∀ it ∈ items, ∃ pid p, itemProductId it = some pid ∧ 0 < itemQuantity it ∧
        findProduct products pid = some p ∧ itemQuantity it ≤ p.quantity) ∧
    (items = [] → validateAndBuildOrderItems products items = .error "No items to order") ∧
    (∀ pre it post, items = pre ++ it :: post →
      (∀ x ∈ pre, ∃ pid p, itemProductId x = some pid ∧ 0 < itemQuantity x ∧
        findProduct products pid = some p ∧ itemQuantity x ≤ p.quantity) →
      ((itemProductId it = none ∨ itemQuantity it ≤ 0) →
        validateAndBuildOrderItems products items = .error "Invalid product or quantity") ∧
      (∀ pid, itemProductId it = some pid → 0 < itemQuantity it →
        findProduct products pid = none →
        validateAndBuildOrderItems products items = .error "Product not found") ∧
      (∀ pid p, itemProductId it = some pid → 0 < itemQuantity it →
        findProduct products pid = some p → p.quantity < itemQuantity it →
        validateAndBuildOrderItems products items =
          .error ("Insufficient stock for " ++ p.name))) := by
  refine ⟨⟨?_, ?_⟩, ?_, ?_⟩
  · rintro ⟨⟨ls, t⟩, hr⟩
    obtain ⟨hne, -, hf⟩ := validateAndBuildOrderItems_inv hr
    refine ⟨hne, ?_⟩
    intro it hit
    obtain ⟨l, hl⟩ := forall₂_buildLine_mem hf it hit
    obtain ⟨p, hid, hp, -, -, hq, hpos, hle, -, -⟩ := buildLine_inv hl
    exact ⟨l.productId, p, hid, hq ▸ hpos, hp, hq ▸ hle⟩
  · rintro ⟨hne, hall⟩
    obtain ⟨lines, hl, -⟩ := buildLoop_ok products items
      (fun it hit => by
        obtain ⟨pid, p, h1, h2, h3, h4⟩ := hall it hit
        exact ⟨pid, p, h1, h3, h2, h4⟩) [] 0
    have hlen : ¬ items.length = 0 := fun h0 => hne (List.length_eq_zero.mp h0)
    exact ⟨([] ++ lines, 0 + (lines.map (fun l => l.itemTotal)).sum),
      by simp only [validateAndBuildOrderItems, hlen, if_false, hl]⟩
  · rintro rfl
    rfl
  · rintro pre it post rfl hpre
    refine ⟨?_, ?_, ?_⟩
    · intro hbad
      apply validate_first_offender products pre post it _ hpre
      rcases hbad with hbad | hbad
      · simp [buildLine, hbad]
      · cases hid : itemProductId it <;> simp [buildLine, hid, hbad]
    · intro pid hid hq hp
      apply validate_first_offender products pre post it _ hpre
      simp [buildLine, hid, not_le.mpr hq, hp]
    · intro pid p hid hq hp hs
      apply validate_first_offender products pre post it _ hpre
      simp [buildLine, hid, not_le.mpr hq, hp, hs]

theorem validateAndBuildOrderItems_iff_witness :
    validateAndBuildOrderItems sampleStore.products sampleShortBody.items =
      .error ("Insufficient stock for " ++ sampleInk.name) :=
  ((validateAndBuildOrderItems_iff sampleStore.products sampleShortBody.items).2.2
    [{ productId := some 1, quantity := some 1 }] { productId := some 2, quantity := some 4 }
    [{ productId := some 1, quantity := some 2 }] rfl
    (by
      intro x hx
      simp only [List.mem_singleton] at hx
      subst hx
      exact ⟨1, samplePen, by decide, by decide, by decide, by decide⟩)).2.2
    2 sampleInk (by decide) (by decide) (by decide) (by decide)

/-- C18: a stock conflict names the product that is short. When the first entry of the
list, in list order, whose requested quantity exceeds the current quantity of its product
is reached by the build (every entry before it is accepted), the build throws 'Insufficient
stock for ' followed by the name of that entry's product, and `placeOrder`, given a complete
address, answers with that message in `error` and changes nothing. -/
theorem stock_conflict_names_product (s : Store) (userId : Nat) (body : PlaceOrderBody)
    (generatedRef : String) (pre post : List SourceItem) (it : SourceItem) (pid : Nat)
    (p : Product)
    (haddr : addressMissing body.shippingAddress = false)
    (hitems : body.items = pre ++ it :: post)
    (hpre : ∀ x ∈ pre, ∃ pid p, itemProductId x = some pid ∧ 0 < itemQuantity x ∧
      findProduct s.products pid = some p ∧ itemQuantity x ≤ p.quantity)
    (hid : itemProductId it = some pid) (hq : 0 < itemQuantity it)
    (hp : findProduct s.products pid = some p) (hshort : p.quantity < itemQuantity it) :
    validateAndBuildOrderItems s.products body.items =
      .error ("Insufficient stock for " ++ p.name) ∧
    placeOrder s userId body generatedRef =
      (s, { status := 500, success := false, message := "Internal Server Error",
            error := some ("Insufficient stock for " ++ p.name) }) := by
  have hline : buildLine s.products it = .error ("Insufficient stock for " ++ p.name) := by
    simp [buildLine, hid, not_le.mpr hq, hp, hshort]
  have hv : validateAndBuildOrderItems s.products body.items =
      .error ("Insufficient stock for " ++ p.name) := by
    rw [hitems]
    exact validate_first_offender s.products pre post it _ hpre hline
  refine ⟨hv, ?_⟩
  have hlen : ¬ body.items.length = 0 := by
    rw [hitems]
    simp
  simp only [placeOrder, haddr, hlen, hv, serverError, if_false, Bool.false_eq_true]

theorem stock_conflict_names_product_witness :
    validateAndBuildOrderItems sampleStore.products sampleShortBody.items =
      .error ("Insufficient stock for " ++ "Ink") ∧
    placeOrder sampleStore 7 sampleShortBody "ORDER_1" =
      (sampleStore, { status := 500, success := false, message := "Internal Server Error",
                      error := some ("Insufficient stock for " ++ "Ink") }) :=
  stock_conflict_names_product sampleStore 7 sampleShortBody "ORDER_1"
    [{ productId := some 1, quantity := some 1 }] [{ productId := some 1, quantity := some 2 }]
    { productId := some 2, quantity := some 4 } 2 sampleInk (by decide) rfl
    (by
      intro x hx
      simp only [List.mem_singleton] at hx
      subst hx
      exact ⟨1, samplePen, by decide, by decide, by decide, by decide⟩)
    (by decide) (by decide) (by decide) (by decide)

theorem cancelOrder_guard_witness :
    cancelOrder (cancelOrder sampleTwiceStore 7 1).1 7 1 =
      ((cancelOrder sampleTwiceStore 7 1).1,
        { status := 400, success := false, message := "Order cannot be canceled" }) :=
  (cancelOrder_guard (cancelOrder sampleTwiceStore 7 1).1 7 1).2 (by decide)

/-! ## Seller order list -/

/-- C21, failing run: order 1 holds two pens of seller 9 and one ink of seller 8; the order
`getSellerOrders` returns to seller 9 carries both lines, the ink of seller 8 included,
while `totalSales` (200) counts the lines of seller 9 only. -/
theorem getSellerOrders_returns_other_sellers_lines :
    (sampleMixedStore.orders.map
      (fun o => (o._id, o.items.map (fun l => (l.name, l.sellerId))))) =
        [(1, [("Pen", some 9), ("Ink", some 8)])] ∧
    ((getSellerOrders sampleMixedStore 9).data.map
      (fun o => (o._id, o.items.map (fun i => (i.name, i.product.sellerId))))) =
        [(1, [("Pen", some 9), ("Ink", some 8)])] ∧
    (getSellerOrders sampleMixedStore 9).totalSales = 200 := by
  decide

/-! ## Checkout builder -/

/-- C27, failing run: a direct purchase of minus two pens is priced by `buildOrderItems`: the
answer is a success with one line of quantity -2, `itemTotal` -200, and total -200 (the
order builder `validateAndBuildOrderItems` rejects the same list). -/
theorem buildOrderItems_accepts_negative_quantity :
    buildOrderItems sampleStore.products [] 7 sampleNegativeCheckout =
      { status := 200, success := true,
        data := some ([{ productId := 1, name := "Pen", sellerId := 9, quantity := some (-2),
                         price := 100, itemTotal := some (-200) }], some (-200)) } ∧
    (validateAndBuildOrderItems sampleStore.products sampleNegativeCheckout.items).toOption =
      none := by
  decide

/-- C29, counterexample: for the empty direct-purchase list `buildOrderItems` takes the
cart path and answers 'Cart is empty', while `validateAndBuildOrderItems` throws 'No items to
order'. -/
theorem builders_differ_on_empty_list :
    (∀ it ∈ sampleEmptyCheckout.items, (∃ pid, it.productId = some pid) ∧
      ∃ q, it.quantity = some q ∧ 1 ≤ q) ∧
    buildOrderItems sampleStore.products [] 7 sampleEmptyCheckout =
      { status := 400, success := false, message := some "Cart is empty" } ∧
    validateAndBuildOrderItems sampleStore.products sampleEmptyCheckout.items =
      .error "No items to order" := by
  refine ⟨?_, by decide, rfl⟩
  intro it hit
  cases hit

/-! ## Two requests in flight -/

/-- Run on one store, `placeOrder` is the validation followed by `placeOrderWrite`. -/
theorem placeOrder_eq_write (s : Store) (userId : Nat) (body : PlaceOrderBody)
    (generatedRef : String) (haddr : addressMissing body.shippingAddress = false)
    (hne : body.items ≠ []) :
    placeOrder s userId body generatedRef =
      match validateAndBuildOrderItems s.products body.items with
      | .error e => (s, serverError e)
      | .ok (orderItems, recomputedTotal) =>
        placeOrderWrite s userId body generatedRef orderItems recomputedTotal := by
  have hlen : ¬ body.items.length = 0 := fun h0 => hne (List.length_eq_zero.mp h0)
  simp only [placeOrder, haddr, hlen, if_false, Bool.false_eq_true, placeOrderWrite]

/-- C28, failing schedule: five pens are in stock and two requests ask three pens each
(combined demand 6). When both handlers have validated their list before either starts its
transaction, both transactions commit: both answers are successes and the pen's stock is -1.
(Run one after the other, the second request is refused.) -/
theorem placeOrder_interleaved_oversell :
    stockOf sampleStore.products 1 = some 5 ∧
    ((placeOrderInterleaved sampleStore 7 sampleThreePensBody "ORDER_1"
        8 sampleThreePensBody "ORDER_2").map
      (fun r => (r.2.1.success, r.2.2.success, stockOf r.1.products 1, r.1.orders.length))) =
        some (true, true, some (-1), 2) ∧
    (placeOrder (placeOrder sampleStore 7 sampleThreePensBody "ORDER_1").1 8
      sampleThreePensBody "ORDER_2").2.error = some "Insufficient stock for Pen" := by
  decide

/-! ## Cart repair -/

/-- C23, counterexample: a line of two pens with cached price 0, a valid number, is
rewritten to 200 and the cart is reported dirty; a line of three free stickers with a
missing price is left without a price and the cart is not reported dirty. -/
theorem fixExistingCartItems_counterexample :
    fixExistingCartItems sampleStore.products sampleZeroPriceCart =
      ({ sampleZeroPriceCart with
           items := [{ product := 1, quantity := 2, price := some 200 }], total := 200 },
       true) ∧
    fixExistingCartItems sampleFreeProducts sampleMissingPriceCart =
      (sampleMissingPriceCart, false) := by
  decide

/-! ## Orders through a history of calls -/

/-- The call `order.save()` keeps the ids of the stored orders. -/
theorem saveOrder_ids (os : List Order) (c : Order) :
    (saveOrder os c).map (fun o => o._id) = os.map (fun o => o._id) := by
  induction os with
  | nil => rfl
  | cons o os ih =>
    unfold saveOrder
    by_cases ho : o._id = c._id
    · simp [ho]
    · simp [ho, ih]

/-- What `placeOrder` does to the orders: nothing, or one order with a fresh id appended. -/
theorem placeOrder_orders (s : Store) (userId : Nat) (body : PlaceOrderBody)
    (generatedRef : String) :
    (placeOrder s userId body generatedRef).1.orders = s.orders ∨
    ∃ o, o._id = freshId (s.orders.map (fun o => o._id)) ∧
      (placeOrder s userId body generatedRef).1.orders = s.orders ++ [o] := by
  by_cases ha : addressMissing body.shippingAddress = true
  · left
    simp [placeOrder, ha]
  · by_cases hi : body.items.length = 0
    · left
      simp [placeOrder, ha, hi]
    · cases hv : validateAndBuildOrderItems s.products body.items with
      | error e =>
        left
        simp [placeOrder, ha, hi, hv]
      | ok r =>
        obtain ⟨orderItems, recomputedTotal⟩ := r
        cases ht : placeOrderTransaction s userId body generatedRef orderItems
            recomputedTotal with
        | error e =>
          left
          simp [placeOrder, ha, hi, hv, ht]
        | ok r1 =>
          obtain ⟨s1, orderDocs⟩ := r1
          right
          obtain ⟨o, -, horders, -, -, hoid, -⟩ := placeOrderTransaction_order ht
          refine ⟨o, hoid, ?_⟩
          have : (placeOrder s userId body generatedRef).1 = s1 := by
            simp [placeOrder, ha, hi, hv, ht]
          rw [this, horders]

/-- What `ensureOrderFromPayment` does to the orders. -/
theorem ensureOrderFromPayment_orders (s : Store) (paymentId : Nat) (generatedRef : String) :
    (ensureOrderFromPayment s paymentId generatedRef).1.orders = s.orders ∨
    ∃ o, o._id = freshId (s.orders.map (fun o => o._id)) ∧
      (ensureOrderFromPayment s paymentId generatedRef).1.orders = s.orders ++ [o] := by
  cases hr : (ensureOrderFromPayment s paymentId generatedRef).2 with
  | error e =>
    left
    rw [ensureOrderFromPayment_error_no_effect s paymentId generatedRef e hr]
  | ok r =>
    cases r with
    | docs os =>
      right
      obtain ⟨payment, ls, t, -, hos, horders⟩ := ensureOrderFromPayment_docs_inv hr
      exact ⟨_, rfl, by rw [horders, hos]⟩
    | doc o =>
      left
      cases hp : findPayment s.payments paymentId with
      | none => simp [ensureOrderFromPayment, hp]
      | some payment =>
        cases ho : findOrderByPayment s.orders payment._id with
        | some existing => simp [ensureOrderFromPayment, hp, ho]
        | none =>
          by_cases h1 : lower payment.status ∈ okStatuses
          swap
          · simp [ensureOrderFromPayment, hp, ho, h1]
          · by_cases h2 : payment.items.length = 0
            · simp [ensureOrderFromPayment, hp, ho, h1, h2]
            · cases hv : validateAndBuildOrderItems s.products
                  (payment.items.map snapshotItem) with
              | error e1 => simp [ensureOrderFromPayment, hp, ho, h1, h2, hv]
              | ok r =>
                obtain ⟨ls, t⟩ := r
                cases hd : decrementStock s.products ls with
                | error e1 =>
                  simp [ensureOrderFromPayment, hp, ho, h1, h2, hv, ensureOrderTransaction, hd]
                | ok products =>
                  simp [ensureOrderFromPayment, hp, ho, h1, h2, hv, ensureOrderTransaction,
                    hd] at hr

/-- What `cancelOrder` does to the orders: nothing, or `order.save()` of an order that was
pending or processing. -/
theorem cancelOrder_orders (s : Store) (userId orderId : Nat) :
    (cancelOrder s userId orderId).1.orders = s.orders ∨
    ∃ order c, order ∈ s.orders ∧ (order.status = "pending" ∨ order.status = "processing") ∧
      c._id = order._id ∧ (cancelOrder s userId orderId).1.orders = saveOrder s.orders c := by
  cases hf : s.orders.find? (fun o => o._id = orderId ∧ o.userId = userId ∧
      (o.status = "pending" ∨ o.status = "processing")) with
  | none =>
    left
    simp only [cancelOrder, hf]
  | some order =>
    obtain ⟨h1, -, -, h4⟩ := cancelOrder_found hf
    cases hr : restoreStock s.products order.items with
    | error e =>
      left
      simp only [cancelOrder, hf, hr]
    | ok products =>
      right
      exact ⟨order,
        { order with status := "cancelled",
                     timeline := order.timeline ++
                       [{ status := "cancelled", note := "Cancelled by user" }] },
        h1, h4, rfl, by simp only [cancelOrder, hf, hr]⟩

/-- What `createPayment` does to the orders. -/
theorem createPayment_orders (s : Store) (userId : Nat) (body : CreatePaymentBody)
    (generatedRef : String) (gateway : Except String String) :
    (createPayment s userId body generatedRef gateway).1.orders = s.orders ∨
    ∃ o, o._id = freshId (s.orders.map (fun o => o._id)) ∧
      (createPayment s userId body generatedRef gateway).1.orders = s.orders ++ [o] := by
  unfold createPayment
  repeat' split
  all_goals first
    | (left; rfl)
    | (right; exact ⟨_, rfl, rfl⟩)
    | (dsimp only
       split
       · left; rfl
       · left; rfl)

/-- What `verifyPayment` does to the orders. -/
theorem verifyPayment_orders (s : Store) (body : VerifyPaymentBody) (signatureValid : Bool) :
    (verifyPayment s body signatureValid).1.orders = s.orders ∨
    ∃ o, o._id = freshId (s.orders.map (fun o => o._id)) ∧
      (verifyPayment s body signatureValid).1.orders = s.orders ++ [o] := by
  unfold verifyPayment
  split
  · left; rfl
  · dsimp only
    split
    · left; rfl
    · right; exact ⟨_, rfl, rfl⟩

/-- One call keeps the order ids unique and leaves every stored order that is neither
pending nor processing exactly as it is. -/
theorem Call.run_keeps_settled_orders (s : Store) (call : Call) (o : Order)
    (hid : (s.orders.map (fun o => o._id)).Nodup) (ho : o ∈ s.orders)
    (hst : o.status ≠ "pending" ∧ o.status ≠ "processing") :
    ((call.run s).orders.map (fun o => o._id)).Nodup ∧ o ∈ (call.run s).orders := by
  have happend : ∀ os : List Order,
      (os = s.orders ∨ ∃ x, x._id = freshId (s.orders.map (fun o => o._id)) ∧
        os = s.orders ++ [x]) →
      (os.map (fun o => o._id)).Nodup ∧ o ∈ os := by
    intro os h
    rcases h with h | ⟨x, hx, h⟩
    · rw [h]
      exact ⟨hid, ho⟩
    · rw [h]
      refine ⟨?_, List.mem_append_left _ ho⟩
      rw [List.map_append, List.nodup_append]
      refine ⟨hid, by simp, ?_⟩
      intro a ha hb
      simp only [List.map_cons, List.map_nil, List.mem_singleton] at hb
      rw [hb, hx] at ha
      exact absurd (lt_freshId ha) (lt_irrefl _)
  cases call with
  | placeOrder userId body generatedRef => exact happend _ (placeOrder_orders s userId body _)
  | ensureOrderFromPayment paymentId generatedRef =>
    exact happend _ (ensureOrderFromPayment_orders s paymentId _)
  | createPayment userId body generatedRef gateway =>
    exact happend _ (createPayment_orders s userId body _ gateway)
  | verifyPayment body signatureValid => exact happend _ (verifyPayment_orders s body _)
  | cancelOrder userId orderId =>
    rcases cancelOrder_orders s userId orderId with h | ⟨order, c, hmem, hord, hc, h⟩
    · exact happend _ (Or.inl h)
    · show ((Shopease.cancelOrder s userId orderId).1.orders.map (fun o => o._id)).Nodup ∧
        o ∈ (Shopease.cancelOrder s userId orderId).1.orders
      rw [h]
      refine ⟨by rw [saveOrder_ids]; exact hid, ?_⟩
      rw [saveOrder_eq_map hid]
      have hne : o._id ≠ c._id := by
        intro heq
        have : o = order := List.inj_on_of_nodup_map hid ho hmem (by rw [heq, hc])
        rw [this] at hst
        rcases hord with h1 | h1
        · exact hst.1 h1
        · exact hst.2 h1
      exact List.mem_map.mpr ⟨o, ho, by simp [hne]⟩

/-- C22: terminal states are terminal. When order ids are unique, an order whose status is
`cancelled` or `failed` is still stored, with the same status, timeline and every other
field, after any sequence of `placeOrder`, `cancelOrder`, `ensureOrderFromPayment`,
`createPayment` and `verifyPayment` calls, and it is the only stored order with its id; in
particular no call moves it to `paid` or deletes it. -/
theorem terminal_orders_stay (s : Store) (calls : List Call) (o : Order)
    (hid : (s.orders.map (fun o => o._id)).Nodup) (ho : o ∈ s.orders)
    (hterm : o.status = "cancelled" ∨ o.status = "failed") :
    o ∈ (runCalls s calls).orders ∧
    ∀ x ∈ (runCalls s calls).orders, x._id = o._id →
      x = o ∧ x.status = o.status ∧ x.timeline = o.timeline := by
  have hst : o.status ≠ "pending" ∧ o.status ≠ "processing" := by
    rcases hterm with h | h <;> rw [h] <;> decide
  have hall : ∀ (calls : List Call) (s : Store),
      (s.orders.map (fun o => o._id)).Nodup → o ∈ s.orders →
      ((runCalls s calls).orders.map (fun o => o._id)).Nodup ∧
        o ∈ (runCalls s calls).orders := by
    intro calls
    induction calls with
    | nil => exact fun s h1 h2 => ⟨h1, h2⟩
    | cons call rest ih =>
      intro s h1 h2
      obtain ⟨h3, h4⟩ := Call.run_keeps_settled_orders s call o h1 h2 hst
      exact ih (call.run s) h3 h4
  obtain ⟨hnodup, hmem⟩ := hall calls s hid ho
  refine ⟨hmem, ?_⟩
  intro x hx hxid
  have : x = o := List.inj_on_of_nodup_map hnodup hx hmem hxid
  subst this
  exact ⟨rfl, rfl, rfl⟩

theorem terminal_orders_stay_witness :
    ∃ o ∈ sampleCancelledStore.orders, o.status = "cancelled" ∧
      o ∈ (runCalls sampleCancelledStore
        [.cancelOrder 7 1, .verifyPayment sampleVerifyBody true,
         .placeOrder 7 samplePlainBody "ORDER_2", .ensureOrderFromPayment 1 "ORDER_3",
         .createPayment 7 sampleCashBody "ORDER_4" (.ok "unused")]).orders ∧
      ∀ x ∈ (runCalls sampleCancelledStore
        [.cancelOrder 7 1, .verifyPayment sampleVerifyBody true,
         .placeOrder 7 samplePlainBody "ORDER_2", .ensureOrderFromPayment 1 "ORDER_3",
         .createPayment 7 sampleCashBody "ORDER_4" (.ok "unused")]).orders,
        x._id = o._id → x = o ∧ x.status = o.status ∧ x.timeline = o.timeline := by
  obtain ⟨o, ho⟩ : ∃ o, sampleCancelledStore.orders = [o] := ⟨_, rfl⟩
  have hmem : o ∈ sampleCancelledStore.orders := by
    rw [ho]
    exact List.mem_singleton.mpr rfl
  have hall : ∀ x ∈ sampleCancelledStore.orders, x.status = "cancelled" := by decide
  have h := terminal_orders_stay sampleCancelledStore
    [.cancelOrder 7 1, .verifyPayment sampleVerifyBody true,
     .placeOrder 7 samplePlainBody "ORDER_2", .ensureOrderFromPayment 1 "ORDER_3",
     .createPayment 7 sampleCashBody "ORDER_4" (.ok "unused")] o (by decide) hmem
    (Or.inl (hall o hmem))
  exact ⟨o, hmem, hall o hmem, h.1, h.2⟩

/-! ## Cart repair: lemmas -/

/-- The falsy test on a cached price, spelled out. -/
theorem priceFalsy_iff (price : Option Int) :
    priceFalsy price = true ↔ price = none ∨ price = some 0 := by
  cases price with
  | none => simp [priceFalsy]
  | some v => simp [priceFalsy]

/-- The loop rewrites the lines one by one. -/
theorem fixLoop_fst (products : List Product) (items : List CartItem) (b : Bool) :
    (fixLoop products items b).1 = items.map (fun i => (fixItem products i).1) := by
  induction items generalizing b with
  | nil => rfl
  | cons i rest ih => simp [fixLoop, ih]

/-- The flag of the loop is set when some line was rewritten. -/
theorem fixLoop_snd (products : List Product) (items : List CartItem) (b : Bool) :
    (fixLoop products items b).2 = (b || items.any (fun i => (fixItem products i).2)) := by
  induction items generalizing b with
  | nil => simp [fixLoop]
  | cons i rest ih => simp [fixLoop, ih, Bool.or_assoc]

/-- The reduction that computes the cart total is the sum of the cached prices. -/
theorem cartTotal_eq_sum (items : List CartItem) :
    cartTotal items = (items.map (fun i => i.price.getD 0)).sum := by
  have h : ∀ (l : List CartItem) (a : Int),
      l.foldl (fun total item => total + priceOrZero item.price) a =
        a + (l.map (fun i => i.price.getD 0)).sum := by
    intro l
    induction l with
    | nil => intro a; simp
    | cons i rest ih =>
      intro a
      rw [List.foldl_cons, ih, List.map_cons, List.sum_cons]
      simp only [priceOrZero]
      ring
  simpa [cartTotal] using h items 0

/-- A line the loop body reports unchanged is unchanged. -/
theorem fixItem_false {products : List Product} {item : CartItem}
    (h : (fixItem products item).2 = false) : (fixItem products item).1 = item := by
  unfold fixItem at h ⊢
  cases hp : findProduct products item.product with
  | none => rfl
  | some p =>
    simp only [hp] at h ⊢
    split
    · rename_i hc
      simp [hc] at h
    · rfl

/-- The loop body reports a change exactly for a line whose price is falsy and whose
product exists with a non-zero price. -/
theorem fixItem_true_iff (products : List Product) (item : CartItem) :
    (fixItem products item).2 = true ↔
      (item.price = none ∨ item.price = some 0) ∧
        ∃ p, findProduct products item.product = some p ∧ p.price ≠ 0 := by
  unfold fixItem
  cases hp : findProduct products item.product with
  | none => simp
  | some p =>
    by_cases hc : (priceFalsy item.price && p.price != 0) = true
    · dsimp only
      rw [if_pos hc]
      simp only [Bool.and_eq_true, priceFalsy_iff, bne_iff_ne, ne_eq] at hc
      simp [hc.1, hc.2]
    · dsimp only
      rw [if_neg hc]
      simp only [Bool.and_eq_true, priceFalsy_iff, bne_iff_ne, ne_eq, not_and, not_not] at hc
      simp only [Bool.false_eq_true, Option.some.injEq, exists_eq_left', false_iff, not_and,
        not_not]
      exact hc

/-- The loop body keeps the product reference and the quantity of a line. -/
theorem fixItem_keeps (products : List Product) (item : CartItem) :
    (fixItem products item).1.product = item.product ∧
      (fixItem products item).1.quantity = item.quantity := by
  unfold fixItem
  cases findProduct products item.product with
  | none => exact ⟨rfl, rfl⟩
  | some p =>
    simp only
    split <;> exact ⟨rfl, rfl⟩

/-- The price the loop body stamps on a line it rewrites. -/
theorem fixItem_price {products : List Product} {item : CartItem} {p : Product}
    (hp : findProduct products item.product = some p) (h0 : p.price ≠ 0)
    (hf : item.price = none ∨ item.price = some 0) :
    (fixItem products item).1 = { item with price := some (p.price * item.quantity) } := by
  have hc : (priceFalsy item.price && p.price != 0) = true := by
    simp [priceFalsy_iff, hf, h0]
  simp only [fixItem, hp, hc, if_true]

/-- The repaired cart, spelled out. -/
theorem fixExistingCartItems_eq (products : List Product) (cart : Cart) :
    fixExistingCartItems products cart =
      if cart.items.any (fun i => (fixItem products i).2) then
        ({ cart with items := cart.items.map (fun i => (fixItem products i).1),
                     total := cartTotal (cart.items.map (fun i => (fixItem products i).1)) },
          true)
      else (cart, false) := by
  unfold fixExistingCartItems
  simp only [fixLoop_fst, fixLoop_snd, Bool.false_or]
  by_cases h : cart.items.any (fun i => (fixItem products i).2) = true
  · simp only [h, if_true]
  · simp only [h, if_false, Bool.false_eq_true]
    have hmap : cart.items.map (fun i => (fixItem products i).1) = cart.items := by
      conv_rhs => rw [← List.map_id cart.items]
      apply List.map_congr_left
      intro i hi
      apply fixItem_false
      cases hb : (fixItem products i).2 with
      | false => rfl
      | true => exact absurd (List.any_eq_true.mpr ⟨i, hi, hb⟩) h
    rw [hmap]

/-- C23 (amended): `fixExistingCartItems` rewrites a line exactly when its cached price is
missing, not a number or 0 and its product exists with a non-zero price; such a line gets
price `product.price * quantity`, every other line (a cached price that is a non-zero
number, a product that no longer exists, a product of price 0) is unchanged; the function
reports the cart dirty exactly when there is such a line, and when dirty `cart.total` is the
sum of all line prices (a missing price counting 0); when not dirty the cart is unchanged. -/
theorem fixExistingCartItems_repairs (products : List Product) (cart : Cart) :
    List.Forall₂ (fun old new =>
        new.product = old.product ∧ new.quantity = old.quantity ∧
        (∀ p, findProduct products old.product = some p → p.price ≠ 0 →
          (old.price = none ∨ old.price = some 0) →
          new.price = some (p.price * old.quantity)) ∧
        (∀ v, old.price = some v → v ≠ 0 → new = old) ∧
        (findProduct products old.product = none → new = old) ∧
        (∀ p, findProduct products old.product = some p → p.price = 0 → new = old))
      cart.items (fixExistingCartItems products cart).1.items ∧
    ((fixExistingCartItems products cart).2 = true ↔
      ∃ item ∈ cart.items, (item.price = none ∨ item.price = some 0) ∧
        ∃ p, findProduct products item.product = some p ∧ p.price ≠ 0) ∧
    ((fixExistingCartItems products cart).2 = true →
      (fixExistingCartItems products cart).1.total =
        ((fixExistingCartItems products cart).1.items.map (fun i => i.price.getD 0)).sum) ∧
    ((fixExistingCartItems products cart).2 = false →
      (fixExistingCartItems products cart).1 = cart) := by
  have hitems : (fixExistingCartItems products cart).1.items =
      cart.items.map (fun i => (fixItem products i).1) := by
    unfold fixExistingCartItems
    simp only [fixLoop_fst]
    split <;> rfl
  have hline : ∀ old : CartItem,
      (fixItem products old).1.product = old.product ∧
      (fixItem products old).1.quantity = old.quantity ∧
      (∀ p, findProduct products old.product = some p → p.price ≠ 0 →
        (old.price = none ∨ old.price = some 0) →
        (fixItem products old).1.price = some (p.price * old.quantity)) ∧
      (∀ v, old.price = some v → v ≠ 0 → (fixItem products old).1 = old) ∧
      (findProduct products old.product = none → (fixItem products old).1 = old) ∧
      (∀ p, findProduct products old.product = some p → p.price = 0 →
        (fixItem products old).1 = old) := by
    intro old
    refine ⟨(fixItem_keeps products old).1, (fixItem_keeps products old).2, ?_, ?_, ?_, ?_⟩
    · intro p hp h0 hf
      rw [fixItem_price hp h0 hf]
    · intro v hv hv0
      apply fixItem_false
      cases hb : (fixItem products old).2 with
      | false => rfl
      | true =>
        obtain ⟨hf, -⟩ := (fixItem_true_iff products old).mp hb
        rw [hv] at hf
        rcases hf with hf | hf
        · cases hf
        · exact absurd (Option.some.inj hf) hv0
    · intro hnone
      apply fixItem_false
      cases hb : (fixItem products old).2 with
      | false => rfl
      | true =>
        obtain ⟨-, p, hp, -⟩ := (fixItem_true_iff products old).mp hb
        rw [hnone] at hp
        cases hp
    · intro p hp h0
      apply fixItem_false
      cases hb : (fixItem products old).2 with
      | false => rfl
      | true =>
        obtain ⟨-, p1, hp1, h1⟩ := (fixItem_true_iff products old).mp hb
        rw [hp] at hp1
        cases hp1
        exact absurd h0 h1
  refine ⟨?_, ?_, ?_, ?_⟩
  · rw [hitems]
    generalize cart.items = items
    induction items with
    | nil => exact List.Forall₂.nil
    | cons i rest ih => exact List.Forall₂.cons (hline i) ih
  · rw [fixExistingCartItems_eq]
    by_cases h : cart.items.any (fun i => (fixItem products i).2) = true
    · simp only [h, if_true, true_iff]
      obtain ⟨i, hi, hb⟩ := List.any_eq_true.mp h
      exact ⟨i, hi, (fixItem_true_iff products i).mp hb⟩
    · simp only [h, if_false, Bool.false_eq_true, false_iff]
      rintro ⟨i, hi, hcond⟩
      exact h (List.any_eq_true.mpr ⟨i, hi, (fixItem_true_iff products i).mpr hcond⟩)
  · rw [fixExistingCartItems_eq]
    by_cases h : cart.items.any (fun i => (fixItem products i).2) = true
    · simp only [h, if_true, forall_const]
      exact cartTotal_eq_sum _
    · simp only [h, if_false, Bool.false_eq_true, false_implies]
  · rw [fixExistingCartItems_eq]
    by_cases h : cart.items.any (fun i => (fixItem products i).2) = true
    · simp only [h, if_true, Bool.true_eq_false, false_implies]
    · simp only [h, if_false, Bool.false_eq_true, forall_const]

theorem fixExistingCartItems_repairs_witness :
    (fixExistingCartItems sampleStore.products sampleStaleCart).2 = true ∧
    (fixExistingCartItems sampleStore.products sampleStaleCart).1.total =
      ((fixExistingCartItems sampleStore.products sampleStaleCart).1.items.map
        (fun i => i.price.getD 0)).sum ∧
    (fixExistingCartItems sampleStore.products sampleStaleCart).1.total = 255 :=
  ⟨by decide,
   (fixExistingCartItems_repairs sampleStore.products sampleStaleCart).2.2.1 (by decide),
   by decide⟩

/-- Running the loop body on its own output changes nothing more. -/
theorem fixItem_idem (products : List Product) (item : CartItem) :
    (fixItem products (fixItem products item).1).1 = (fixItem products item).1 := by
  cases hb : (fixItem products item).2 with
  | false => rw [fixItem_false hb, fixItem_false hb]
  | true =>
    obtain ⟨hf, p, hp, h0⟩ := (fixItem_true_iff products item).mp hb
    rw [fixItem_price hp h0 hf]
    cases hb2 : (fixItem products { item with price := some (p.price * item.quantity) }).2 with
    | false => exact fixItem_false hb2
    | true =>
      obtain ⟨hf2, -⟩ := (fixItem_true_iff products _).mp hb2
      have hp2 : findProduct products
          ({ item with price := some (p.price * item.quantity) } : CartItem).product = some p :=
        hp
      rw [fixItem_price hp2 h0 hf2]

/-- C24: repair is a no-op on stamped carts. When every line of a cart has quantity `>= 1`
and cached price `product.price * quantity`, `fixExistingCartItems` reports no changes and
returns the cart as it is (every line price and `cart.total`), and so does a second run on
that output; and for every cart at all, a second run of the repair leaves the repaired cart
as the first run made it. -/
theorem fixExistingCartItems_stamped_noop (products : List Product) (cart : Cart)
    (h : ∀ item ∈ cart.items, 1 ≤ item.quantity ∧
      ∃ p, findProduct products item.product = some p ∧
        item.price = some (p.price * item.quantity)) :
    fixExistingCartItems products cart = (cart, false) ∧
    fixExistingCartItems products (fixExistingCartItems products cart).1 =
      ((fixExistingCartItems products cart).1, false) ∧
    ∀ c : Cart, (fixExistingCartItems products (fixExistingCartItems products c).1).1 =
      (fixExistingCartItems products c).1 := by
  have hnoop : fixExistingCartItems products cart = (cart, false) := by
    rw [fixExistingCartItems_eq]
    have hany : ¬ cart.items.any (fun i => (fixItem products i).2) = true := by
      intro hany
      obtain ⟨i, hi, hb⟩ := List.any_eq_true.mp hany
      obtain ⟨hf, p, hp, h0⟩ := (fixItem_true_iff products i).mp hb
      obtain ⟨hq, p1, hp1, hprice⟩ := h i hi
      rw [hp] at hp1
      cases hp1
      rw [hprice] at hf
      rcases hf with hf | hf
      · cases hf
      · have hz : p.price * i.quantity = 0 := Option.some.inj hf
        rcases mul_eq_zero.mp hz with hz | hz
        · exact h0 hz
        · omega
    simp only [hany, if_false, Bool.false_eq_true]
  refine ⟨hnoop, by rw [hnoop]; exact hnoop, ?_⟩
  intro c
  rw [fixExistingCartItems_eq products c]
  by_cases hc : c.items.any (fun i => (fixItem products i).2) = true
  · simp only [hc, if_true]
    rw [fixExistingCartItems_eq]
    have hmap : (c.items.map (fun i => (fixItem products i).1)).map
        (fun i => (fixItem products i).1) = c.items.map (fun i => (fixItem products i).1) := by
      rw [List.map_map]
      apply List.map_congr_left
      intro i _
      exact fixItem_idem products i
    split
    · simp only [hmap]
    · rfl
  · simp only [hc, if_false, Bool.false_eq_true]
    rw [fixExistingCartItems_eq]
    simp only [hc, if_false, Bool.false_eq_true]

theorem fixExistingCartItems_stamped_noop_witness :
    fixExistingCartItems sampleStore.products sampleStampedCart = (sampleStampedCart, false) ∧
    fixExistingCartItems sampleStore.products
      (fixExistingCartItems sampleStore.products sampleStampedCart).1 =
        ((fixExistingCartItems sampleStore.products sampleStampedCart).1, false) ∧
    ∀ c : Cart, (fixExistingCartItems sampleStore.products
      (fixExistingCartItems sampleStore.products c).1).1 =
        (fixExistingCartItems sampleStore.products c).1 :=
  fixExistingCartItems_stamped_noop sampleStore.products sampleStampedCart (by
    intro item hitem
    simp only [sampleStampedCart, List.mem_cons, List.mem_singleton, List.not_mem_nil,
      or_false] at hitem
    rcases hitem with rfl | rfl
    · exact ⟨by decide, samplePen, by decide, by decide⟩
    · exact ⟨by decide, sampleInk, by decide, by decide⟩)

/-! ## Cart handlers -/

/-- The saved cart is among the stored carts after `cart.save()`. -/
theorem saveCart_mem (carts : List Cart) (cart : Cart) : cart ∈ saveCart carts cart := by
  induction carts with
  | nil => simp [saveCart]
  | cons c cs ih =>
    unfold saveCart
    by_cases h : c._id = cart._id
    · simp [h]
    · simp only [h, if_false]
      exact List.mem_cons_of_mem _ ih

/-- The line assignment leaves a line with the new quantity and price for the product. -/
theorem setLine_mem {items : List CartItem} {productId : Nat} (quantity price : Int)
    (h : ∃ item ∈ items, item.product = productId) :
    ∃ line ∈ setLine items productId quantity price,
      line.product = productId ∧ line.quantity = quantity ∧ line.price = some price := by
  induction items with
  | nil =>
    obtain ⟨item, hi, -⟩ := h
    simp at hi
  | cons i rest ih =>
    unfold setLine
    by_cases hp : i.product = productId
    · rw [if_pos hp]
      exact ⟨_, List.mem_cons_self _ _, hp, rfl, rfl⟩
    · simp only [hp, if_false]
      obtain ⟨item, hi, hprod⟩ := h
      rcases List.mem_cons.mp hi with rfl | hi
      · exact absurd hprod hp
      · obtain ⟨line, hl, hrest⟩ := ih ⟨item, hi, hprod⟩
        exact ⟨line, List.mem_cons_of_mem _ hl, hrest⟩

/-- What a successful `addToCart` saved. -/
theorem addToCart_success_inv {products : List Product} {carts : List Cart}
    {uid pid : Option Nat} {q : Option Int}
    (h : (addToCart products carts uid pid q).2.success = true) :
    ∃ (userId productId : Nat) (product : Product) (saved : Cart),
      uid = some userId ∧ pid = some productId ∧
      findProduct products productId = some product ∧ q.getD 1 ≤ product.quantity ∧
      (addToCart products carts uid pid q).1 = saveCart carts saved ∧
      saved.total = cartTotal saved.items ∧
      ((∃ existing, (loadCart products carts userId).items.find?
            (fun item => item.product = productId) = some existing ∧
          existing.quantity + q.getD 1 ≤ product.quantity ∧
          saved.items = setLine (loadCart products carts userId).items productId
            (existing.quantity + q.getD 1)
            (product.price * (existing.quantity + q.getD 1))) ∨
       ((loadCart products carts userId).items.find?
            (fun item => item.product = productId) = none ∧
          saved.items = (loadCart products carts userId).items ++
            [{ product := productId, quantity := q.getD 1,
               price := some (product.price * q.getD 1) }])) := by
  cases uid with
  | none => simp [addToCart] at h
  | some userId =>
    cases pid with
    | none => simp [addToCart] at h
    | some productId =>
      cases hp : findProduct products productId with
      | none => simp [addToCart, hp] at h
      | some product =>
        by_cases hs : product.quantity < q.getD 1
        · simp [addToCart, hp, hs] at h
        · cases hf : (loadCart products carts userId).items.find?
              (fun item => item.product = productId) with
          | some existing =>
            by_cases hn : existing.quantity + q.getD 1 > product.quantity
            · simp [addToCart, hp, hs, hf, hn] at h
            · simp only [addToCart, hp, hs, hf, hn, if_false] at h ⊢
              split at h
              · rename_i hv
                rw [if_pos hv]
                exact ⟨userId, productId, product, _, rfl, rfl, hp, not_lt.mp hs, rfl, rfl,
                  Or.inl ⟨existing, hf, not_lt.mp hn, rfl⟩⟩
              · simp at h
          | none =>
            simp only [addToCart, hp, hs, hf, if_false] at h ⊢
            split at h
            · rename_i hv
              rw [if_pos hv]
              exact ⟨userId, productId, product, _, rfl, rfl, hp, not_lt.mp hs, rfl, rfl,
                Or.inr ⟨hf, rfl⟩⟩
            · simp at h

/-- A refused `addToCart` leaves the stored carts as they were. -/
theorem addToCart_failure_unchanged {products : List Product} {carts : List Cart}
    {uid pid : Option Nat} {q : Option Int}
    (h : (addToCart products carts uid pid q).2.success = false) :
    (addToCart products carts uid pid q).1 = carts := by
  cases uid with
  | none => simp [addToCart]
  | some userId =>
    cases pid with
    | none => simp [addToCart]
    | some productId =>
      cases hp : findProduct products productId with
      | none => simp [addToCart, hp]
      | some product =>
        by_cases hs : product.quantity < q.getD 1
        · simp [addToCart, hp, hs]
        · cases hf : (loadCart products carts userId).items.find?
              (fun item => item.product = productId) with
          | some existing =>
            by_cases hn : existing.quantity + q.getD 1 > product.quantity
            · simp [addToCart, hp, hs, hf, hn]
            · simp only [addToCart, hp, hs, hf, hn, if_false] at h ⊢
              split at h
              · simp at h
              · rename_i hv
                rw [if_neg hv]
          | none =>
            simp only [addToCart, hp, hs, hf, if_false] at h ⊢
            split at h
            · simp at h
            · rename_i hv
              rw [if_neg hv]

/-- The lines of the repaired cart are the lines of the cart, each through the loop body. -/
theorem fixExistingCartItems_items (products : List Product) (cart : Cart) :
    (fixExistingCartItems products cart).1.items =
      cart.items.map (fun i => (fixItem products i).1) := by
  unfold fixExistingCartItems
  simp only [fixLoop_fst]
  split <;> rfl

/-- The line of a product in the cart `addToCart` works on has the quantity of the stored
line of that product. -/
theorem loadCart_find_quantity (products : List Product) (carts : List Cart)
    (userId productId : Nat) :
    ((loadCart products carts userId).items.find?
        (fun item => item.product = productId)).map (fun i => i.quantity) =
      ((findCart carts userId).bind (fun c =>
        c.items.find? (fun item => item.product = productId))).map (fun i => i.quantity) := by
  unfold loadCart
  cases hc : findCart carts userId with
  | none => rfl
  | some found =>
    simp only [Option.bind_some, fixExistingCartItems_items, List.find?_map, Option.map_map]
    have hfun : ((fun item : CartItem => decide (item.product = productId)) ∘
        fun i => (fixItem products i).1) = fun item => decide (item.product = productId) := by
      funext i
      simp [(fixItem_keeps products i).1]
    have hq : ((fun i : CartItem => i.quantity) ∘ fun i => (fixItem products i).1) =
        fun i => i.quantity := by
      funext i
      simp [(fixItem_keeps products i).2]
    rw [hfun, hq]
    rfl

/-- C30: `addToCart` never stores more than is in stock. A successful `addToCart` saves a
cart with a line for the product whose quantity is the stored line's old quantity plus the
added quantity when the product was in the cart, else the added quantity, and that quantity
is at most the product's stock; a refused request leaves the stored carts unchanged, and a
request whose resulting quantity would exceed the stock is refused. -/
theorem addToCart_within_stock (products : List Product) (carts : List Cart)
    (uid pid : Option Nat) (q : Option Int) :
    ((addToCart products carts uid pid q).2.success = true →
      ∃ (userId productId : Nat) (product : Product) (saved : Cart),
        uid = some userId ∧ pid = some productId ∧
        findProduct products productId = some product ∧
        (addToCart products carts uid pid q).1 = saveCart carts saved ∧
        ∃ line ∈ saved.items, line.product = productId ∧
          line.quantity ≤ product.quantity ∧
          (∀ old, (findCart carts userId).bind (fun c =>
              c.items.find? (fun item => item.product = productId)) = some old →
            line.quantity = old.quantity + q.getD 1) ∧
          ((findCart carts userId).bind (fun c =>
              c.items.find? (fun item => item.product = productId)) = none →
            line.quantity = q.getD 1)) ∧
    ((addToCart products carts uid pid q).2.success = false →
      (addToCart products carts uid pid q).1 = carts) ∧
    (∀ (userId productId : Nat) (product : Product),
      uid = some userId → pid = some productId →
      findProduct products productId = some product →
      ((∃ old, (findCart carts userId).bind (fun c =>
            c.items.find? (fun item => item.product = productId)) = some old ∧
          old.quantity + q.getD 1 > product.quantity) ∨
        ((findCart carts userId).bind (fun c =>
            c.items.find? (fun item => item.product = productId)) = none ∧
          q.getD 1 > product.quantity)) →
      (addToCart products carts uid pid q).2.success = false ∧
        (addToCart products carts uid pid q).1 = carts) := by
  have hsucc : (addToCart products carts uid pid q).2.success = true →
      ∃ (userId productId : Nat) (product : Product) (saved : Cart),
        uid = some userId ∧ pid = some productId ∧
        findProduct products productId = some product ∧
        (addToCart products carts uid pid q).1 = saveCart carts saved ∧
        ∃ line ∈ saved.items, line.product = productId ∧
          line.quantity ≤ product.quantity ∧
          (∀ old, (findCart carts userId).bind (fun c =>
              c.items.find? (fun item => item.product = productId)) = some old →
            line.quantity = old.quantity + q.getD 1) ∧
          ((findCart carts userId).bind (fun c =>
              c.items.find? (fun item => item.product = productId)) = none →
            line.quantity = q.getD 1) := by
    intro h
    obtain ⟨userId, productId, product, saved, hu, hpid, hp, hq, hsave, -, hcase⟩ :=
      addToCart_success_inv h
    refine ⟨userId, productId, product, saved, hu, hpid, hp, hsave, ?_⟩
    have hlink := loadCart_find_quantity products carts userId productId
    rcases hcase with ⟨existing, hf, hle, hitems⟩ | ⟨hf, hitems⟩
    · have hex : ∃ item ∈ (loadCart products carts userId).items, item.product = productId :=
        ⟨existing, List.mem_of_find?_eq_some hf, by simpa using List.find?_some hf⟩
      obtain ⟨line, hl, hprod, hqty, -⟩ := setLine_mem (existing.quantity + q.getD 1)
        (product.price * (existing.quantity + q.getD 1)) hex
      rw [hf] at hlink
      refine ⟨line, hitems ▸ hl, hprod, by rw [hqty]; exact hle, ?_, ?_⟩
      · intro old hold
        rw [hold] at hlink
        simp only [Option.map_some', Option.some.injEq] at hlink
        rw [hqty, hlink]
      · intro hnone
        rw [hnone] at hlink
        simp at hlink
    · rw [hf] at hlink
      refine ⟨{ product := productId, quantity := q.getD 1,
                price := some (product.price * q.getD 1) }, ?_, rfl, hq, ?_, ?_⟩
      · rw [hitems]
        simp
      · intro old hold
        rw [hold] at hlink
        simp at hlink
      · intro _
        rfl
  refine ⟨hsucc, addToCart_failure_unchanged, ?_⟩
  intro userId productId product hu hpid hp hover
  have hfail : (addToCart products carts uid pid q).2.success = false := by
    cases hb : (addToCart products carts uid pid q).2.success with
    | false => rfl
    | true =>
      obtain ⟨userId1, productId1, product1, saved, hu1, hpid1, hp1, -, line, -, -, hle, hold,
        hnone⟩ := hsucc hb
      rw [hu] at hu1
      rw [hpid] at hpid1
      cases hu1
      cases hpid1
      rw [hp] at hp1
      cases hp1
      rcases hover with ⟨old, ho, hgt⟩ | ⟨ho, hgt⟩
      · have := hold old ho
        omega
      · have := hnone ho
        omega
  exact ⟨hfail, addToCart_failure_unchanged hfail⟩

theorem addToCart_within_stock_witness :
    (addToCart sampleStore.products [sampleStampedCart] (some 7) (some 1) (some 4)).2.success =
      false ∧
    (addToCart sampleStore.products [sampleStampedCart] (some 7) (some 1) (some 4)).1 =
      [sampleStampedCart] :=
  (addToCart_within_stock sampleStore.products [sampleStampedCart] (some 7) (some 1)
    (some 4)).2.2 7 1 samplePen rfl rfl (by decide)
    (Or.inl ⟨{ product := 1, quantity := 2, price := some 200 }, by decide, by decide⟩)

/-- A line found by `cart.items.find` is a line of the cart for that product. -/
theorem findLine_some {products : List Product} {items : List CartItem} {productId : Nat}
    {item : CartItem} (h : findLine products items productId = .ok (some item)) :
    ∃ i ∈ items, i.product = productId := by
  induction items with
  | nil => simp [findLine] at h
  | cons i rest ih =>
    unfold findLine at h
    cases hp : findProduct products i.product with
    | none => simp [hp] at h
    | some p =>
      simp only [hp] at h
      by_cases hi : i.product = productId
      · exact ⟨i, List.mem_cons_self _ _, hi⟩
      · simp only [hi, if_false] at h
        obtain ⟨j, hj, hjp⟩ := ih h
        exact ⟨j, List.mem_cons_of_mem _ hj, hjp⟩

/-- The stock message of the cart handlers is not the update message. -/
theorem only_message_ne (a b : String) :
    "Only " ++ a ++ b ≠ "Cart item updated successfully" := by
  intro h
  have h1 := congrArg String.data h
  simp only [String.data_append] at h1
  have h2 := congrArg List.head? h1
  simp at h2

/-- The error of the line search is the one of reading `_id` of `null`. -/
theorem findLine_error {products : List Product} {items : List CartItem} {productId : Nat}
    {e : String} (h : findLine products items productId = .error e) :
    e = "Cannot read properties of null (reading '_id')" := by
  induction items with
  | nil => simp [findLine] at h
  | cons i rest ih =>
    unfold findLine at h
    cases hp : findProduct products i.product with
    | none =>
      simp only [hp, Except.error.injEq] at h
      exact h.symm
    | some p =>
      simp only [hp] at h
      by_cases hi : i.product = productId
      · simp [hi] at h
      · simp only [hi, if_false] at h
        exact ih h

/-- Without `req` the normalization throws on a cart that has a line of an existing product
with an image. -/
theorem mapLinesUndefined_throws {products : List Product} {items : List CartItem}
    (h : ∃ i ∈ items, ∃ p, findProduct products i.product = some p ∧ p.images ≠ []) :
    mapLinesUndefined products items =
      .error "Cannot read properties of undefined (reading 'protocol')" := by
  induction items with
  | nil =>
    obtain ⟨i, hi, -⟩ := h
    simp at hi
  | cons i rest ih =>
    unfold mapLinesUndefined
    cases hp : findProduct products i.product with
    | none =>
      dsimp only
      obtain ⟨j, hj, p, hjp, himg⟩ := h
      rcases List.mem_cons.mp hj with rfl | hj
      · rw [hp] at hjp
        cases hjp
      · exact ih ⟨j, hj, p, hjp, himg⟩
    | some q =>
      dsimp only
      by_cases hq : q.images = []
      · have hok : mapImageUrlsUndefined q.images = .ok [] := by
          simp [mapImageUrlsUndefined, hq]
        rw [hok]
        dsimp only
        obtain ⟨j, hj, p, hjp, himg⟩ := h
        rcases List.mem_cons.mp hj with rfl | hj
        · rw [hp] at hjp
          cases hjp
          exact absurd hq himg
        · exact ih ⟨j, hj, p, hjp, himg⟩
      · have herr : mapImageUrlsUndefined q.images =
            .error "Cannot read properties of undefined (reading 'protocol')" := by
          simp [mapImageUrlsUndefined, hq]
        rw [herr]

/-- What an `updateCartItem` saved when it reached `cart.save()`: when it answers 'Cart item
updated successfully', when it answers with the error of the missing `req`, or when the
stored carts differ after the call. -/
theorem updateCartItem_saved_inv {products : List Product} {carts : List Cart} {userId : Nat}
    {pid : Option Nat} {q : Option Int}
    (h : (updateCartItem products carts userId pid q).2.message =
        some "Cart item updated successfully" ∨
      (updateCartItem products carts userId pid q).2.error =
        some "Cannot read properties of undefined (reading 'protocol')" ∨
      (updateCartItem products carts userId pid q).1 ≠ carts) :
    ∃ (found : Cart) (productId : Nat) (quantity : Int) (product : Product) (saved : Cart),
      findCart carts userId = some found ∧ pid = some productId ∧ q = some quantity ∧
      findProduct products productId = some product ∧
      (updateCartItem products carts userId pid q).1 = saveCart carts saved ∧
      (updateCartItem products carts userId pid q).2 =
        (match normalizedCartResponseUndefined products saved with
         | .error e =>
           { status := 500, success := false,
             message := some "Failed to update cart item", error := some e }
         | .ok data =>
           { status := 200, success := true,
             message := some "Cart item updated successfully", data := some data }) ∧
      saved.total = cartTotal saved.items ∧
      saved.items = setLine (fixExistingCartItems products found).1.items productId quantity
        (product.price * quantity) ∧
      ∃ i ∈ (fixExistingCartItems products found).1.items, i.product = productId := by
  cases hc : findCart carts userId with
  | none => simp [updateCartItem, hc] at h
  | some found =>
    cases pid with
    | none => cases q <;> simp [updateCartItem, hc] at h
    | some productId =>
      cases q with
      | none => simp [updateCartItem, hc] at h
      | some quantity =>
        by_cases hq : quantity = 0 ∨ quantity < 1
        · simp [updateCartItem, hc, hq] at h
        · cases hp : findProduct products productId with
          | none => simp [updateCartItem, hc, hq, hp] at h
          | some product =>
            by_cases hs : quantity > product.quantity
            · simp [updateCartItem, hc, hq, hp, hs] at h
              exact absurd h (only_message_ne _ _)
            · cases hl : findLine products (fixExistingCartItems products found).1.items
                  productId with
              | error e =>
                have he := findLine_error hl
                subst he
                simp [updateCartItem, hc, hq, hp, hs, hl] at h
              | ok r =>
                cases r with
                | none => simp [updateCartItem, hc, hq, hp, hs, hl] at h
                | some item =>
                  simp only [updateCartItem, hc, hq, hp, hs, hl, if_false] at h ⊢
                  split at h
                  · rename_i hv
                    rw [if_pos hv]
                    exact ⟨found, productId, quantity, product, _, rfl, rfl, rfl, hp, rfl,
                      rfl, rfl, rfl, findLine_some hl⟩
                  · simp at h

/-- What a `removeFromCart` that answers 'Product removed from cart' saved. -/
theorem removeFromCart_saved_inv {products : List Product} {carts : List Cart}
    {userId productId : Nat}
    (h : (removeFromCart products carts userId productId).2.message =
      some "Product removed from cart") :
    ∃ saved : Cart, (removeFromCart products carts userId productId).1 = saveCart carts saved ∧
      saved.total = cartTotal saved.items := by
  cases hc : findCart carts userId with
  | none => simp [removeFromCart, hc] at h
  | some found =>
    simp only [removeFromCart, hc] at h ⊢
    split at h
    · simp at h
    · rename_i h1
      rw [if_neg h1]
      split at h
      · simp at h
      · rename_i h2
        rw [if_neg h2]
        split at h
        · simp at h
        · rename_i h3
          rw [if_neg h3]
          split at h
          · rename_i hv
            rw [if_pos hv]
            exact ⟨_, rfl, rfl⟩
          · simp at h

/-- C25: cart total invariant. The cart saved by a successful `addToCart`, by an
`updateCartItem` that reaches `cart.save()` (whatever it answers afterwards), and by a
`removeFromCart` that leaves lines, has `total` equal to the sum of the cached prices of all
its lines (a missing price counting 0); the line added or updated has cached price equal to
the product's current price times the line's new quantity. An `updateCartItem` reached
`cart.save()` when it answers 'Cart item updated successfully', when it answers with the
error of the missing `req`, or when the stored carts differ after the call; its answer
after the save is 500 when the product has an image. -/
theorem cart_total_invariant (products : List Product) (carts : List Cart) :
    (∀ uid pid q, (addToCart products carts uid pid q).2.success = true →
      ∃ (productId : Nat) (product : Product) (saved : Cart),
        pid = some productId ∧ findProduct products productId = some product ∧
        (addToCart products carts uid pid q).1 = saveCart carts saved ∧
        saved ∈ (addToCart products carts uid pid q).1 ∧
        saved.total = (saved.items.map (fun i => i.price.getD 0)).sum ∧
        ∃ line ∈ saved.items, line.product = productId ∧
          line.price = some (product.price * line.quantity)) ∧
    (∀ userId pid q,
      ((updateCartItem products carts userId pid q).2.message =
          some "Cart item updated successfully" ∨
        (updateCartItem products carts userId pid q).2.error =
          some "Cannot read properties of undefined (reading 'protocol')" ∨
        (updateCartItem products carts userId pid q).1 ≠ carts) →
      ∃ (productId : Nat) (quantity : Int) (product : Product) (saved : Cart),
        pid = some productId ∧ q = some quantity ∧
        findProduct products productId = some product ∧
        (updateCartItem products carts userId pid q).1 = saveCart carts saved ∧
        saved ∈ (updateCartItem products carts userId pid q).1 ∧
        saved.total = (saved.items.map (fun i => i.price.getD 0)).sum ∧
        (∃ line ∈ saved.items, line.product = productId ∧ line.quantity = quantity ∧
          line.price = some (product.price * line.quantity)) ∧
        (product.images ≠ [] →
          (updateCartItem products carts userId pid q).2 =
            { status := 500, success := false,
              message := some "Failed to update cart item",
              error := some "Cannot read properties of undefined (reading 'protocol')" })) ∧
    (∀ userId productId, (removeFromCart products carts userId productId).2.message =
        some "Product removed from cart" →
      ∃ saved : Cart,
        (removeFromCart products carts userId productId).1 = saveCart carts saved ∧
        saved ∈ (removeFromCart products carts userId productId).1 ∧
        saved.total = (saved.items.map (fun i => i.price.getD 0)).sum) := by
  refine ⟨?_, ?_, ?_⟩
  · intro uid pid q h
    obtain ⟨userId, productId, product, saved, -, hpid, hp, -, hsave, htotal, hcase⟩ :=
      addToCart_success_inv h
    refine ⟨productId, product, saved, hpid, hp, hsave, by rw [hsave]; exact saveCart_mem _ _,
      by rw [htotal, cartTotal_eq_sum], ?_⟩
    rcases hcase with ⟨existing, hf, -, hitems⟩ | ⟨-, hitems⟩
    · have hex : ∃ item ∈ (loadCart products carts userId).items, item.product = productId :=
        ⟨existing, List.mem_of_find?_eq_some hf, by simpa using List.find?_some hf⟩
      obtain ⟨line, hl, hprod, hqty, hprice⟩ := setLine_mem (existing.quantity + q.getD 1)
        (product.price * (existing.quantity + q.getD 1)) hex
      exact ⟨line, hitems ▸ hl, hprod, by rw [hprice, hqty]⟩
    · refine ⟨{ product := productId, quantity := q.getD 1,
                price := some (product.price * q.getD 1) }, ?_, rfl, rfl⟩
      rw [hitems]
      simp
  · intro userId pid q h
    obtain ⟨found, productId, quantity, product, saved, -, hpid, hq, hp, hsave, hanswer, htotal,
      hitems, hex⟩ := updateCartItem_saved_inv h
    obtain ⟨line, hl, hprod, hqty, hprice⟩ := setLine_mem quantity (product.price * quantity) hex
    refine ⟨productId, quantity, product, saved, hpid, hq, hp, hsave,
      by rw [hsave]; exact saveCart_mem _ _, by rw [htotal, cartTotal_eq_sum],
      ⟨line, hitems ▸ hl, hprod, hqty, by rw [hprice, hqty]⟩, ?_⟩
    intro himg
    have hthrow : mapLinesUndefined products saved.items =
        .error "Cannot read properties of undefined (reading 'protocol')" :=
      mapLinesUndefined_throws ⟨line, hitems ▸ hl, product, by rw [hprod]; exact hp, himg⟩
    rw [hanswer]
    simp only [normalizedCartResponseUndefined, hthrow]
  · intro userId productId h
    obtain ⟨saved, hsave, htotal⟩ := removeFromCart_saved_inv h
    exact ⟨saved, hsave, by rw [hsave]; exact saveCart_mem _ _,
      by rw [htotal, cartTotal_eq_sum]⟩

theorem cart_total_invariant_witness :
    (∃ (productId : Nat) (product : Product) (saved : Cart),
      some 2 = some productId ∧ findProduct sampleStore.products productId = some product ∧
      (addToCart sampleStore.products [sampleStaleCart] (some 7) (some 2) (some 1)).1 =
        saveCart [sampleStaleCart] saved ∧
      saved ∈ (addToCart sampleStore.products [sampleStaleCart] (some 7) (some 2) (some 1)).1 ∧
      saved.total = (saved.items.map (fun i => i.price.getD 0)).sum ∧
      ∃ line ∈ saved.items, line.product = productId ∧
        line.price = some (product.price * line.quantity)) ∧
    (updateCartItem sampleStore.products [sampleStampedCart] 7 (some 1) (some 3)).2.status =
      500 ∧
    (updateCartItem sampleStore.products [sampleStampedCart] 7 (some 1) (some 3)).1 =
      [{ sampleStampedCart with
         items := [{ product := 1, quantity := 3, price := some 300 },
                   { product := 2, quantity := 1, price := some 40 }],
         total := 340 }] ∧
    (∃ (productId : Nat) (quantity : Int) (product : Product) (saved : Cart),
      some 1 = some productId ∧ some 3 = some quantity ∧
      findProduct sampleStore.products productId = some product ∧
      (updateCartItem sampleStore.products [sampleStampedCart] 7 (some 1) (some 3)).1 =
        saveCart [sampleStampedCart] saved ∧
      saved ∈ (updateCartItem sampleStore.products [sampleStampedCart] 7 (some 1) (some 3)).1 ∧
      saved.total = (saved.items.map (fun i => i.price.getD 0)).sum ∧
      (∃ line ∈ saved.items, line.product = productId ∧ line.quantity = quantity ∧
        line.price = some (product.price * line.quantity)) ∧
      (product.images ≠ [] →
        (updateCartItem sampleStore.products [sampleStampedCart] 7 (some 1) (some 3)).2 =
          { status := 500, success := false,
            message := some "Failed to update cart item",
            error := some "Cannot read properties of undefined (reading 'protocol')" })) :=
  ⟨(cart_total_invariant sampleStore.products [sampleStaleCart]).1 (some 7) (some 2) (some 1)
      (by decide),
   by decide, by decide,
   (cart_total_invariant sampleStore.products [sampleStampedCart]).2.1 7 (some 1) (some 3)
      (Or.inr (Or.inl (by decide)))⟩

/-! ## The two order builders -/

/-- On a list whose entries all have a `productId` and a quantity `>= 1`, the loop of
`validateAndBuildOrderItems` and the direct-purchase loop of `buildOrderItems` throw the same
message or return the same lines and total. -/
theorem builder_loops_agree (products : List Product) (items : List SourceItem)
    (h : ∀ it ∈ items, (∃ pid, it.productId = some pid) ∧ ∃ q, it.quantity = some q ∧ 1 ≤ q)
    (acc : List OrderItem) (cacc : List CheckoutLine) (t : Int)
    (hacc : List.Forall₂ (fun l c => c.productId = l.productId ∧ c.name = l.name ∧
      some c.sellerId = l.sellerId ∧ c.quantity = some l.quantity ∧ c.price = l.price ∧
      c.itemTotal = some l.itemTotal) acc cacc) :
    (∃ e, buildLoop products items acc t = .error e ∧
      directLoop products items cacc (some t) = .error e) ∨
    (∃ ls t1 cls, buildLoop products items acc t = .ok (ls, t1) ∧
      directLoop products items cacc (some t) = .ok (cls, some t1) ∧
      List.Forall₂ (fun l c => c.productId = l.productId ∧ c.name = l.name ∧
        some c.sellerId = l.sellerId ∧ c.quantity = some l.quantity ∧ c.price = l.price ∧
        c.itemTotal = some l.itemTotal) ls cls) := by
  induction items generalizing acc cacc t with
  | nil => exact Or.inr ⟨acc, t, cacc, rfl, rfl, hacc⟩
  | cons it rest ih =>
    obtain ⟨⟨pid, hpid⟩, q, hq, hq1⟩ := h it (List.mem_cons_self _ _)
    have hid : itemProductId it = some pid := by simp [itemProductId, hpid]
    have hqty : itemQuantity it = q := by simp [itemQuantity, hq]
    have hpos : ¬ q ≤ 0 := by omega
    cases hp : findProduct products pid with
    | none =>
      left
      refine ⟨"Product not found", ?_, ?_⟩
      · simp [buildLoop, buildLine, hid, hqty, hpos, hp]
      · simp [directLoop, hpid, hp]
    | some p =>
      by_cases hs : p.quantity < q
      · left
        refine ⟨"Insufficient stock for " ++ p.name, ?_, ?_⟩
        · simp [buildLoop, buildLine, hid, hqty, hpos, hp, hs]
        · simp [directLoop, hpid, hp, hq, ltMaybe, hs]
      · have hline := @buildLine_ok products it pid p hid hp (by rw [hqty]; omega)
          (by rw [hqty]; exact not_lt.mp hs)
        have hstep : buildLoop products (it :: rest) acc t =
            buildLoop products rest
              (acc ++ [{ productId := p._id, name := p.name, sellerId := some p.seller,
                         quantity := itemQuantity it, price := p.price,
                         itemTotal := p.price * itemQuantity it }])
              (t + p.price * itemQuantity it) := by
          simp only [buildLoop, hline]
        have hdstep : directLoop products (it :: rest) cacc (some t) =
            directLoop products rest
              (cacc ++ [{ productId := p._id, name := p.name, sellerId := p.seller,
                          quantity := some q, price := p.price,
                          itemTotal := some (p.price * q) }])
              (some (t + p.price * q)) := by
          simp [directLoop, hpid, hp, hq, ltMaybe, hs, mulMaybe, addMaybe]
        rw [hstep, hdstep, hqty]
        apply ih (fun x hx => h x (List.mem_cons_of_mem _ hx))
        exact List.rel_append hacc
          (List.Forall₂.cons ⟨rfl, rfl, rfl, rfl, rfl, rfl⟩ List.Forall₂.nil)

/-- C29 (amended): the two order builders agree on every non-empty direct-purchase list in
which each entry has a `productId` and an integer quantity `>= 1`: either
`validateAndBuildOrderItems` throws and `buildOrderItems` answers 400 with the same message,
or both succeed with the same lines (product, name, seller, quantity, price, itemTotal) in
the same order and the same total. -/
theorem builders_agree (products : List Product) (carts : List Cart) (userId : Nat)
    (items : List SourceItem) (hne : items ≠ [])
    (h : ∀ it ∈ items, (∃ pid, it.productId = some pid) ∧
      ∃ q, it.quantity = some q ∧ 1 ≤ q) :
    (∃ e, validateAndBuildOrderItems products items = .error e ∧
      buildOrderItems products carts userId { directPurchase := true, items := items } =
        { status := 400, success := false, message := some e }) ∨
    (∃ ls t cls, validateAndBuildOrderItems products items = .ok (ls, t) ∧
      buildOrderItems products carts userId { directPurchase := true, items := items } =
        { status := 200, success := true, data := some (cls, some t) } ∧
      List.Forall₂ (fun l c => c.productId = l.productId ∧ c.name = l.name ∧
        some c.sellerId = l.sellerId ∧ c.quantity = some l.quantity ∧ c.price = l.price ∧
        c.itemTotal = some l.itemTotal) ls cls) := by
  have hlen : ¬ items.length = 0 := fun h0 => hne (List.length_eq_zero.mp h0)
  have hpos : items.length > 0 := Nat.pos_of_ne_zero hlen
  rcases builder_loops_agree products items h [] [] 0 List.Forall₂.nil with
    ⟨e, h1, h2⟩ | ⟨ls, t, cls, h1, h2, h3⟩
  · left
    refine ⟨e, by simp only [validateAndBuildOrderItems, hlen, if_false, h1], ?_⟩
    simp [buildOrderItems, hpos, h2, checkoutError]
  · right
    refine ⟨ls, t, cls, by simp only [validateAndBuildOrderItems, hlen, if_false, h1], ?_, h3⟩
    simp [buildOrderItems, hpos, h2]

theorem builders_agree_witness :
    (∃ e, validateAndBuildOrderItems sampleStore.products sampleShortBody.items = .error e ∧
      buildOrderItems sampleStore.products [] 7
          { directPurchase := true, items := sampleShortBody.items } =
        { status := 400, success := false, message := some e }) ∨
    (∃ ls t cls, validateAndBuildOrderItems sampleStore.products sampleShortBody.items =
        .ok (ls, t) ∧
      buildOrderItems sampleStore.products [] 7
          { directPurchase := true, items := sampleShortBody.items } =
        { status := 200, success := true, data := some (cls, some t) } ∧
      List.Forall₂ (fun l c => c.productId = l.productId ∧ c.name = l.name ∧
        some c.sellerId = l.sellerId ∧ c.quantity = some l.quantity ∧ c.price = l.price ∧
        c.itemTotal = some l.itemTotal) ls cls) :=
  builders_agree sampleStore.products [] 7 sampleShortBody.items (by decide) (by
    intro it hit
    simp only [sampleShortBody, List.mem_cons, List.mem_singleton, List.not_mem_nil,
      or_false] at hit
    rcases hit with rfl | rfl | rfl
    · exact ⟨⟨1, rfl⟩, 1, rfl, by decide⟩
    · exact ⟨⟨2, rfl⟩, 4, rfl, by decide⟩
    · exact ⟨⟨1, rfl⟩, 2, rfl, by decide⟩)

/-! ## Missing products in the checkout builder -/

/-- The cart loop prices the lines whose product exists, in order, and skips the others,
when every line whose product exists is within stock. -/
theorem cartLoop_ok (products : List Product) (items : List CartItem)
    (h : ∀ c ∈ items, ∀ p, findProduct products c.product = some p → c.quantity ≤ p.quantity)
    (acc : List CheckoutLine) (t : Int) :
    cartLoop products items acc (some t) =
      .ok (acc ++ items.filterMap (fun c => (findProduct products c.product).map (fun p =>
              ({ productId := p._id, name := p.name, sellerId := p.seller,
                 quantity := some c.quantity, price := p.price,
                 itemTotal := some (p.price * c.quantity) } : CheckoutLine))),
           some (t + ((items.filterMap (fun c => (findProduct products c.product).map
              (fun p => p.price * c.quantity))).sum))) := by
  induction items generalizing acc t with
  | nil => simp [cartLoop]
  | cons c rest ih =>
    have hrest := fun x hx => h x (List.mem_cons_of_mem _ hx)
    unfold cartLoop
    cases hp : findProduct products c.product with
    | none =>
      simp only [ih hrest, List.filterMap_cons, hp, Option.map_none']
    | some p =>
      have hle := h c (List.mem_cons_self _ _) p hp
      simp only [not_lt.mpr hle, if_false, addMaybe, ih hrest, List.filterMap_cons, hp,
        Option.map_some', List.append_assoc, List.singleton_append, List.sum_cons, add_assoc]

/-- The direct-purchase loop throws when some entry names no existing product. -/
theorem directLoop_missing (products : List Product) (items : List SourceItem)
    (h : ∃ it ∈ items, it.productId.bind (findProduct products) = none)
    (acc : List CheckoutLine) (t : Option Int) :
    ∃ e, directLoop products items acc t = .error e ∧
      (e = "Product not found" ∨ ∃ name, e = "Insufficient stock for " ++ name) := by
  induction items generalizing acc t with
  | nil =>
    obtain ⟨it, hit, -⟩ := h
    simp at hit
  | cons it rest ih =>
    unfold directLoop
    cases hp : it.productId.bind (findProduct products) with
    | none => exact ⟨_, rfl, Or.inl rfl⟩
    | some p =>
      by_cases hs : ltMaybe p.quantity it.quantity = true
      · exact ⟨_, by simp only [hs, if_true], Or.inr ⟨p.name, rfl⟩⟩
      · simp only [hs, if_false]
        apply ih
        obtain ⟨x, hx, hmiss⟩ := h
        rcases List.mem_cons.mp hx with rfl | hx
        · rw [hp] at hmiss
          cases hmiss
        · exact ⟨x, hx, hmiss⟩

/-- The direct-purchase loop throws 'Product not found' at the first entry without an
existing product when the entries before it are accepted. -/
theorem directLoop_first_missing (products : List Product) (pre post : List SourceItem)
    (it : SourceItem)
    (hpre : ∀ x ∈ pre, ∃ p, x.productId.bind (findProduct products) = some p ∧
      ltMaybe p.quantity x.quantity = false)
    (hmiss : it.productId.bind (findProduct products) = none)
    (acc : List CheckoutLine) (t : Option Int) :
    directLoop products (pre ++ it :: post) acc t = .error "Product not found" := by
  induction pre generalizing acc t with
  | nil => simp [directLoop, hmiss]
  | cons x pre ih =>
    obtain ⟨p, hp, hs⟩ := hpre x (List.mem_cons_self _ _)
    show directLoop products (x :: (pre ++ it :: post)) acc t = _
    simp only [directLoop, hp, hs, if_false, Bool.false_eq_true]
    exact ih (fun y hy => hpre y (List.mem_cons_of_mem _ hy)) _ _

/-- C26: missing products in the checkout builder. Built from the buyer's cart, the lines
whose product no longer exists are skipped and the other lines, when within stock, are priced
and returned in order with their total. Built from a non-empty direct-purchase list, an
entry whose product does not exist makes the build fail with no lines and no total, and
the message is 'Product not found' when the entries before it are accepted. -/
theorem buildOrderItems_missing_products (products : List Product) (carts : List Cart)
    (userId : Nat) (body : CheckoutBody) :
    (∀ cart, (body.directPurchase = false ∨ body.items = []) →
      findCart carts userId = some cart → cart.items ≠ [] →
      (∀ c ∈ cart.items, ∀ p, findProduct products c.product = some p →
        c.quantity ≤ p.quantity) →
      buildOrderItems products carts userId body =
        { status := 200, success := true,
          data := some
            (cart.items.filterMap (fun c => (findProduct products c.product).map (fun p =>
              ({ productId := p._id, name := p.name, sellerId := p.seller,
                 quantity := some c.quantity, price := p.price,
                 itemTotal := some (p.price * c.quantity) } : CheckoutLine))),
             some ((cart.items.filterMap (fun c => (findProduct products c.product).map
              (fun p => p.price * c.quantity))).sum)) }) ∧
    (body.directPurchase = true →
      (∃ it ∈ body.items, it.productId.bind (findProduct products) = none) →
      (buildOrderItems products carts userId body).success = false ∧
      (buildOrderItems products carts userId body).data = none) ∧
    (∀ pre it post, body.directPurchase = true → body.items = pre ++ it :: post →
      (∀ x ∈ pre, ∃ p, x.productId.bind (findProduct products) = some p ∧
        ltMaybe p.quantity x.quantity = false) →
      it.productId.bind (findProduct products) = none →
      buildOrderItems products carts userId body =
        { status := 400, success := false, message := some "Product not found" }) := by
  refine ⟨?_, ?_, ?_⟩
  · intro cart hpath hcart hne hstock
    have hcond : (body.directPurchase && decide (body.items.length > 0)) = false := by
      rcases hpath with hd | hi
      · simp [hd]
      · simp [hi]
    have hlen : ¬ cart.items.length = 0 := fun h0 => hne (List.length_eq_zero.mp h0)
    have hloop := cartLoop_ok products cart.items hstock [] 0
    simp only [List.nil_append, zero_add] at hloop
    simp only [buildOrderItems, hcond, hcart, hlen, hloop, if_false, Bool.false_eq_true]
  · intro hd hmiss
    have hpos : body.items.length > 0 := by
      obtain ⟨it, hit, -⟩ := hmiss
      exact List.length_pos_of_mem hit
    obtain ⟨e, he, -⟩ := directLoop_missing products body.items hmiss [] (some 0)
    simp [buildOrderItems, hd, hpos, he, checkoutError]
  · intro pre it post hd hitems hpre hmiss
    have hpos : body.items.length > 0 := by
      rw [hitems]
      simp
    have he : directLoop products body.items [] (some 0) = .error "Product not found" := by
      rw [hitems]
      exact directLoop_first_missing products pre post it hpre hmiss [] (some 0)
    simp [buildOrderItems, hd, hpos, he, checkoutError]

theorem buildOrderItems_missing_products_witness :
    buildOrderItems sampleStore.products [sampleStaleCart] 7 {} =
      { status := 200, success := true,
        data := some
          ([{ productId := 1, name := "Pen", sellerId := 9, quantity := some 2, price := 100,
              itemTotal := some 200 },
            { productId := 2, name := "Ink", sellerId := 8, quantity := some 1, price := 40,
              itemTotal := some 40 }], some 240) } ∧
    buildOrderItems sampleStore.products [sampleStaleCart] 7 sampleMissingCheckout =
      { status := 400, success := false, message := some "Product not found" } :=
  ⟨(buildOrderItems_missing_products sampleStore.products [sampleStaleCart] 7 {}).1
      sampleStaleCart (Or.inl rfl) rfl (by decide) (by decide),
   (buildOrderItems_missing_products sampleStore.products [sampleStaleCart] 7
      sampleMissingCheckout).2.2 [{ productId := some 1, quantity := some 1 }]
      { productId := some 4, quantity := some 1 } [] rfl rfl
      (by
        intro x hx
        simp only [List.mem_singleton] at hx
        subst hx
        exact ⟨samplePen, by decide, by decide⟩)
      (by decide)⟩

end Shopease
